import Mathlib

/-!
Shallow embedding of the nikopoke battle-engine core (JavaScript sources:
`engine/core/events.js`, `engine/core/factory.js`, `engine/core/state.js`,
`engine/core/utils.js`, `engine/effects/index.js`, `engine/abilities/index.js`,
`engine/statuses/index.js`, `engine/core/battle.js`,
`engine-legacy/core/replay.js`, `engine/data/type_chart.js`).

JavaScript numbers are modelled as rationals (`ℚ`); all arithmetic the engine
performs on the modelled paths (addition, multiplication, division, `floor`,
`min`, `max`) is exact on the values involved, so `ℚ` is faithful.  Plain JS
objects used as string-keyed maps (stage maps, PP maps) are modelled as
association lists preserving insertion order, matching `Object.entries`
iteration.  The single place the event applier can throw (reading `.name` of a
missing incoming creature in the `switch` case) is modelled with `Option`.
-/

namespace Nikopoke

/-- JS-object helper: read a string-keyed map, `undefined` as `none`. -/
def assocGet (m : List (String × ℚ)) (key : String) : Option ℚ :=
  match m.find? (fun kv => kv.1 == key) with
  | some kv => some kv.2
  | none => none

/-- JS-object helper: `obj[key] = v` (update in place, else append). -/
def assocSet (m : List (String × ℚ)) (key : String) (v : ℚ) : List (String × ℚ) :=
  match m with
  | [] => [(key, v)]
  | kv :: rest =>
    if kv.1 == key then (key, v) :: rest else kv :: assocSet rest key v

/-- `utils.js` `stageMultiplier`. -/
def stageMultiplier (stage : ℚ) : ℚ :=
  let s := max (-6) (min 6 stage)
  if s >= 0 then (2 + s) / 2 else 2 / (2 - s)

/-- Condition records of the `conditional` effect (`effects/index.js`). -/
inductive Cond where
  | target_has_status (statusId : String)
  | target_hp_lt (value : Option ℚ)
  | field_has_status (statusId : String)
  | weather_is_sunny
  | weather_is_raining
  | weather_is_hail
  | weather_is_sandstorm
  | user_type (typeId : String)
  | user_has_status (statusId : String)
  | target_has_item
  | user_has_item
  | unknownCond

/-- `repeat.times` (and `.count`): an integer or a `{min, max}` range. -/
inductive TimesSpec where
  | num (n : ℚ)
  | range (lo hi : ℚ)

/-- `apply_status.duration`: absent/null, a number, or a `{min, max}` range. -/
inductive DurationSpec where
  | nullD
  | num (n : ℚ)
  | range (lo hi : ℚ)

/-- One `{ratio, power}` entry of `speed_based_damage.thresholds`. -/
structure Threshold where
  ratio : Option ℚ
  power : Option ℚ

mutual

/-- Declarative move effects (`effects/index.js` `applyEffect` cases). -/
inductive Effect where
  | protect
  | damage (power accuracy : Option ℚ)
  | speed_based_damage (thresholds : List Threshold) (basePower accuracy : Option ℚ)
  | apply_status (statusId : String) (target : Option String) (duration : DurationSpec)
      (stack : Option Bool) (chance : Option ℚ) (data : Option SD)
  | ohko (baseAccuracy : Option ℚ) (requiredType : Option String)
      (nonMatchingTypeAccuracy : Option ℚ) (levelScaling : Option Bool)
      (respectTypeImmunity : Option Bool) (failIfTargetHigherLevel : Option Bool)
      (immuneTypes : Option (List String))
  | apply_field_status (statusId : String) (duration : Option ℚ) (stack : Option Bool)
      (data : Option SD)
  | remove_status (statusId : String) (target : Option String)
  | remove_field_status (statusId : String)
  | log (message : String)
  | cure_all_status (target : Option String)
  | replace_status (target : Option String) (fromId toId : String) (duration : Option ℚ)
      (data : Option SD)
  | modify_stage (target : Option String) (stages : List (String × ℚ))
      (clamp fail_if_no_change show_event : Option Bool)
  | clear_stages (target : Option String) (show_event : Option Bool)
  | reset_stages (target : Option String) (show_event : Option Bool)
  | disable_move (target : Option String) (duration : Option ℚ) (moveId : Option String)
  | chance (p : Option ℚ) (thenE : List Effect) (elseE : Option (List Effect))
  | repeatE (times : Option TimesSpec) (count : Option TimesSpec) (effects : List Effect)
  | conditional (ifC : Cond) (thenE elseE : Option (List Effect))
  | damage_ratio (ratioMaxHp : Option ℚ) (target : Option String)
  | delay (afterTurns : Option ℚ) (timing : Option String) (effects : List Effect)
      (target : Option String)
  | over_time (duration : Option ℚ) (timing : Option String) (effects : List Effect)
      (target : Option String)
  | random_move (pool : Option String)
  | apply_item (target : Option String) (itemId : Option String)
  | remove_item (target : Option String)
  | consume_item (target : Option String) (markBerryConsumed : Option Bool)
  | self_switch
  | force_switch (target : Option String)
  | unknownEffect

/-- The `data` payload carried by statuses and status events (the union of
fields the source reads: `sourceId`, `itemId`, `moveId`, `mode`, `timing`,
`targetId`, `triggerTurn`, `turns`, `effects`). -/
inductive SD where
  | mk (sourceId itemId moveId mode timing targetId : Option String)
      (triggerTurn turns : Option ℚ) (effects : List Effect)

end

def SD.empty : SD := .mk none none none none none none none none []

def SD.sourceId : SD → Option String | .mk s _ _ _ _ _ _ _ _ => s

def SD.itemId : SD → Option String | .mk _ i _ _ _ _ _ _ _ => i

def SD.moveId : SD → Option String | .mk _ _ m _ _ _ _ _ _ => m

def SD.mode : SD → Option String | .mk _ _ _ m _ _ _ _ _ => m

def SD.timing : SD → Option String | .mk _ _ _ _ t _ _ _ _ => t

def SD.targetId : SD → Option String | .mk _ _ _ _ _ t _ _ _ => t

def SD.triggerTurn : SD → Option ℚ | .mk _ _ _ _ _ _ t _ _ => t

def SD.turns : SD → Option ℚ | .mk _ _ _ _ _ _ _ t _ => t

def SD.effects : SD → List Effect | .mk _ _ _ _ _ _ _ _ e => e

/-- Replace the `sourceId` field (used when resolving `sourceId == "self"`). -/
def SD.setSourceId : SD → Option String → SD
  | .mk _ i m md tm tg tr tu e, s => .mk s i m md tm tg tr tu e

/-- Replace the `turns` field (used by the `yawn` status handler). -/
def SD.setTurns : SD → Option ℚ → SD
  | .mk s i m md tm tg tr _ e, t => .mk s i m md tm tg tr t e

/-- Event `meta` record; flags default to the JS falsiness of `undefined`. -/
structure Meta where
  source : Option String := none
  target : Option String := none
  moveId : Option String := none
  fromId : Option String := none
  parentalBond : Bool := false
  bounced : Bool := false
  cancellable : Bool := false
  ohko : Bool := false
  competitive : Bool := false
  opportunist : Bool := false

/-- The closed event vocabulary consumed by `applyEvent` (`events.js`). -/
inductive Event where
  | log (message : String)
  | switchE (playerId : String) (slot : ℕ)
  | apply_status (targetId statusId : String) (duration : Option ℚ) (stack : Bool)
      (data : SD) (meta : Meta)
  | remove_status (targetId statusId : String) (meta : Meta)
  | cure_all_status (targetId : String) (meta : Meta)
  | replace_status (targetId fromId toId : String) (duration : Option ℚ) (data : SD)
      (meta : Meta)
  | apply_field_status (statusId : String) (duration : Option ℚ) (stack : Bool) (data : SD)
      (meta : Meta)
  | remove_field_status (statusId : String) (meta : Meta)
  | random_move (pool : String) (meta : Meta)
  | modify_stage (targetId : String) (stages : List (String × ℚ))
      (clamp failIfNoChange showEvent : Bool) (meta : Meta)
  | clear_stages (targetId : String) (showEvent : Bool) (meta : Meta)
  | reset_stages (targetId : String) (showEvent : Bool) (meta : Meta)
  | damage (targetId : String) (amount : ℚ) (meta : Meta)
  | self_switch (targetId : String)
  | force_switch (targetId : String)

/-- `event.targetId` as read generically by hooks and transforms
(`switch` events carry `playerId`, not `targetId`; `log` has none). -/
def Event.targetId : Event → Option String
  | .log _ => none
  | .switchE _ _ => none
  | .apply_status t _ _ _ _ _ => some t
  | .remove_status t _ _ => some t
  | .cure_all_status t _ => some t
  | .replace_status t _ _ _ _ _ => some t
  | .apply_field_status _ _ _ _ _ => none
  | .remove_field_status _ _ => none
  | .random_move _ _ => none
  | .modify_stage t _ _ _ _ _ => some t
  | .clear_stages t _ _ => some t
  | .reset_stages t _ _ => some t
  | .damage t _ _ => some t
  | .self_switch t => some t
  | .force_switch t => some t

/-- `event.meta` as read generically (`undefined` meta behaves as all-absent). -/
def Event.meta : Event → Meta
  | .log _ => {}
  | .switchE _ _ => {}
  | .apply_status _ _ _ _ _ m => m
  | .remove_status _ _ m => m
  | .cure_all_status _ m => m
  | .replace_status _ _ _ _ _ m => m
  | .apply_field_status _ _ _ _ m => m
  | .remove_field_status _ m => m
  | .random_move _ m => m
  | .modify_stage _ _ _ _ _ m => m
  | .clear_stages _ _ m => m
  | .reset_stages _ _ m => m
  | .damage _ _ m => m
  | .self_switch _ => {}
  | .force_switch _ => {}

/-- The JS `event.type` tag string. -/
def Event.typeTag : Event → String
  | .log _ => "log"
  | .switchE _ _ => "switch"
  | .apply_status _ _ _ _ _ _ => "apply_status"
  | .remove_status _ _ _ => "remove_status"
  | .cure_all_status _ _ => "cure_all_status"
  | .replace_status _ _ _ _ _ _ => "replace_status"
  | .apply_field_status _ _ _ _ _ => "apply_field_status"
  | .remove_field_status _ _ => "remove_field_status"
  | .random_move _ _ => "random_move"
  | .modify_stage _ _ _ _ _ _ => "modify_stage"
  | .clear_stages _ _ _ => "clear_stages"
  | .reset_stages _ _ _ => "reset_stages"
  | .damage _ _ _ => "damage"
  | .self_switch _ => "self_switch"
  | .force_switch _ => "force_switch"

/-- A volatile status entry `(id, remainingTurns | null, data)`. -/
structure VolatileStatus where
  id : String
  remainingTurns : Option ℚ
  data : SD

/-- `abilityData` scratch flags the ability handlers read and write. -/
structure AbilityData where
  intimidateUsed : Bool := false
  downloadUsed : Bool := false
  droughtUsed : Bool := false
  liberoUsed : Bool := false
  copiedAbility : Option String := none

/-- `volatileData` scratch (`lastMove`, `protectSuccessCount`).  The counter
only ever holds the naturals the source writes (0 or a previous value + 1),
so it is typed `ℕ`; the `protect` halving loop then runs exactly that many
times. -/
structure VolatileData where
  lastMove : Option String := none
  protectSuccessCount : ℕ := 0

/-- A battle-ready creature (`core/state.js` `CreatureState`). -/
structure Creature where
  id : String
  name : String
  speciesId : String
  level : ℚ
  types : List String
  moves : List String
  ability : String
  item : Option String
  hp : ℚ
  maxHp : ℚ
  status : Option String
  statuses : List VolatileStatus
  stages : List (String × ℚ)
  movePp : List (String × Option ℚ)
  attack : ℚ
  defense : ℚ
  spAttack : ℚ
  spDefense : ℚ
  speed : ℚ
  abilityData : AbilityData
  volatileData : VolatileData

/-- A side (`core/state.js` `PlayerState`). -/
structure Player where
  id : String
  name : String
  team : List Creature
  activeSlot : ℕ
  lastFaintedAbility : Option String := none

/-- A `field.global` entry. -/
structure FieldEffect where
  id : String
  remainingTurns : Option ℚ
  data : SD

/-- A submitted action (`{type, playerId, moveId?, targetId?, slot?,
priority?}`).  `slot` defaults to 0 standing for the absent slot of non-switch
actions (only `switch` actions ever read it). -/
structure Action where
  type : String
  playerId : String
  moveId : Option String := none
  targetId : Option String := none
  slot : ℕ := 0
  priority : Option ℚ := none
deriving DecidableEq

/-- One recorded turn of history (`{turn, actions, log, rng}`); a recorded
action carries the projected fields of the ordered action with `priority`
set to its computed `_priority`. -/
structure TurnRecord where
  turn : ℕ
  actions : List Action
  log : List String
  rng : List ℚ

/-- The battle state (`core/state.js` `BattleState`); `field.sides` is unused
by every modelled code path and omitted. -/
structure BattleState where
  players : List Player
  fieldGlobal : List FieldEffect
  turn : ℕ
  log : List String
  history : Option (List TurnRecord)

/-- `utils.js` `getActiveCreature` (engine states always carry `team` and a
numeric `activeSlot`, so the legacy `player.active` fallback is dead code). -/
def getActiveCreature (state : BattleState) (playerId : String) : Option Creature :=
  match state.players.find? (fun p => p.id == playerId) with
  | none => none
  | some player => player.team.get? player.activeSlot

/-- `players.find(...)`. -/
def getPlayer (state : BattleState) (playerId : String) : Option Player :=
  state.players.find? (fun p => p.id == playerId)

/-- Mutate the first player whose id matches (JS mutates the object
`players.find` returned, which is the first match). -/
def updatePlayersFirst (ps : List Player) (playerId : String) (f : Player → Player) :
    List Player :=
  match ps with
  | [] => []
  | p :: rest =>
    if p.id == playerId then f p :: rest else p :: updatePlayersFirst rest playerId f

/-- Mutate the first player whose id matches, inside a state. -/
def updatePlayer (state : BattleState) (playerId : String) (f : Player → Player) :
    BattleState :=
  { state with players := updatePlayersFirst state.players playerId f }

/-- Mutate a team slot in place (`player.team[slot]` mutation). -/
def updateTeamSlot (p : Player) (slot : ℕ) (f : Creature → Creature) : Player :=
  { p with team := List.modify f slot p.team }

/-- Mutate the active creature of a player in place. -/
def updateActiveCreature (state : BattleState) (playerId : String)
    (f : Creature → Creature) : BattleState :=
  updatePlayer state playerId (fun p => updateTeamSlot p p.activeSlot f)

/-- Append a log line. -/
def pushLog (state : BattleState) (message : String) : BattleState :=
  { state with log := state.log ++ [message] }

/-- The fresh all-zero stage object the source assigns on switch-out and on
`clear_stages` / `reset_stages`. -/
def zeroStages : List (String × ℚ) :=
  [("atk", 0), ("def", 0), ("spa", 0), ("spd", 0), ("spe", 0), ("acc", 0), ("eva", 0)]

/-- `NON_VOLATILE` of the `switch` case in `events.js`. -/
def NON_VOLATILE : List String := ["burn", "poison", "toxic", "paralysis", "sleep", "freeze"]

/-- `abilities/index.js` `onCheckStatusImmunity` handlers, dispatched by
ability id (`none` when the ability implements no such hook). -/
def abilityCheckStatusImmunity (ability statusId : String) : Option Bool :=
  match ability with
  | "immunity" => some (statusId == "poison" || statusId == "toxic")
  | "insomnia" => some (statusId == "sleep")
  | "own_tempo" => some (statusId == "confusion")
  | _ => none

/-- `runAbilityCheckHook(state, playerId, "onCheckStatusImmunity", {statusId})`
with default `false`. -/
def runCheckStatusImmunity (state : BattleState) (playerId statusId : String) : Bool :=
  match state.players.find? (fun p => p.id == playerId) with
  | none => false
  | some _ =>
    match getActiveCreature state playerId with
    | none => false
    | some active => (abilityCheckStatusImmunity active.ability statusId).getD false

/-- `abilities/index.js` `onModifyStage` handlers (Contrary, Simple). -/
def abilityModifyStage (ability : String) (stages : List (String × ℚ)) :
    Option (List (String × ℚ)) :=
  match ability with
  | "contrary" => some (stages.map (fun kv => (kv.1, -kv.2)))
  | "simple" => some (stages.map (fun kv => (kv.1, kv.2 * 2)))
  | _ => none

/-- `runAbilityValueHook(state, targetId, "onModifyStage", stages, {stages})`. -/
def runModifyStageHook (state : BattleState) (playerId : String)
    (stages : List (String × ℚ)) : List (String × ℚ) :=
  match state.players.find? (fun p => p.id == playerId) with
  | none => stages
  | some _ =>
    match getActiveCreature state playerId with
    | none => stages
    | some active => (abilityModifyStage active.ability stages).getD stages

/-- `events.js` `formatStages`. -/
def formatStages (stages : List (String × ℚ)) : String :=
  "atk " ++ toString ((assocGet stages "atk").getD 0) ++
  ", def " ++ toString ((assocGet stages "def").getD 0) ++
  ", spa " ++ toString ((assocGet stages "spa").getD 0) ++
  ", spd " ++ toString ((assocGet stages "spd").getD 0) ++
  ", spe " ++ toString ((assocGet stages "spe").getD 0)

/-- The sequential `for (const [key, delta] of Object.entries(adjusted))` loop
of the `modify_stage` case. -/
def applyStageDeltas (stages : List (String × ℚ)) (adjusted : List (String × ℚ))
    (clamp : Bool) : List (String × ℚ) :=
  adjusted.foldl
    (fun acc kv =>
      let prev := (assocGet acc kv.1).getD 0
      let nextStage := prev + kv.2
      let nextStage := if clamp then max (-6) (min 6 nextStage) else nextStage
      assocSet acc kv.1 nextStage)
    stages

/-- The switch-out reset the source performs on the outgoing creature:
fresh zero stages, only the non-volatile statuses kept, scratch cleared. -/
def switchOutReset (outgoing : Creature) : Creature :=
  { outgoing with
    stages := zeroStages
    statuses := outgoing.statuses.filter (fun s => NON_VOLATILE.contains s.id)
    abilityData := {}
    volatileData := {} }

/-- The full per-player mutation of the `switch` event: reset the outgoing
creature when one exists, then move `activeSlot`. -/
def switchPlayerUpdate (slot : ℕ) (p : Player) : Player :=
  let p' :=
    match p.team.get? p.activeSlot with
    | none => p
    | some _ => updateTeamSlot p p.activeSlot switchOutReset
  { p' with activeSlot := slot }

/-- The `apply_field_status` in-place overwrite: the source finds the first
index whose id matches and assigns a fresh entry there
(`next.field.global[existingIndex] = {...}`). -/
def replaceFirstField (l : List FieldEffect) (statusId : String) (entry : FieldEffect) :
    List FieldEffect :=
  match l with
  | [] => l
  | e :: rest =>
    if e.id == statusId then entry :: rest
    else e :: replaceFirstField rest statusId entry

/-- `events.js` `applyEvent`: the only state mutator.  Returns `none` exactly
where the source throws: the `switch` case reads `incoming.name` with
`incoming = player.team[slot]`, which is a TypeError when `slot` is out of
range. -/
def applyEvent (state : BattleState) (event : Event) : Option BattleState :=
  match event with
  | .log message =>
    if message ≠ "" then some (pushLog state message) else some state
  | .switchE playerId slot =>
    match state.players.find? (fun p => p.id == playerId) with
    | none => some state
    | some player =>
      match player.team.get? slot with
      | none => none
      | some incoming =>
        let state := updatePlayer state playerId (switchPlayerUpdate slot)
        some (pushLog state (player.name ++ " sent out " ++ incoming.name ++ "!"))
  | .apply_status targetId statusId duration stack data _ =>
    match getActiveCreature state targetId with
    | none => some state
    | some target =>
      if runCheckStatusImmunity state targetId statusId then
        some (pushLog state (target.name ++ " is immune to " ++ statusId ++ "."))
      else if (target.statuses.find? (fun s => s.id == statusId)).isSome && !stack then
        some (pushLog state (target.name ++ " already has " ++ statusId ++ "."))
      else
        let state := updateActiveCreature state targetId (fun c =>
          { c with statuses := c.statuses ++ [⟨statusId, duration, data⟩] })
        some (pushLog state (target.name ++ " is now " ++ statusId ++ "."))
  | .remove_status targetId statusId _ =>
    match getActiveCreature state targetId with
    | none => some state
    | some target =>
      let newStatuses := target.statuses.filter (fun s => s.id ≠ statusId)
      let state := updateActiveCreature state targetId (fun c =>
        { c with statuses := c.statuses.filter (fun s => s.id ≠ statusId) })
      if target.statuses.length ≠ newStatuses.length then
        some (pushLog state (target.name ++ " is no longer " ++ statusId ++ "."))
      else
        some state
  | .cure_all_status targetId _ =>
    match getActiveCreature state targetId with
    | none => some state
    | some target =>
      if target.statuses.length > 0 then
        let state := updateActiveCreature state targetId (fun c => { c with statuses := [] })
        some (pushLog state (target.name ++ "'s statuses were cured."))
      else
        some state
  | .replace_status targetId fromId toId duration data _ =>
    match getActiveCreature state targetId with
    | none => some state
    | some target =>
      if target.statuses.any (fun s => s.id == fromId) then
        let state := updateActiveCreature state targetId (fun c =>
          { c with statuses :=
              c.statuses.filter (fun s => s.id ≠ fromId) ++ [⟨toId, duration, data⟩] })
        some (pushLog state (target.name ++ "'s " ++ fromId ++ " changed to " ++ toId ++ "."))
      else
        some state
  | .apply_field_status statusId duration stack data _ =>
    if state.fieldGlobal.any (fun s => s.id == statusId) && !stack then
      some { state with
        fieldGlobal := replaceFirstField state.fieldGlobal statusId ⟨statusId, duration, data⟩ }
    else
      some { state with fieldGlobal := state.fieldGlobal ++ [⟨statusId, duration, data⟩] }
  | .remove_field_status statusId _ =>
    some { state with fieldGlobal := state.fieldGlobal.filter (fun s => s.id ≠ statusId) }
  | .random_move _ _ => some state
  | .modify_stage targetId stages clamp failIfNoChange showEvent _ =>
    match getActiveCreature state targetId with
    | none => some state
    | some target =>
      let adjusted := runModifyStageHook state targetId stages
      let before := target.stages
      let after := applyStageDeltas before adjusted clamp
      let state := updateActiveCreature state targetId (fun c => { c with stages := after })
      let changed := adjusted.any (fun kv => assocGet before kv.1 ≠ assocGet after kv.1)
      if !changed && failIfNoChange then
        some (pushLog state (target.name ++ "'s stats did not change."))
      else if changed && showEvent then
        some (pushLog state (target.name ++ "'s stages: " ++ formatStages before ++
          " -> " ++ formatStages after))
      else
        some state
  | .clear_stages targetId showEvent _ =>
    match getActiveCreature state targetId with
    | none => some state
    | some target =>
      let before := target.stages
      let state := updateActiveCreature state targetId (fun c => { c with stages := zeroStages })
      if showEvent then
        some (pushLog state (target.name ++ "'s stages were cleared (" ++
          formatStages before ++ " -> " ++ formatStages zeroStages ++ ")."))
      else
        some state
  | .reset_stages targetId showEvent _ =>
    match getActiveCreature state targetId with
    | none => some state
    | some target =>
      let before := target.stages
      let state := updateActiveCreature state targetId (fun c => { c with stages := zeroStages })
      if showEvent then
        some (pushLog state (target.name ++ "'s stages were reset (" ++
          formatStages before ++ " -> " ++ formatStages zeroStages ++ ")."))
      else
        some state
  | .damage targetId amount _ =>
    match getActiveCreature state targetId with
    | none => some state
    | some target =>
      let before := target.hp
      let after := max 0 (before - amount)
      let state := updateActiveCreature state targetId (fun c => { c with hp := after })
      let state := pushLog state (target.name ++ " took " ++ toString amount ++
        " damage (" ++ toString before ++ " -> " ++ toString after ++ ")")
      if after = 0 then
        let state := pushLog state (target.name ++ " fainted!")
        match state.players.find? (fun p => p.id == targetId) with
        | none => some state
        | some _ =>
          let state := updatePlayer state targetId (fun p =>
            { p with lastFaintedAbility := some target.ability })
          let state := updateActiveCreature state targetId (fun c =>
            if c.statuses.any (fun s => s.id == "pending_switch") then c
            else { c with statuses := c.statuses ++ [⟨"pending_switch", none, SD.empty⟩] })
          some state
      else
        some state
  | .self_switch targetId | .force_switch targetId =>
    match getActiveCreature state targetId with
    | some _ =>
      some (updateActiveCreature state targetId (fun c =>
        if c.statuses.any (fun s => s.id == "pending_switch") then c
        else { c with statuses := c.statuses ++ [⟨"pending_switch", none, SD.empty⟩] }))
    | none => some state

/-- `effects/index.js` `applyEvents`: fold the applier over an event list
(a JS exception aborts the whole computation). -/
def applyEvents (state : BattleState) (events : List Event) : Option BattleState :=
  match events with
  | [] => some state
  | ev :: rest =>
    match applyEvent state ev with
    | none => none
    | some next => applyEvents next rest

/-- `abilities/index.js` `setWeather`: filters out only `sun` and `rain`
before pushing the new entry. -/
def setWeather (state : BattleState) (id : String) (turns : Option ℚ) : BattleState :=
  { state with fieldGlobal :=
      state.fieldGlobal.filter (fun e => e.id ≠ "sun" && e.id ≠ "rain") ++
        [⟨id, turns, SD.empty⟩] }

/-- `abilities/index.js` `getWeather`: the first `sun`/`rain` entry. -/
def getWeather (state : BattleState) : Option String :=
  ((state.fieldGlobal.find? (fun e => e.id == "sun" || e.id == "rain")).map
    FieldEffect.id)

/-! ### State-access lemmas for the mutation helpers -/

theorem find?_updatePlayersFirst_self (ps : List Player) (pid : String)
    (f : Player → Player) (hid : ∀ p, (f p).id = p.id) :
    (updatePlayersFirst ps pid f).find? (fun p => p.id == pid) =
      (ps.find? (fun p => p.id == pid)).map f := by
  induction ps with
  | nil => rfl
  | cons p rest ih =>
    by_cases hp : p.id == pid
    · simp [updatePlayersFirst, List.find?, hp, hid p]
    · simp [updatePlayersFirst, List.find?, hp, ih]

theorem find?_updatePlayersFirst_other (ps : List Player) (pid qid : String)
    (f : Player → Player) (hid : ∀ p, (f p).id = p.id) (hne : qid ≠ pid) :
    (updatePlayersFirst ps pid f).find? (fun p => p.id == qid) =
      ps.find? (fun p => p.id == qid) := by
  induction ps with
  | nil => rfl
  | cons p rest ih =>
    by_cases hp : p.id == pid
    · have hp' : p.id = pid := by simpa using hp
      have hq : ((f p).id == qid) = (p.id == qid) := by rw [hid p]
      have hpq : (p.id == qid) = false := by
        apply beq_eq_false_iff_ne.mpr
        intro h
        exact hne (by rw [← h]; exact hp')
      simp [updatePlayersFirst, List.find?, hp, hq, hpq]
    · simp [updatePlayersFirst, List.find?, hp, ih]

theorem getPlayer_updatePlayer_self (s : BattleState) (pid : String) (f : Player → Player)
    (hid : ∀ p, (f p).id = p.id) :
    getPlayer (updatePlayer s pid f) pid = (getPlayer s pid).map f := by
  simp [getPlayer, updatePlayer, find?_updatePlayersFirst_self _ _ _ hid]

theorem getPlayer_pushLog (s : BattleState) (m : String) (pid : String) :
    getPlayer (pushLog s m) pid = getPlayer s pid := rfl

theorem getActiveCreature_eq_bind (s : BattleState) (pid : String) :
    getActiveCreature s pid = (getPlayer s pid).bind (fun p => p.team.get? p.activeSlot) := by
  simp only [getActiveCreature, getPlayer]
  cases List.find? (fun p => p.id == pid) s.players <;> rfl

theorem getActiveCreature_pushLog (s : BattleState) (m : String) (pid : String) :
    getActiveCreature (pushLog s m) pid = getActiveCreature s pid := rfl

theorem updateTeamSlot_id (p : Player) (slot : ℕ) (f : Creature → Creature) :
    (updateTeamSlot p slot f).id = p.id := rfl

theorem getPlayer_updateActiveCreature (s : BattleState) (pid : String)
    (f : Creature → Creature) :
    getPlayer (updateActiveCreature s pid f) pid =
      (getPlayer s pid).map (fun p => updateTeamSlot p p.activeSlot f) :=
  getPlayer_updatePlayer_self s pid (fun p => updateTeamSlot p p.activeSlot f)
    (fun _ => rfl)

theorem getActiveCreature_updateActiveCreature (s : BattleState) (pid : String)
    (f : Creature → Creature) :
    getActiveCreature (updateActiveCreature s pid f) pid =
      (getActiveCreature s pid).map f := by
  rw [getActiveCreature_eq_bind, getActiveCreature_eq_bind,
    getPlayer_updateActiveCreature]
  cases getPlayer s pid with
  | none => rfl
  | some p => simp [updateTeamSlot, List.getElem?_modify_eq, Option.map_eq_map]

theorem getActiveCreature_updatePlayer (s : BattleState) (pid : String)
    (f : Player → Player) (hid : ∀ p, (f p).id = p.id)
    (hteam : ∀ p, (f p).team = p.team) (hslot : ∀ p, (f p).activeSlot = p.activeSlot) :
    getActiveCreature (updatePlayer s pid f) pid = getActiveCreature s pid := by
  rw [getActiveCreature_eq_bind, getActiveCreature_eq_bind,
    getPlayer_updatePlayer_self s pid f hid]
  cases getPlayer s pid with
  | none => rfl
  | some p => simp [hteam p, hslot p]

/-! ### Concrete fixtures used by counterexamples and witnesses -/

/-- A minimal creature record, as the factory would build it. -/
def mkCreature (name ability : String) (hp maxHp : ℚ) : Creature :=
  { id := name, name := name, speciesId := name, level := 50, types := ["normal"],
    moves := [], ability := ability, item := none, hp := hp, maxHp := maxHp,
    status := none, statuses := [], stages := zeroStages, movePp := [],
    attack := 50, defense := 50, spAttack := 50, spDefense := 50, speed := 50,
    abilityData := {}, volatileData := {} }

/-- A minimal two-player battle state. -/
def mkState (team1 team2 : List Creature) : BattleState :=
  { players := [⟨"p1", "P1", team1, 0, none⟩, ⟨"p2", "P2", team2, 0, none⟩],
    fieldGlobal := [], turn := 0, log := [], history := none }

/-- The four weather identifiers of the spec. -/
def weatherIds : List String := ["sun", "rain", "hail", "sandstorm"]

/-! ### C2 — the `damage` case of the event applier -/

/-- C2 (counterexample): a damage event with negative amount heals with no
`maxHp` clamp: at full hp 100/100, amount `-50` leaves the creature at 150 hp,
so "the healed hp is clamped above at maxHp" and "after any damage event
`0 ≤ hp ≤ maxHp` holds" are both false. -/
theorem C2_counterexample_no_maxHp_clamp :
    ((applyEvent (mkState [mkCreature "a" "none" 100 100] [mkCreature "b" "none" 100 100])
        (.damage "p1" (-50) {})).bind
      (fun s' => (getActiveCreature s' "p1").map Creature.hp)) = some 150 ∧
    ¬ ((150 : ℚ) ≤ (mkCreature "a" "none" 100 100).maxHp) := by
  constructor
  · have h : getActiveCreature
        (mkState [mkCreature "a" "none" 100 100] [mkCreature "b" "none" 100 100]) "p1" =
        some (mkCreature "a" "none" 100 100) := rfl
    have hhp : (mkCreature "a" "none" 100 100).hp = (100 : ℚ) := rfl
    simp only [applyEvent, h, hhp]
    rw [if_neg (by norm_num : ¬ max (0 : ℚ) (100 - (-50)) = 0)]
    simp only [Option.some_bind, getActiveCreature_pushLog,
      getActiveCreature_updateActiveCreature, h, Option.map_some]
    norm_num
  · have : (mkCreature "a" "none" 100 100).maxHp = 100 := rfl
    rw [this]
    norm_num

/-- C2 (amended): for every damage event whose target resolves to an active
creature, the new hp is `max 0 (hp − amount)` — so hp never drops below 0 and a
negative amount heals, but with no upper clamp at `maxHp`; when the new hp is
exactly 0, a `pending_switch` volatile ends up on the target's active creature
and the owning player's `lastFaintedAbility` records the target's ability. -/
theorem damage_event_applier_behavior (s : BattleState) (tid : String) (amount : ℚ)
    (m : Meta) (target : Creature) (h : getActiveCreature s tid = some target) :
    ((applyEvent s (.damage tid amount m)).bind
      (fun s' => (getActiveCreature s' tid).map Creature.hp)) =
        some (max 0 (target.hp - amount)) ∧
    (0 : ℚ) ≤ max 0 (target.hp - amount) ∧
    (max 0 (target.hp - amount) = 0 →
      ((applyEvent s (.damage tid amount m)).bind
        (fun s' => (getActiveCreature s' tid).map
          (fun c => c.statuses.any (fun st => st.id == "pending_switch")))) = some true ∧
      ((applyEvent s (.damage tid amount m)).bind
        (fun s' => (getPlayer s' tid).map Player.lastFaintedAbility)) =
          some (some target.ability)) := by
  have hbind := getActiveCreature_eq_bind s tid
  rw [h] at hbind
  have hp : ∃ p, getPlayer s tid = some p := by
    cases hq : getPlayer s tid with
    | none => rw [hq] at hbind; simp at hbind
    | some p => exact ⟨p, rfl⟩
  obtain ⟨p, hp⟩ := hp
  by_cases h0 : max 0 (target.hp - amount) = 0
  · have hfind : List.find? (fun q => q.id == tid)
        (pushLog (pushLog (updateActiveCreature s tid
          (fun c => { c with hp := max 0 (target.hp - amount) }))
          (target.name ++ " took " ++ toString amount ++ " damage (" ++
            toString target.hp ++ " -> " ++ toString (max 0 (target.hp - amount)) ++ ")"))
          (target.name ++ " fainted!")).players =
        some (updateTeamSlot p p.activeSlot
          (fun c => { c with hp := max 0 (target.hp - amount) })) := by
      show getPlayer (pushLog (pushLog (updateActiveCreature s tid
          (fun c => { c with hp := max 0 (target.hp - amount) })) _) _) tid = _
      rw [getPlayer_pushLog, getPlayer_pushLog, getPlayer_updateActiveCreature, hp]
      rfl
    refine ⟨?_, le_max_left _ _, fun _ => ⟨?_, ?_⟩⟩
    · simp only [applyEvent]
      simp only [h]
      simp only [if_pos h0]
      simp only [hfind]
      simp only [Option.some_bind]
      rw [getActiveCreature_updateActiveCreature,
        getActiveCreature_updatePlayer _ tid
          (fun q => { q with lastFaintedAbility := some target.ability })
          (fun _ => rfl) (fun _ => rfl) (fun _ => rfl),
        getActiveCreature_pushLog, getActiveCreature_pushLog,
        getActiveCreature_updateActiveCreature, h]
      simp only [Option.map_some', Option.some.injEq]
      split <;> rfl
    · simp only [applyEvent]
      simp only [h]
      simp only [if_pos h0]
      simp only [hfind]
      simp only [Option.some_bind]
      rw [getActiveCreature_updateActiveCreature,
        getActiveCreature_updatePlayer _ tid
          (fun q => { q with lastFaintedAbility := some target.ability })
          (fun _ => rfl) (fun _ => rfl) (fun _ => rfl),
        getActiveCreature_pushLog, getActiveCreature_pushLog,
        getActiveCreature_updateActiveCreature, h]
      simp only [Option.map_some', Option.some.injEq]
      split
      · next hc => exact hc
      · next hc => simp [List.any_append]
    · simp only [applyEvent]
      simp only [h]
      simp only [if_pos h0]
      simp only [hfind]
      simp only [Option.some_bind]
      rw [getPlayer_updateActiveCreature,
        getPlayer_updatePlayer_self _ tid
          (fun q => { q with lastFaintedAbility := some target.ability })
          (fun _ => rfl)]
      rw [show getPlayer (pushLog (pushLog (updateActiveCreature s tid
          (fun c => { c with hp := max 0 (target.hp - amount) })) _) _) tid =
        some (updateTeamSlot p p.activeSlot
          (fun c => { c with hp := max 0 (target.hp - amount) })) from hfind]
      rfl
  · refine ⟨?_, le_max_left _ _, fun hcontra => absurd hcontra h0⟩
    simp only [applyEvent]
    simp only [h]
    simp only [if_neg h0]
    simp only [Option.some_bind]
    rw [getActiveCreature_pushLog, getActiveCreature_updateActiveCreature, h]
    rfl

/-- C2 (witness): the amended theorem applied at a concrete fainting input:
hp 30, damage 40 leaves hp `max 0 (30 − 40) = 0` and the faint is recorded. -/
theorem damage_event_applier_behavior_witness :
    ((applyEvent (mkState [mkCreature "a" "guts" 30 100] [mkCreature "b" "none" 100 100])
        (.damage "p1" 40 {})).bind
      (fun s' => (getActiveCreature s' "p1").map Creature.hp)) =
        some (max 0 ((mkCreature "a" "guts" 30 100).hp - 40)) ∧
    (0 : ℚ) ≤ max 0 ((mkCreature "a" "guts" 30 100).hp - 40) ∧
    (max 0 ((mkCreature "a" "guts" 30 100).hp - 40) = 0 →
      ((applyEvent (mkState [mkCreature "a" "guts" 30 100] [mkCreature "b" "none" 100 100])
          (.damage "p1" 40 {})).bind
        (fun s' => (getActiveCreature s' "p1").map
          (fun c => c.statuses.any (fun st => st.id == "pending_switch")))) = some true ∧
      ((applyEvent (mkState [mkCreature "a" "guts" 30 100] [mkCreature "b" "none" 100 100])
          (.damage "p1" 40 {})).bind
        (fun s' => (getPlayer s' "p1").map Player.lastFaintedAbility)) =
          some (some (mkCreature "a" "guts" 30 100).ability)) :=
  damage_event_applier_behavior
    (mkState [mkCreature "a" "guts" 30 100] [mkCreature "b" "none" 100 100])
    "p1" 40 {} (mkCreature "a" "guts" 30 100) rfl

/-! ### C10 — totality of the `switch` event case -/

theorem switchPlayerUpdate_id (slot : ℕ) (p : Player) :
    (switchPlayerUpdate slot p).id = p.id := by
  unfold switchPlayerUpdate
  cases p.team.get? p.activeSlot <;> rfl

theorem switchPlayerUpdate_activeSlot (slot : ℕ) (p : Player) :
    (switchPlayerUpdate slot p).activeSlot = slot := by
  unfold switchPlayerUpdate
  cases p.team.get? p.activeSlot <;> rfl

theorem switchPlayerUpdate_team_at_old (slot : ℕ) (p : Player) (out : Creature)
    (hout : p.team.get? p.activeSlot = some out) :
    (switchPlayerUpdate slot p).team.get? p.activeSlot = some (switchOutReset out) := by
  unfold switchPlayerUpdate
  rw [hout]
  show (List.modify switchOutReset p.activeSlot p.team).get? p.activeSlot = _
  rw [List.get?_eq_getElem?, List.getElem?_modify_eq, ← List.get?_eq_getElem?, hout]
  rfl

/-- C10: for a switch event naming an existing player whose active slot holds a
creature: a slot inside the team succeeds — the outgoing creature's stages are
zeroed, its non-primary statuses removed, its scratch cleared, `activeSlot`
moves to the slot, and a log line is appended — while a slot outside the team
makes the applier fail (the source throws reading `incoming.name`) instead of
returning the state unchanged. -/
theorem switch_event_totality (s : BattleState) (pid : String) (slot : ℕ)
    (player : Player) (outgoing : Creature)
    (hpl : getPlayer s pid = some player)
    (hout : player.team.get? player.activeSlot = some outgoing) :
    (∀ incoming, player.team.get? slot = some incoming →
      ((applyEvent s (.switchE pid slot)).bind
        (fun s' => (getPlayer s' pid).map Player.activeSlot)) = some slot ∧
      ((applyEvent s (.switchE pid slot)).bind
        (fun s' => (getPlayer s' pid).bind
          (fun p' => p'.team.get? player.activeSlot))) =
        some (switchOutReset outgoing) ∧
      ((applyEvent s (.switchE pid slot)).map BattleState.log) =
        some (s.log ++ [player.name ++ " sent out " ++ incoming.name ++ "!"])) ∧
    (player.team.get? slot = none → applyEvent s (.switchE pid slot) = none) := by
  have hfind : List.find? (fun p => p.id == pid) s.players = some player := hpl
  constructor
  · intro incoming hin
    refine ⟨?_, ?_, ?_⟩
    · simp only [applyEvent]
      simp only [hfind, hin]
      simp only [Option.some_bind, getPlayer_pushLog]
      rw [getPlayer_updatePlayer_self _ pid _ (switchPlayerUpdate_id slot), hpl]
      simp [switchPlayerUpdate_activeSlot]
    · simp only [applyEvent]
      simp only [hfind, hin]
      simp only [Option.some_bind, getPlayer_pushLog]
      rw [getPlayer_updatePlayer_self _ pid _ (switchPlayerUpdate_id slot), hpl]
      simp only [Option.map_some', Option.some_bind]
      exact switchPlayerUpdate_team_at_old slot player outgoing hout
    · simp only [applyEvent]
      simp only [hfind, hin]
      rfl
  · intro hnone
    simp only [applyEvent]
    simp only [hfind, hnone]

/-- C10 (witness): the theorem applied to a concrete two-creature team —
switching to slot 1 succeeds and resets the outgoing creature, and slot 5 (out
of range) makes the applier fail. -/
theorem switch_event_totality_witness :
    (((applyEvent (mkState [mkCreature "a" "none" 100 100, mkCreature "c" "none" 80 80]
          [mkCreature "b" "none" 100 100]) (.switchE "p1" 1)).bind
        (fun s' => (getPlayer s' "p1").map Player.activeSlot)) = some 1 ∧
      ((applyEvent (mkState [mkCreature "a" "none" 100 100, mkCreature "c" "none" 80 80]
          [mkCreature "b" "none" 100 100]) (.switchE "p1" 1)).bind
        (fun s' => (getPlayer s' "p1").bind (fun p' => p'.team.get? 0))) =
        some (switchOutReset (mkCreature "a" "none" 100 100)) ∧
      ((applyEvent (mkState [mkCreature "a" "none" 100 100, mkCreature "c" "none" 80 80]
          [mkCreature "b" "none" 100 100]) (.switchE "p1" 1)).map BattleState.log) =
        some ((mkState [mkCreature "a" "none" 100 100, mkCreature "c" "none" 80 80]
          [mkCreature "b" "none" 100 100]).log ++ ["P1 sent out c!"])) ∧
    applyEvent (mkState [mkCreature "a" "none" 100 100, mkCreature "c" "none" 80 80]
      [mkCreature "b" "none" 100 100]) (.switchE "p1" 5) = none := by
  constructor
  · exact (switch_event_totality
      (mkState [mkCreature "a" "none" 100 100, mkCreature "c" "none" 80 80]
        [mkCreature "b" "none" 100 100]) "p1" 1
      ⟨"p1", "P1", [mkCreature "a" "none" 100 100, mkCreature "c" "none" 80 80], 0, none⟩
      (mkCreature "a" "none" 100 100) rfl rfl).1 (mkCreature "c" "none" 80 80) rfl
  · exact (switch_event_totality
      (mkState [mkCreature "a" "none" 100 100, mkCreature "c" "none" 80 80]
        [mkCreature "b" "none" 100 100]) "p1" 5
      ⟨"p1", "P1", [mkCreature "a" "none" 100 100, mkCreature "c" "none" 80 80], 0, none⟩
      (mkCreature "a" "none" 100 100) rfl rfl).2 rfl

/-! ### C6 — weather is not unique in `field.global` -/

/-- C6 (counterexample): two successive `apply_field_status` events with
distinct weather ids leave two weather entries in `field.global` (the second
does not evict the first), and `setWeather` called while hail is active leaves
hail in place next to the new sun entry — so neither the at-most-one-weather
invariant nor all-pairs eviction holds. -/
theorem C6_counterexample_two_weathers :
    ((applyEvents (mkState [mkCreature "a" "none" 100 100] [mkCreature "b" "none" 100 100])
        [.apply_field_status "sun" (some 5) false SD.empty {},
         .apply_field_status "hail" (some 5) false SD.empty {}]).map
      (fun s' => (s'.fieldGlobal.filter (fun e => weatherIds.contains e.id)).length)) =
      some 2 ∧
    ((setWeather { mkState [mkCreature "a" "none" 100 100] [mkCreature "b" "none" 100 100]
        with fieldGlobal := [⟨"hail", some 5, SD.empty⟩] } "sun"
        (some 5)).fieldGlobal.filter (fun e => weatherIds.contains e.id)).length = 2 := by
  constructor
  · rfl
  · rfl

/-- C6 (amended): weather does not evict across distinct ids — an
`apply_field_status` event whose id is not yet present appends its entry and
keeps every existing field entry (in particular a prior different weather),
and `setWeather` (the drought path) evicts only `sun` and `rain`, never `hail`
or `sandstorm`. -/
theorem weather_eviction_amended (s : BattleState) (id : String) (dur : Option ℚ)
    (stack : Bool) (d : SD) (m : Meta) (w : FieldEffect)
    (hw : w ∈ s.fieldGlobal) (hfresh : ∀ e ∈ s.fieldGlobal, e.id ≠ id) :
    ∃ s', applyEvent s (.apply_field_status id dur stack d m) = some s' ∧
      w ∈ s'.fieldGlobal ∧ (⟨id, dur, d⟩ : FieldEffect) ∈ s'.fieldGlobal ∧
      (w.id = "hail" ∨ w.id = "sandstorm" →
        ∀ wid t, w ∈ (setWeather s wid t).fieldGlobal) := by
  have hany : s.fieldGlobal.any (fun e => e.id == id) = false := by
    rw [List.any_eq_false]
    intro e he
    simpa using hfresh e he
  refine ⟨{ s with fieldGlobal := s.fieldGlobal ++ [⟨id, dur, d⟩] }, ?_, ?_, ?_, ?_⟩
  · simp only [applyEvent, hany, Bool.false_and, Bool.false_eq_true, if_false]
  · exact List.mem_append_left _ hw
  · exact List.mem_append_right _ (List.mem_singleton.mpr rfl)
  · intro hws wid t
    refine List.mem_append_left _ (List.mem_filter.mpr ⟨hw, ?_⟩)
    rcases hws with h | h <;> simp [h]

/-- C6 (witness): the amended theorem at a concrete state where hail is
active and rain is applied — hail survives both the event and `setWeather`. -/
theorem weather_eviction_amended_witness :
    ∃ s', applyEvent { mkState [mkCreature "a" "none" 100 100]
        [mkCreature "b" "none" 100 100] with
        fieldGlobal := [⟨"hail", some 5, SD.empty⟩] }
        (.apply_field_status "rain" (some 5) false SD.empty {}) = some s' ∧
      (⟨"hail", some 5, SD.empty⟩ : FieldEffect) ∈ s'.fieldGlobal ∧
      (⟨"rain", some 5, SD.empty⟩ : FieldEffect) ∈ s'.fieldGlobal ∧
      ((⟨"hail", some 5, SD.empty⟩ : FieldEffect).id = "hail" ∨
        (⟨"hail", some 5, SD.empty⟩ : FieldEffect).id = "sandstorm" →
        ∀ wid t, (⟨"hail", some 5, SD.empty⟩ : FieldEffect) ∈
          (setWeather { mkState [mkCreature "a" "none" 100 100]
            [mkCreature "b" "none" 100 100] with
            fieldGlobal := [⟨"hail", some 5, SD.empty⟩] } wid t).fieldGlobal) :=
  weather_eviction_amended _ "rain" (some 5) false SD.empty {}
    ⟨"hail", some 5, SD.empty⟩ (List.mem_singleton.mpr rfl)
    (by intro e he; simp at he; rw [he]; decide)

/-! ### Moves, type chart, and the ability value/check hooks used by the
effect compiler (`data/moves` record shape, `data/type_chart.js`,
`abilities/index.js`) -/

/-- A move definition record (`data/moves.js` shape). -/
structure Move where
  id : String
  name : String
  type : Option String
  category : Option String
  pp : Option ℚ
  power : Option ℚ
  accuracy : Option ℚ
  priority : Option ℚ
  critRate : Option ℚ
  tags : List String := []
  effects : List Effect := []

/-- `effects/index.js` `getMoveCategory`. -/
def getMoveCategory (move : Option Move) : String :=
  match move with
  | some m =>
    match m.category with
    | some c => c
    | none =>
      if m.effects.any (fun e => match e with | .damage _ _ => true | _ => false)
      then "physical" else "status"
  | none =>
    -- `move?.category` and `move?.effects ?? []` are both undefined/empty
    "status"

/-- `utils.js` `isStatusMove`. -/
def isStatusMove (move : Option Move) : Bool :=
  match move with
  | some m =>
    match m.category with
    | some c => c == "status"
    | none => !(m.effects.any (fun e => match e with | .damage _ _ => true | _ => false))
  | none => true

/-- `type_chart.js` `typeImmunities` (keyed by the defender's type). -/
def typeImmunities (t : String) : List String :=
  match t with
  | "normal" => ["ghost"]
  | "ghost" => ["normal", "fighting"]
  | "steel" => ["poison"]
  | "flying" => ["ground"]
  | "dark" => ["psychic"]
  | "ground" => ["electric"]
  | "fairy" => ["dragon"]
  | _ => []

/-- `type_chart.js` `typeChart[t].weakTo` (normalized lowercase lists). -/
def typeWeakTo (t : String) : List String :=
  match t with
  | "normal" => ["fighting"]
  | "fire" => ["water", "ground", "rock"]
  | "water" => ["electric", "grass"]
  | "electric" => ["ground"]
  | "grass" => ["fire", "ice", "poison", "flying", "bug"]
  | "ice" => ["fire", "fighting", "rock", "steel"]
  | "fighting" => ["flying", "psychic", "fairy"]
  | "poison" => ["ground", "psychic"]
  | "ground" => ["water", "grass", "ice"]
  | "flying" => ["electric", "ice", "rock"]
  | "psychic" => ["bug", "ghost", "dark"]
  | "bug" => ["fire", "flying", "rock"]
  | "rock" => ["water", "grass", "fighting", "ground", "steel"]
  | "ghost" => ["ghost", "dark"]
  | "dragon" => ["ice", "dragon", "fairy"]
  | "dark" => ["fighting", "bug", "fairy"]
  | "steel" => ["fire", "water", "ground"]
  | "fairy" => ["poison", "steel"]
  | _ => []

/-- `type_chart.js` `typeChart[t].resists`. -/
def typeResists (t : String) : List String :=
  match t with
  | "normal" => []
  | "fire" => ["grass", "ice", "bug", "steel", "fairy"]
  | "water" => ["steel", "fire", "water"]
  | "electric" => ["flying", "steel", "electric"]
  | "grass" => ["ground", "water", "grass"]
  | "ice" => ["ice"]
  | "fighting" => ["rock", "bug", "dark"]
  | "poison" => ["grass", "fighting", "poison", "bug"]
  | "ground" => ["poison", "rock"]
  | "flying" => ["fighting", "bug", "grass"]
  | "psychic" => ["fighting", "psychic"]
  | "bug" => ["grass", "fighting", "ground"]
  | "rock" => ["normal", "flying", "poison", "fire"]
  | "ghost" => ["poison", "bug"]
  | "dragon" => ["grass", "fire", "water", "electric"]
  | "dark" => ["ghost", "dark"]
  | "steel" => ["normal", "flying", "rock", "bug", "steel", "grass", "psychic", "ice",
      "dragon", "fairy"]
  | "fairy" => ["fighting", "bug", "dark"]
  | _ => []

/-- ASCII `toLowerCase` (every type identifier in the engine's data is
ASCII, where JS `toLowerCase` agrees with this). -/
def jsCharToLower (c : Char) : Char :=
  match c with
  | 'A' => 'a' | 'B' => 'b' | 'C' => 'c' | 'D' => 'd' | 'E' => 'e' | 'F' => 'f'
  | 'G' => 'g' | 'H' => 'h' | 'I' => 'i' | 'J' => 'j' | 'K' => 'k' | 'L' => 'l'
  | 'M' => 'm' | 'N' => 'n' | 'O' => 'o' | 'P' => 'p' | 'Q' => 'q' | 'R' => 'r'
  | 'S' => 's' | 'T' => 't' | 'U' => 'u' | 'V' => 'v' | 'W' => 'w' | 'X' => 'x'
  | 'Y' => 'y' | 'Z' => 'z' | c => c

def jsToLower (s : String) : String := ⟨s.data.map jsCharToLower⟩

/-- The per-defender-type fold of `getTypeEffectiveness` (an immunity anywhere
short-circuits to 0; an unknown type contributes no multiplier, matching the
`if (!chart) continue`). -/
def typeEffGo (moveKey : String) : List String → ℚ → ℚ
  | [], mult => mult
  | t :: rest, mult =>
    if (typeImmunities t).contains moveKey then 0
    else
      let mult := if (typeWeakTo t).contains moveKey then mult * 2 else mult
      let mult := if (typeResists t).contains moveKey then mult * (1/2) else mult
      typeEffGo moveKey rest mult

/-- `type_chart.js` `getTypeEffectiveness`. -/
def getTypeEffectiveness (moveType : Option String) (targetTypes : List String) : ℚ :=
  match moveType with
  | none => 1
  | some mt => typeEffGo (jsToLower mt) (targetTypes.map (fun t => jsToLower t)) 1

/-! Item helpers of `effects/index.js`. -/

def isItemStatus (statusId : String) : Bool :=
  statusId == "item" || statusId == "berry"

def hasItem (creature : Option Creature) : Bool :=
  match creature with
  | none => false
  | some c =>
    if c.item.isSome then true
    else c.statuses.any (fun s => s.id == "item" || s.id == "berry")

def getItemId (creature : Option Creature) : Option String :=
  match creature with
  | none => none
  | some c =>
    match c.item with
    | some i => some i
    | none =>
      match c.statuses.find? (fun s => s.id == "item" || s.id == "berry") with
      | some st => some ((st.data.itemId).getD st.id)
      | none => none

/-- The in-place `statuses[existingIndex] = statusObj` write of `setItemStatus`. -/
def replaceFirstItemStatus (l : List VolatileStatus) (entry : VolatileStatus) :
    List VolatileStatus :=
  match l with
  | [] => l
  | s :: rest =>
    if s.id == "item" || s.id == "berry" then entry :: rest
    else s :: replaceFirstItemStatus rest entry

def setItemStatus (c : Creature) (itemId : String) : Creature :=
  let statusObj : VolatileStatus :=
    ⟨"item", none, .mk none (some itemId) none none none none none none []⟩
  let statuses :=
    if c.statuses.any (fun s => s.id == "item" || s.id == "berry") then
      replaceFirstItemStatus c.statuses statusObj
    else
      c.statuses ++ [statusObj]
  { c with item := some itemId, statuses := statuses }

def clearItemStatus (c : Creature) : Creature :=
  { c with item := none
           statuses := c.statuses.filter (fun s => s.id ≠ "item" && s.id ≠ "berry") }

/-! `abilities/index.js` value hooks, one dispatcher per hook name.  Each
returns `none` when the ability implements no handler for the hook; the
generic `runAbilityValueHook` then keeps the initial value. -/

/-- `onModifyPower` handlers (Sharpness, Technician, Steelworker, Hustle,
Pure Power, Guts). -/
def abilityModifyPower (ability : String) (active : Creature) (value : ℚ)
    (move : Option Move) (category : String) : Option ℚ :=
  match ability with
  | "sharpness" =>
    some (if (move.map (fun m => m.tags.contains "slicing")).getD false
      then value * (3/2) else value)
  | "technician" => some (if value ≤ 60 then value * (3/2) else value)
  | "steelworker" =>
    some (if (move.bind Move.type) == some "steel" then value * (3/2) else value)
  | "hustle" => some (if category == "physical" then value * (3/2) else value)
  | "pure_power" => some (if category == "physical" then value * 2 else value)
  | "guts" =>
    some (if category == "physical" && !active.statuses.isEmpty
      then value * (3/2) else value)
  | _ => none

/-- `onDefensivePower` handlers (Thick Fat). -/
def abilityDefensivePower (ability : String) (value : ℚ) (move : Option Move) :
    Option ℚ :=
  match ability with
  | "thick_fat" =>
    some (if (move.bind Move.type) == some "fire" || (move.bind Move.type) == some "ice"
      then value * (1/2) else value)
  | _ => none

/-- `onModifyOffense` handlers (Slow Start; Unaware's handler is a no-op). -/
def abilityModifyOffense (ability : String) (value : ℚ) (category : String)
    (turn : ℕ) : Option ℚ :=
  match ability with
  | "slow_start" =>
    some (if turn ≤ 5 && category == "physical" then value * (1/2) else value)
  | "unaware" => some value
  | _ => none

/-- `onModifyDefense` handlers (Fur Coat). -/
def abilityModifyDefense (ability : String) (value : ℚ) (category : String) :
    Option ℚ :=
  match ability with
  | "fur_coat" => some (if category == "physical" then value * 2 else value)
  | _ => none

/-- `onModifyAccuracy` handlers (Hustle, Compound Eyes). -/
def abilityModifyAccuracy (ability : String) (value : ℚ) (category : String) :
    Option ℚ :=
  match ability with
  | "hustle" => some (if category == "physical" then value * (4/5) else value)
  | "compound_eyes" => some (value * (13/10))
  | _ => none

/-- `onModifyCritChance` handlers (Merciless, Super Luck). -/
def abilityModifyCritChance (ability : String) (value : ℚ) (target : Option Creature) :
    Option ℚ :=
  match ability with
  | "merciless" =>
    some (if (target.map (fun t =>
        t.statuses.any (fun s => s.id == "poison" || s.id == "toxic"))).getD false
      then 999 else value)
  | "super_luck" => some (value + 1)
  | _ => none

/-- `onModifySpeed` handlers (Quick Feet, Swift Swim, Chlorophyll, Slow Start). -/
def abilityModifySpeed (ability : String) (active : Creature) (value : ℚ)
    (weather : Option String) (turn : ℕ) : Option ℚ :=
  match ability with
  | "quick_feet" => some (if !active.statuses.isEmpty then value * (3/2) else value)
  | "swift_swim" => some (if weather == some "rain" then value * 2 else value)
  | "chlorophyll" => some (if weather == some "sun" then value * 2 else value)
  | "slow_start" => some (if turn ≤ 5 then value * (1/2) else value)
  | _ => none

/-- `onModifyPriority` handlers (Prankster). -/
def abilityModifyPriority (ability : String) (value : ℚ) (move : Option Move) :
    Option ℚ :=
  match ability with
  | "prankster" => some (if isStatusMove move then value + 1 else value)
  | _ => none

/-- `onSkillLink` check handlers. -/
def abilityCheckSkillLink (ability : String) : Option Bool :=
  match ability with
  | "skill_link" => some true
  | _ => none

/-- `onCheckItem` check handlers (Klutz, Unnerve). -/
def abilityCheckItem (ability : String) : Option Bool :=
  match ability with
  | "klutz" => some false
  | "unnerve" => some false
  | _ => none

/-- The shared guard of `runAbilityValueHook` / `runAbilityCheckHook`: resolve
the player and its active creature, requiring a non-empty ability id. -/
def hookActive (state : BattleState) (playerId : String) : Option Creature :=
  match state.players.find? (fun p => p.id == playerId) with
  | none => none
  | some _ =>
    match getActiveCreature state playerId with
    | none => none
    | some active => if active.ability == "" then none else some active

def runHookPower (state : BattleState) (playerId : String) (value : ℚ)
    (move : Option Move) (category : String) : ℚ :=
  match hookActive state playerId with
  | none => value
  | some active => (abilityModifyPower active.ability active value move category).getD value

def runHookDefensivePower (state : BattleState) (playerId : String) (value : ℚ)
    (move : Option Move) : ℚ :=
  match hookActive state playerId with
  | none => value
  | some active => (abilityDefensivePower active.ability value move).getD value

def runHookOffense (state : BattleState) (playerId : String) (value : ℚ)
    (category : String) (turn : ℕ) : ℚ :=
  match hookActive state playerId with
  | none => value
  | some active => (abilityModifyOffense active.ability value category turn).getD value

def runHookDefense (state : BattleState) (playerId : String) (value : ℚ)
    (category : String) : ℚ :=
  match hookActive state playerId with
  | none => value
  | some active => (abilityModifyDefense active.ability value category).getD value

def runHookAccuracy (state : BattleState) (playerId : String) (value : ℚ)
    (category : String) : ℚ :=
  match hookActive state playerId with
  | none => value
  | some active => (abilityModifyAccuracy active.ability value category).getD value

def runHookCritChance (state : BattleState) (playerId : String) (value : ℚ)
    (target : Option Creature) : ℚ :=
  match hookActive state playerId with
  | none => value
  | some active => (abilityModifyCritChance active.ability value target).getD value

def runHookSpeed (state : BattleState) (playerId : String) (value : ℚ)
    (weather : Option String) (turn : ℕ) : ℚ :=
  match hookActive state playerId with
  | none => value
  | some active => (abilityModifySpeed active.ability active value weather turn).getD value

def runHookPriority (state : BattleState) (playerId : String) (value : ℚ)
    (move : Option Move) : ℚ :=
  match hookActive state playerId with
  | none => value
  | some active => (abilityModifyPriority active.ability value move).getD value

def runCheckSkillLink (state : BattleState) (playerId : String) : Bool :=
  match hookActive state playerId with
  | none => false
  | some active => match abilityCheckSkillLink active.ability with
    | some b => b
    | none => false

/-! ### RNG threading and the damage pipeline (`effects/index.js`) -/

/-- The engine's RNG source is a `() => number` closure; it is modelled as an
infinite stream with a cursor, so the values consumed by a computation are
`src idx, src (idx+1), …` in consumption order. -/
structure RngState where
  src : ℕ → ℚ
  idx : ℕ

/-- One `rng()` call. -/
def draw (r : RngState) : ℚ × RngState :=
  (r.src r.idx, { r with idx := r.idx + 1 })

/-- Compiler context (`ctx`): attacker/target snapshots, move, player ids,
current turn, and the `parentalBondHit` flag `calcDamage` reads. -/
structure EffectCtx where
  attacker : Option Creature
  target : Option Creature
  move : Option Move
  attackerPlayerId : String
  targetPlayerId : String
  turn : Option ℕ := none
  parentalBondHit : Bool := false

/-- `effects/index.js` `currentCreature` (same body as `getActiveCreature`
without the dead legacy fallback). -/
def currentCreature (state : BattleState) (playerId : String) : Option Creature :=
  match state.players.find? (fun p => p.id == playerId) with
  | none => none
  | some player => player.team.get? player.activeSlot

/-- `effects/index.js` `randomRange`. -/
def randomRange : ℚ × ℚ := (85/100, 1)

/-- `effects/index.js` `computeSpeed`. -/
def computeSpeed (state : BattleState) (playerId : String) (turn : ℕ) : ℚ :=
  match currentCreature state playerId with
  | none => 0
  | some creature =>
    let stage := (assocGet creature.stages "spe").getD 0
    let speed := creature.speed * stageMultiplier stage
    runHookSpeed state playerId speed (getWeather state) turn

/-- `effects/index.js` `modifyMovePower`. -/
def modifyMovePower (basePower : ℚ) (state : BattleState) (ctx : EffectCtx) : ℚ :=
  let power := runHookPower state ctx.attackerPlayerId basePower ctx.move
    (getMoveCategory ctx.move)
  if ctx.targetPlayerId ≠ "" then
    runHookDefensivePower state ctx.targetPlayerId power ctx.move
  else
    power

/-- `effects/index.js` `resolveOffenseDefense`. -/
def resolveOffenseDefense (state : BattleState) (attacker target : Creature)
    (category : String) (ctx : EffectCtx) (isCritical : Bool) : ℚ × ℚ :=
  let offenseKey := category == "special"
  let atkStage := (assocGet attacker.stages (if offenseKey then "spa" else "atk")).getD 0
  let defStage := (assocGet target.stages (if offenseKey then "spd" else "def")).getD 0
  let defStage := if attacker.ability == "unaware" then 0 else defStage
  let atkStage := if target.ability == "unaware" then 0 else atkStage
  let atkStage := if isCritical then max 0 atkStage else atkStage
  let defStage := if isCritical then min 0 defStage else defStage
  let atk := (if offenseKey then attacker.spAttack else attacker.attack) *
    stageMultiplier atkStage
  let defv := max 1 ((if offenseKey then target.spDefense else target.defense) *
    stageMultiplier defStage)
  let atk := runHookOffense state ctx.attackerPlayerId atk category ((ctx.turn).getD 0)
  let defv := runHookDefense state ctx.targetPlayerId defv category
  (atk, defv)

/-- `effects/index.js` `rollCritical`: consumes one draw only when the
(ability-adjusted) crit stage is positive, and never on the parental-bond
second hit. -/
def rollCritical (state : BattleState) (target : Option Creature) (ctx : EffectCtx)
    (r : RngState) : Bool × RngState :=
  if ctx.parentalBondHit then (false, r)
  else
    let critStage := ((ctx.move.bind Move.critRate)).getD 0
    let critStage := runHookCritChance state ctx.attackerPlayerId critStage target
    if critStage ≤ 0 then (false, r)
    else
      let chance : ℚ := if critStage = 1 then 1/8 else if critStage = 2 then 1/2 else 1
      let (roll, r) := draw r
      ((if chance ≥ 1 then true else roll < chance), r)

/-- `effects/index.js` `calcDamage`: crit roll (maybe), then — unless the type
effectiveness is 0, which returns 0 before the damage roll — one damage roll
and `max 1 ⌊base · roll · crit · stab · eff⌋`. -/
def calcDamage (power : Option ℚ) (attacker target : Option Creature)
    (state : BattleState) (ctx : EffectCtx) (r : RngState) : ℚ × RngState :=
  match attacker, target with
  | some attacker, some target =>
    let category := getMoveCategory ctx.move
    let movePower := modifyMovePower (power.getD 0) state ctx
    let level := attacker.level
    let (crit, r) := rollCritical state (some target) ctx r
    let stab : ℚ :=
      match ctx.move.bind Move.type with
      | some t => if attacker.types.contains t then 3/2 else 1
      | none => 1
    let typeEffectiveness := getTypeEffectiveness (ctx.move.bind Move.type) target.types
    if typeEffectiveness = 0 then (0, r)
    else
      let ad := resolveOffenseDefense state attacker target category ctx crit
      let base := (((level * 2) / 5 + 2) * movePower * ad.1) / ad.2 / 50 + 2
      let (rv, r) := draw r
      let roll := randomRange.1 + (randomRange.2 - randomRange.1) * rv
      let raw := base * roll * (if crit then 3/2 else 1) * stab * typeEffectiveness
      (max 1 ⌊raw⌋, r)
  | _, _ => (0, r)

/-- `effects/index.js` `fieldHasAnyStatus`. -/
def fieldHasAnyStatus (state : BattleState) (ids : List String) : Bool :=
  state.fieldGlobal.any (fun e => ids.contains e.id)

/-- `effects/index.js` `passesChance` (draws only when a `chance` is set). -/
def passesChance (chance : Option ℚ) (r : RngState) : Bool × RngState :=
  match chance with
  | none => (true, r)
  | some c =>
    let (roll, r) := draw r
    (roll ≤ c, r)

/-- `effects/index.js` `resolveTarget`. -/
def resolveTarget (target : Option String) (ctx : EffectCtx) : String :=
  match target with
  | some "self" => ctx.attackerPlayerId
  | _ => ctx.targetPlayerId

/-- `effects/index.js` `evaluateCondition` (never consumes RNG). -/
def evaluateCondition (state : BattleState) (cond : Cond) (ctx : EffectCtx) : Bool :=
  match cond with
  | .target_has_status statusId =>
    let target := currentCreature state ctx.targetPlayerId
    if isItemStatus statusId && hasItem target then true
    else (target.map (fun t => t.statuses.any (fun s => s.id == statusId))).getD false
  | .target_hp_lt value =>
    match currentCreature state ctx.targetPlayerId with
    | none => false
    | some target => target.hp / target.maxHp < value.getD 0
  | .field_has_status statusId => state.fieldGlobal.any (fun e => e.id == statusId)
  | .weather_is_sunny => fieldHasAnyStatus state ["sunny_weather", "sunny_day", "sun"]
  | .weather_is_raining => fieldHasAnyStatus state ["rain", "rainy_weather", "rain_dance"]
  | .weather_is_hail => fieldHasAnyStatus state ["hail", "hail_weather", "snow"]
  | .weather_is_sandstorm => fieldHasAnyStatus state ["sandstorm", "sandstorm_weather"]
  | .user_type typeId => (ctx.attacker.map (fun a => a.types.contains typeId)).getD false
  | .user_has_status statusId =>
    ((currentCreature state ctx.attackerPlayerId).map
      (fun a => a.statuses.any (fun s => s.id == statusId))).getD false
  | .target_has_item => hasItem (currentCreature state ctx.targetPlayerId)
  | .user_has_item => hasItem (currentCreature state ctx.attackerPlayerId)
  | .unknownCond => false

/-- The number of iterations of a JS `for (let i = 0; i < t; i++)` loop with a
numeric bound. -/
def jsLoopCount (t : ℚ) : ℕ := (max 0 ⌈t⌉).toNat

/-- A `"berry"` substring test (`itemId.includes("berry")`). -/
def includesBerry (itemId : String) : Bool := (itemId.splitOn "berry").length > 1

/-- The events of the `damage` effect case of `applyEffect`: accuracy hook and
roll, `calcDamage` (crit/damage rolls), the used-move log, the damage event,
and the parental-bond second hit.  `none` models the TypeErrors the source
throws reading `ctx.attacker.name` / `ctx.move.name` in the miss branch. -/
def damageEffectEvents (state : BattleState) (power accuracy : Option ℚ)
    (ctx : EffectCtx) (r : RngState) : Option (List Event × BattleState × RngState) :=
  let tctx := { ctx with turn := some (ctx.turn.getD state.turn) }
  let attackerCreature := currentCreature state tctx.attackerPlayerId
  let targetCreature := currentCreature state tctx.targetPlayerId
  let category := getMoveCategory ctx.move
  let acc := accuracy.getD 1
  let acc := runHookAccuracy state tctx.attackerPlayerId acc category
  let (roll, r) := draw r
  if roll > acc then
    match ctx.attacker, ctx.move with
    | some att, some mv =>
      some ([.log (att.name ++ "'s " ++ mv.name ++ " missed!")], state, r)
    | _, _ => none
  else
    let ar := calcDamage power attackerCreature targetCreature state tctx r
    let amount := ar.1
    let r := ar.2
    let attackerName := (ctx.attacker.map Creature.name).getD "Unknown"
    let moveName := (ctx.move.map Move.name).getD "move"
    let meta : Meta :=
      { source := some ctx.attackerPlayerId, target := some ctx.targetPlayerId,
        moveId := ctx.move.map Move.id, cancellable := true }
    let events := [Event.log (attackerName ++ " used " ++ moveName ++ "!"),
      Event.damage ctx.targetPlayerId amount meta]
    if (attackerCreature.map Creature.ability) == some "parental_bond" then
      let secondPower := (power.getD 0) * (1/4)
      let ar2 := calcDamage (some secondPower) attackerCreature targetCreature state
        { tctx with parentalBondHit := true } r
      some (events ++ [Event.damage ctx.targetPlayerId ar2.1
        { meta with parentalBond := true }], state, ar2.2)
    else
      some (events, state, r)

mutual

/-- `effects/index.js` `applyEffect`: build the events of one effect.  Result
is `(events, state, rng)` — the state because the `protect` counter and the
item writes mutate it in place, the rng because draws are consumed in order.
`none` models the source's reachable TypeErrors (unguarded `ctx.attacker.name`
or `ctx.move.name` reads).  The `damage` case lives in `damageEffectEvents`,
which the `speed_based_damage` case also reaches. -/
def applyEffect (state : BattleState) (effect : Effect) (ctx : EffectCtx)
    (r : RngState) : Option (List Event × BattleState × RngState) :=
  let tctx := { ctx with turn := some (ctx.turn.getD state.turn) }
  match effect with
  | .protect =>
    match currentCreature state tctx.attackerPlayerId with
    | none => some ([], state, r)
    | some attackerCreature =>
      let successCount := attackerCreature.volatileData.protectSuccessCount
      let chance := (List.range successCount).foldl (fun ch _ => ch * (1/2)) 1
      let (roll, r) := draw r
      if roll > chance then
        match ctx.attacker with
        | none => none
        | some att =>
          let state := updateActiveCreature state tctx.attackerPlayerId (fun c =>
            { c with volatileData := { c.volatileData with protectSuccessCount := 0 } })
          some ([.log (att.name ++ "'s protect failed!")], state, r)
      else
        let state := updateActiveCreature state tctx.attackerPlayerId (fun c =>
          { c with volatileData :=
              { c.volatileData with protectSuccessCount := successCount + 1 } })
        some ([.apply_status ctx.attackerPlayerId "protect" (some 1) false SD.empty
          { moveId := ctx.move.map Move.id, source := some ctx.attackerPlayerId }],
          state, r)
  | .damage power accuracy => damageEffectEvents state power accuracy ctx r
  | .speed_based_damage thresholds basePower accuracy =>
    let attackerSpeed := computeSpeed state tctx.attackerPlayerId (tctx.turn.getD 0)
    let targetSpeed := computeSpeed state tctx.targetPlayerId (tctx.turn.getD 0)
    let infty := targetSpeed ≤ 0
    let ratio := if infty then 0 else attackerSpeed / targetSpeed
    let sorted := thresholds.mergeSort (fun a b => (b.ratio.getD 0) ≤ (a.ratio.getD 0))
    let chosenPower := basePower.getD
      (match sorted.getLast? with
       | some t => t.power.getD 0
       | none => 0)
    let chosenPower :=
      match sorted.find? (fun t => infty || decide (ratio ≥ t.ratio.getD 0)) with
      | some t => t.power.getD chosenPower
      | none => chosenPower
    damageEffectEvents state (some chosenPower) (some (accuracy.getD 1)) ctx r
  | .apply_status statusId target duration stack chance data =>
    if isItemStatus statusId then
      let targetId := resolveTarget target ctx
      match currentCreature state targetId with
      | none => some ([], state, r)
      | some targetC =>
        let itemId := ((data.map SD.itemId).join).getD statusId
        let state := updateActiveCreature state targetId (fun c => setItemStatus c itemId)
        let giver := (ctx.attacker.map Creature.name).getD "Someone"
        some ([.log (giver ++ " gave " ++ itemId ++ " to " ++ targetC.name ++ ".")],
          state, r)
    else
      let pr := passesChance chance r
      let r := pr.2
      if !pr.1 then
        match ctx.attacker with
        | none => none
        | some att =>
          some ([.log (att.name ++ "'s " ++ statusId ++ " failed to apply.")], state, r)
      else
        let targetId := resolveTarget target ctx
        let dr : Option ℚ × RngState :=
          match duration with
          | .nullD => (none, r)
          | .num n => (some n, r)
          | .range lo hi =>
            let (rv, r) := draw r
            (some (lo + ⌊rv * (hi - lo + 1)⌋), r)
        let r := dr.2
        let d := data.getD SD.empty
        let d := if d.sourceId == some "self" then
            d.setSourceId (some ctx.attackerPlayerId) else d
        some ([.apply_status targetId statusId dr.1 (stack.getD false) d
          { moveId := ctx.move.map Move.id, source := some ctx.attackerPlayerId }],
          state, r)
  | .ohko baseAccuracy requiredType nonMatchingTypeAccuracy levelScaling
      respectTypeImmunity failIfTargetHigherLevel immuneTypes =>
    match currentCreature state tctx.attackerPlayerId,
        currentCreature state tctx.targetPlayerId with
    | some attacker, some target =>
      let mvName := (ctx.move.map Move.name).getD "The move"
      if respectTypeImmunity.getD true && (ctx.move.bind Move.type).isSome &&
          getTypeEffectiveness (ctx.move.bind Move.type) target.types = 0 then
        some ([.log (mvName ++ " doesn't affect " ++ target.name ++ "!")], state, r)
      else if (immuneTypes.map (fun its =>
          target.types.any (fun t => its.contains t))).getD false then
        some ([.log (mvName ++ " doesn't affect " ++ target.name ++ "!")], state, r)
      else if failIfTargetHigherLevel.getD true && attacker.level < target.level then
        some ([.log (mvName ++ " failed against the higher-level target.")], state, r)
      else
        let baseAcc :=
          if requiredType.isSome &&
              !((requiredType.map (fun t => attacker.types.contains t)).getD false) &&
              nonMatchingTypeAccuracy.isSome then
            nonMatchingTypeAccuracy.getD 0
          else
            baseAccuracy.getD (3/10)
        let acc := if levelScaling.getD true then
            baseAcc + (attacker.level - target.level) / 100 else baseAcc
        let acc := max 0 (min 1 acc)
        let acc := runHookAccuracy state tctx.attackerPlayerId acc
          (getMoveCategory ctx.move)
        let (roll, r) := draw r
        if roll > acc then
          some ([.log (attacker.name ++ "'s " ++
            ((ctx.move.map Move.name).getD "OHKO move") ++ " missed!")], state, r)
        else
          some ([.log (attacker.name ++ " used " ++
              ((ctx.move.map Move.name).getD "an OHKO move") ++ "!"),
            .damage ctx.targetPlayerId target.hp
              { source := some ctx.attackerPlayerId, target := some ctx.targetPlayerId,
                moveId := ctx.move.map Move.id, ohko := true, cancellable := true }],
            state, r)
    | _, _ => some ([], state, r)
  | .apply_field_status statusId duration stack data =>
    some ([.apply_field_status statusId duration (stack.getD false) (data.getD SD.empty)
      { moveId := ctx.move.map Move.id, source := some ctx.attackerPlayerId }], state, r)
  | .remove_status statusId target =>
    let targetId := resolveTarget target ctx
    if isItemStatus statusId then
      match currentCreature state targetId with
      | none => some ([], state, r)
      | some targetC =>
        let state := updateActiveCreature state targetId clearItemStatus
        let remover := (ctx.attacker.map Creature.name).getD "Someone"
        some ([.log (remover ++ " removed the held item from " ++ targetC.name ++ ".")],
          state, r)
    else
      some ([.remove_status targetId statusId
        { moveId := ctx.move.map Move.id, source := some ctx.attackerPlayerId }],
        state, r)
  | .remove_field_status statusId =>
    some ([.remove_field_status statusId
      { moveId := ctx.move.map Move.id, source := some ctx.attackerPlayerId }], state, r)
  | .log message =>
    if message ≠ "" then
      some ([.log message], state, r)
    else
      some ([], state, r)
  | .cure_all_status target =>
    some ([.cure_all_status (resolveTarget target ctx)
      { moveId := ctx.move.map Move.id, source := some ctx.attackerPlayerId }], state, r)
  | .replace_status target fromId toId duration data =>
    some ([.replace_status (resolveTarget target ctx) fromId toId duration
      (data.getD SD.empty)
      { moveId := ctx.move.map Move.id, source := some ctx.attackerPlayerId }], state, r)
  | .modify_stage target stages clamp fail_if_no_change show_event =>
    some ([.modify_stage (resolveTarget target ctx) stages (clamp.getD true)
      (fail_if_no_change.getD false) (show_event.getD true)
      { moveId := ctx.move.map Move.id, source := some ctx.attackerPlayerId }], state, r)
  | .clear_stages target show_event =>
    some ([.clear_stages (resolveTarget target ctx) (show_event.getD true)
      { moveId := ctx.move.map Move.id, source := some ctx.attackerPlayerId }], state, r)
  | .reset_stages target show_event =>
    some ([.reset_stages (resolveTarget target ctx) (show_event.getD true)
      { moveId := ctx.move.map Move.id, source := some ctx.attackerPlayerId }], state, r)
  | .disable_move target duration moveId =>
    some ([.apply_status (resolveTarget target ctx) "disable_move" duration false
      (.mk none none moveId none none none none none [])
      { moveId := ctx.move.map Move.id, source := some ctx.attackerPlayerId }], state, r)
  | .chance p thenE elseE =>
    let (roll, r) := draw r
    if roll ≤ p.getD 0 then
      applyEffectsEv state thenE ctx r
    else
      match elseE with
      | some els => applyEffectsEv state els ctx r
      | none => some ([], state, r)
  | .repeatE times count effects =>
    let timesSpec :=
      match times with
      | some t => t
      | none => match count with
        | some c => c
        | none => .num 1
    let tr : ℚ × RngState :=
      match timesSpec with
      | .num n => (n, r)
      | .range lo hi =>
        if runCheckSkillLink state ctx.attackerPlayerId then (hi, r)
        else
          let dr := draw r
          (lo + ⌊dr.1 * (hi - lo + 1)⌋, dr.2)
    let timesV := tr.1
    let r := tr.2
    match applyEffectsTimes state (jsLoopCount timesV) effects ctx r with
    | none => none
    | some (collected, state, r) =>
      if timesV > 1 then
        some (collected ++ [.log ("Hit " ++ toString timesV ++ " time(s)!")], state, r)
      else
        some (collected, state, r)
  | .conditional ifC thenE elseE =>
    if evaluateCondition state ifC tctx then
      match thenE with
      | none => some ([], state, r)
      | some effs => applyEffectsEv state effs ctx r
    else
      match elseE with
      | none => some ([], state, r)
      | some effs => applyEffectsEv state effs ctx r
  | .damage_ratio ratioMaxHp target =>
    let targetId := resolveTarget target ctx
    match currentCreature state targetId with
    | none => some ([], state, r)
    | some targetC =>
      let amount := max 1 ⌊targetC.maxHp * (ratioMaxHp.getD 0)⌋
      some ([.damage targetId amount
        { source := some ctx.attackerPlayerId, target := some targetId,
          moveId := ctx.move.map Move.id, cancellable := true }], state, r)
  | .delay afterTurns timing effects target =>
    let targetId := resolveTarget target ctx
    some ([.apply_status targetId "delayed_effect" (some ((afterTurns.getD 0) + 1)) false
      (.mk (some ctx.attackerPlayerId) none none none (some (timing.getD "turn_end"))
        (some targetId) (some (((tctx.turn.getD 0) : ℚ) + afterTurns.getD 0)) none effects)
      { moveId := ctx.move.map Move.id, source := some ctx.attackerPlayerId }], state, r)
  | .over_time duration timing effects target =>
    let targetId := resolveTarget target ctx
    some ([.apply_status targetId "over_time_effect" duration false
      (.mk (some ctx.attackerPlayerId) none none none (some (timing.getD "turn_end"))
        (some targetId) none none effects)
      { moveId := ctx.move.map Move.id, source := some ctx.attackerPlayerId }], state, r)
  | .random_move pool =>
    some ([.random_move (pool.getD "all")
      { moveId := ctx.move.map Move.id, source := some ctx.attackerPlayerId }], state, r)
  | .apply_item target itemId =>
    let targetId := resolveTarget target ctx
    match currentCreature state targetId with
    | none => some ([], state, r)
    | some targetC =>
      let item := itemId.getD "item"
      let state := updateActiveCreature state targetId (fun c => setItemStatus c item)
      some ([.log (targetC.name ++ " received " ++ item ++ ".")], state, r)
  | .remove_item target =>
    let targetId := resolveTarget target ctx
    match currentCreature state targetId with
    | none => some ([], state, r)
    | some targetC =>
      let had := hasItem (some targetC)
      let state := updateActiveCreature state targetId clearItemStatus
      some ([.log (if had then targetC.name ++ "'s item was removed!"
        else targetC.name ++ " has no item.")], state, r)
  | .consume_item target markBerryConsumed =>
    let targetId := resolveTarget target ctx
    match currentCreature state targetId with
    | none => some ([], state, r)
    | some targetC =>
      if !hasItem (some targetC) then
        some ([.log (targetC.name ++ " has no item to consume.")], state, r)
      else
        let itemId := getItemId (some targetC)
        let state := updateActiveCreature state targetId clearItemStatus
        let state :=
          if markBerryConsumed.getD false ||
              (itemId.map includesBerry).getD false then
            updateActiveCreature state targetId (fun c =>
              { c with statuses := c.statuses ++ [⟨"berry_consumed", none, SD.empty⟩] })
          else state
        some ([.log (targetC.name ++ " consumed its " ++ itemId.getD "item" ++ "!")],
          state, r)
  | .self_switch => some ([.self_switch ctx.attackerPlayerId], state, r)
  | .force_switch target => some ([.force_switch (resolveTarget target ctx)], state, r)
  | .unknownEffect => some ([], state, r)
termination_by (sizeOf effect, 0)
decreasing_by all_goals (simp_wf <;> omega)

/-- `applyEffects(state, effects, ctx, true)`: concatenate the events of a
list of effects, threading the compiler's in-place state mutations and rng. -/
def applyEffectsEv (state : BattleState) (effects : List Effect) (ctx : EffectCtx)
    (r : RngState) : Option (List Event × BattleState × RngState) :=
  match effects with
  | [] => some ([], state, r)
  | e :: rest =>
    match applyEffect state e ctx r with
    | none => none
    | some (evs, state, r) =>
      match applyEffectsEv state rest ctx r with
      | none => none
      | some (evs2, state, r) => some (evs ++ evs2, state, r)
termination_by (sizeOf effects, 0)
decreasing_by all_goals (simp_wf <;> omega)

/-- The `for (let i = 0; i < times; i++)` loop of the `repeat` case. -/
def applyEffectsTimes (state : BattleState) (n : ℕ) (effects : List Effect)
    (ctx : EffectCtx) (r : RngState) : Option (List Event × BattleState × RngState) :=
  match n with
  | 0 => some ([], state, r)
  | n + 1 =>
    match applyEffectsEv state effects ctx r with
    | none => none
    | some (evs, state, r) =>
      match applyEffectsTimes state n effects ctx r with
      | none => none
      | some (evs2, state, r) => some (evs ++ evs2, state, r)
termination_by (sizeOf effects, n + 1)
decreasing_by all_goals (simp_wf <;> omega)

end

/-! ### Creature factory (`core/factory.js`) -/

/-- `baseStats` of a species record. -/
structure BaseStats where
  hp : ℚ
  atk : ℚ
  defStat : ℚ
  spa : ℚ
  spd : ℚ
  spe : ℚ

/-- A species record (`species.json` shape; the source reads
`species.types ?? species.type ?? []`). -/
structure SpeciesData where
  id : String
  name : String
  types : Option (List String) := none
  typeAlt : Option (List String) := none
  baseStats : BaseStats
  abilities : List String := []

/-- Options of `createCreature`.  The factory reads `moves`, `ability`,
`name`, `level` and `item`; an `evs` entry can be supplied (the spec documents
one) but no line of `createCreature` ever reads it. -/
structure CreatureOptions where
  moves : Option (List String) := none
  ability : Option String := none
  name : Option String := none
  level : Option ℚ := none
  item : Option String := none
  evs : Option (List (String × ℚ)) := none

/-- `factory.js` `calcStat` (level fixed at 50 inside). -/
def calcStat (base : ℚ) (isHp : Bool) (iv ev : ℚ) : ℚ :=
  let level : ℚ := 50
  if isHp then
    (⌊((base * 2 + iv + (⌊ev / 4⌋ : ℤ)) * level) / 100⌋ : ℤ) + level + 10
  else
    (⌊((base * 2 + iv + (⌊ev / 4⌋ : ℤ)) * level) / 100⌋ : ℤ) + 5

/-- `factory.js` `validateMoves`; the moves table and learnsets are loaded
data files, passed here as parameters.  Throws are modelled as `Except`. -/
def validateMoves (learnsets : String → Option (List String))
    (movesDb : String → Bool) (speciesId : String) (requestedMoves : List String) :
    Except String (List String) :=
  if requestedMoves.isEmpty then .ok []
  else
    match learnsets speciesId with
    | none => .error ("No learnset found for species '" ++ speciesId ++ "'.")
    | some learnable =>
      let unknownMoves := requestedMoves.filter (fun id => !movesDb id)
      if !unknownMoves.isEmpty then
        .error ("Unknown move id(s) for species '" ++ speciesId ++ "': " ++
          String.intercalate ", " unknownMoves)
      else
        let invalid := requestedMoves.filter (fun id => !learnable.contains id)
        if !invalid.isEmpty then
          .error ("Move(s) not allowed for species '" ++ speciesId ++ "': " ++
            String.intercalate ", " invalid)
        else
          .ok requestedMoves

/-- `factory.js` `createCreature`.  `ridSuffix` stands for the
`Math.random().toString(36).slice(2, 7)` instance-id suffix.  `iv` and `ev`
are the local constants 31 and 0; `options.evs` is never consulted. -/
def createCreature (learnsets : String → Option (List String))
    (movesDb : String → Bool) (species : SpeciesData) (options : CreatureOptions)
    (ridSuffix : String) : Except String Creature :=
  let level := options.level.getD 50
  let iv : ℚ := 31
  let ev : ℚ := 0
  let types := (species.types.getD (species.typeAlt.getD []))
  let statsHp := calcStat species.baseStats.hp true iv ev
  let statsAtk := calcStat species.baseStats.atk false iv ev
  let statsDef := calcStat species.baseStats.defStat false iv ev
  let statsSpa := calcStat species.baseStats.spa false iv ev
  let statsSpd := calcStat species.baseStats.spd false iv ev
  let statsSpe := calcStat species.baseStats.spe false iv ev
  match validateMoves learnsets movesDb species.id (options.moves.getD []) with
  | .error e => .error e
  | .ok ms =>
    .ok {
      id := species.id ++ "_" ++ ridSuffix
      name := options.name.getD species.name
      speciesId := species.id
      level := level
      types := types
      moves := ms
      ability := options.ability.getD (species.abilities.head?.getD "none")
      item := options.item
      hp := statsHp
      maxHp := statsHp
      status := none
      statuses := []
      stages := zeroStages
      movePp := []
      attack := statsAtk
      defense := statsDef
      spAttack := statsSpa
      spDefense := statsSpd
      speed := statsSpe
      abilityData := {}
      volatileData := {} }

/-! ### C9 — EVs are ignored and never validated -/

/-- A tiny concrete species for the C9 counterexample. -/
def sampleSpecies : SpeciesData :=
  { id := "tatuta", name := "Tatuta", types := some ["grass"],
    baseStats := ⟨100, 120, 80, 60, 70, 90⟩, abilities := ["chlorophyll"] }

/-- C9 (counterexample): an EV budget far above both caps (600 in one stat,
total 600 > 510) neither fails with `InvalidEvBudget` nor changes a single
stat: construction succeeds with exactly the EV=0 stats. -/
theorem C9_counterexample_evs_ignored :
    createCreature (fun _ => some []) (fun _ => false) sampleSpecies
        { evs := some [("atk", 600)] } "xyz" =
      createCreature (fun _ => some []) (fun _ => false) sampleSpecies {} "xyz" ∧
    (createCreature (fun _ => some []) (fun _ => false) sampleSpecies
        { evs := some [("atk", 600)] } "xyz").isOk = true := by
  constructor
  · rfl
  · rfl

/-- C9 (amended): `createCreature` computes every stat with `calcStat` at
level 50, IV=31 and EV=0, for every caller — provided EVs are ignored (the
result does not depend on `options.evs`) and there is no EV-budget
validation: construction fails only through move validation. -/
theorem createCreature_ignores_evs (learnsets : String → Option (List String))
    (movesDb : String → Bool) (species : SpeciesData) (options : CreatureOptions)
    (ridSuffix : String) :
    createCreature learnsets movesDb species options ridSuffix =
      createCreature learnsets movesDb species { options with evs := none } ridSuffix ∧
    (∀ c, createCreature learnsets movesDb species options ridSuffix = .ok c →
      c.maxHp = calcStat species.baseStats.hp true 31 0 ∧
      c.attack = calcStat species.baseStats.atk false 31 0 ∧
      c.defense = calcStat species.baseStats.defStat false 31 0 ∧
      c.spAttack = calcStat species.baseStats.spa false 31 0 ∧
      c.spDefense = calcStat species.baseStats.spd false 31 0 ∧
      c.speed = calcStat species.baseStats.spe false 31 0) ∧
    (∀ e, createCreature learnsets movesDb species options ridSuffix = .error e →
      validateMoves learnsets movesDb species.id (options.moves.getD []) = .error e) := by
  refine ⟨rfl, ?_, ?_⟩
  · intro c hc
    unfold createCreature at hc
    revert hc
    cases validateMoves learnsets movesDb species.id (options.moves.getD []) with
    | error e => intro hc; cases hc
    | ok ms =>
      intro hc
      cases hc
      exact ⟨rfl, rfl, rfl, rfl, rfl, rfl⟩
  · intro e he
    unfold createCreature at he
    revert he
    cases h : validateMoves learnsets movesDb species.id (options.moves.getD []) with
    | error e2 =>
      intro he
      cases he
      rfl
    | ok ms => intro he; cases he

/-- C9 (witness): the amended theorem applied at a concrete over-cap EV
assignment — the produced stats are the EV=0 stats. -/
theorem createCreature_ignores_evs_witness :
    createCreature (fun _ => some []) (fun _ => false) sampleSpecies
        { evs := some [("atk", 252), ("spe", 252), ("hp", 252)] } "w" =
      createCreature (fun _ => some []) (fun _ => false) sampleSpecies
        { ({ evs := some [("atk", 252), ("spe", 252), ("hp", 252)] } : CreatureOptions)
          with evs := none } "w" ∧
    (∀ c, createCreature (fun _ => some []) (fun _ => false) sampleSpecies
        { evs := some [("atk", 252), ("spe", 252), ("hp", 252)] } "w" = .ok c →
      c.maxHp = calcStat sampleSpecies.baseStats.hp true 31 0 ∧
      c.attack = calcStat sampleSpecies.baseStats.atk false 31 0 ∧
      c.defense = calcStat sampleSpecies.baseStats.defStat false 31 0 ∧
      c.spAttack = calcStat sampleSpecies.baseStats.spa false 31 0 ∧
      c.spDefense = calcStat sampleSpecies.baseStats.spd false 31 0 ∧
      c.speed = calcStat sampleSpecies.baseStats.spe false 31 0) ∧
    (∀ e, createCreature (fun _ => some []) (fun _ => false) sampleSpecies
        { evs := some [("atk", 252), ("spe", 252), ("hp", 252)] } "w" = .error e →
      validateMoves (fun _ => some []) (fun _ => false) sampleSpecies.id [] = .error e) :=
  createCreature_ignores_evs (fun _ => some []) (fun _ => false) sampleSpecies
    { evs := some [("atk", 252), ("spe", 252), ("hp", 252)] } "w"

/-! ### C5 — `damage_ratio` clamps to 1 and therefore never heals -/

/-- A fixed effect-compiler context against the two sample players. -/
def sampleCtx : EffectCtx :=
  { attacker := some (mkCreature "a" "none" 100 100),
    target := some (mkCreature "b" "none" 150 200),
    move := none, attackerPlayerId := "p1", targetPlayerId := "p2" }

/-- An RNG source that always returns 0, cursor at the start. -/
def rng0 : RngState := ⟨fun _ => 0, 0⟩

/-- C5: the compiled `damage_ratio` amount is `max(1, ⌊maxHp·ratio⌋)`, which is
at least 1 for every ratio — so a negative `ratioMaxHp` deals 1 damage instead
of healing, contradicting the engine's own DSL reference ("Negative ratio
heals").  At the failing input `ratioMaxHp = -1/2` against a 150/200-hp
target the event amount is 1 and applying it drops the target to 149 hp. -/
theorem damage_ratio_no_heal :
    (∀ (s : BattleState) (ratio : Option ℚ) (tgt : Option String) (ctx : EffectCtx)
      (r : RngState) (c : Creature),
      currentCreature s (resolveTarget tgt ctx) = some c →
      applyEffect s (.damage_ratio ratio tgt) ctx r =
        some ([.damage (resolveTarget tgt ctx) ((max 1 ⌊c.maxHp * ratio.getD 0⌋ : ℤ) : ℚ)
          { source := some ctx.attackerPlayerId, target := some (resolveTarget tgt ctx),
            moveId := ctx.move.map Move.id, cancellable := true }], s, r) ∧
      (1 : ℚ) ≤ ((max 1 ⌊c.maxHp * ratio.getD 0⌋ : ℤ) : ℚ)) ∧
    (applyEffect (mkState [mkCreature "a" "none" 100 100] [mkCreature "b" "none" 150 200])
        (.damage_ratio (some (-(1/2))) none) sampleCtx rng0 =
      some ([.damage "p2" 1
        { source := some "p1", target := some "p2", moveId := none, cancellable := true }],
        mkState [mkCreature "a" "none" 100 100] [mkCreature "b" "none" 150 200], rng0) ∧
      ((applyEvents (mkState [mkCreature "a" "none" 100 100]
          [mkCreature "b" "none" 150 200])
        [.damage "p2" 1
          { source := some "p1", target := some "p2", moveId := none,
            cancellable := true }]).bind
        (fun s2 => (getActiveCreature s2 "p2").map Creature.hp)) = some 149 ∧
      (149 : ℚ) < 150) := by
  have hgen : ∀ (s : BattleState) (ratio : Option ℚ) (tgt : Option String)
      (ctx : EffectCtx) (r : RngState) (c : Creature),
      currentCreature s (resolveTarget tgt ctx) = some c →
      applyEffect s (.damage_ratio ratio tgt) ctx r =
        some ([.damage (resolveTarget tgt ctx) ((max 1 ⌊c.maxHp * ratio.getD 0⌋ : ℤ) : ℚ)
          { source := some ctx.attackerPlayerId, target := some (resolveTarget tgt ctx),
            moveId := ctx.move.map Move.id, cancellable := true }], s, r) ∧
      (1 : ℚ) ≤ ((max 1 ⌊c.maxHp * ratio.getD 0⌋ : ℤ) : ℚ) := by
    intro s ratio tgt ctx r c hc
    constructor
    · simp only [applyEffect]
      simp only [hc]
    · exact_mod_cast Int.cast_le.mpr (le_max_left 1 _)
  refine ⟨hgen, ?_, ?_, by norm_num⟩
  · have h1 := (hgen (mkState [mkCreature "a" "none" 100 100]
      [mkCreature "b" "none" 150 200]) (some (-(1/2))) none sampleCtx rng0
      (mkCreature "b" "none" 150 200) rfl).1
    rw [h1]
    have hmax : (max 1 ⌊(mkCreature "b" "none" 150 200).maxHp *
        ((some (-(1/2) : ℚ)).getD 0)⌋ : ℤ) = 1 := by
      rw [show (mkCreature "b" "none" 150 200).maxHp = (200 : ℚ) from rfl]
      norm_num
    rw [hmax]
    rfl
  · have hA : getActiveCreature (mkState [mkCreature "a" "none" 100 100]
        [mkCreature "b" "none" 150 200]) "p2" = some (mkCreature "b" "none" 150 200) :=
      rfl
    simp only [applyEvents]
    simp only [applyEvent, hA]
    rw [show (mkCreature "b" "none" 150 200).hp = (150 : ℚ) from rfl]
    rw [if_neg (by norm_num : ¬ max (0 : ℚ) (150 - 1) = 0)]
    simp only [applyEvents, Option.some_bind, getActiveCreature_pushLog,
      getActiveCreature_updateActiveCreature, hA, Option.map_some']
    norm_num

/-! ### C8 — protect: halving success chance, counter reset/increment -/

theorem currentCreature_eq_getActiveCreature (s : BattleState) (pid : String) :
    currentCreature s pid = getActiveCreature s pid := rfl

/-- The `chance *= 0.5` loop of the protect case computes `(1/2)^count`. -/
theorem protect_chance_pow (n : ℕ) :
    (List.range n).foldl (fun ch _ => ch * (1/2)) (1 : ℚ) = (1/2) ^ n := by
  induction n with
  | zero => rfl
  | succ n ih =>
    rw [List.range_succ, List.foldl_append, ih, List.foldl_cons, List.foldl_nil,
      pow_succ]

/-- C8: the protect effect reads the attacker's consecutive-success counter
`count`, consumes exactly one draw, succeeds exactly when that draw is at most
`0.5^count`; on failure it resets the counter to 0 and emits only the failure
log (no protect status); on success it bumps the counter to `count + 1` and
emits an `apply_status` for a `protect` volatile with duration 1 and a meta
record naming the attacker. -/
theorem protect_effect_semantics (s : BattleState) (ctx : EffectCtx) (r : RngState)
    (att attc : Creature)
    (hatt : ctx.attacker = some att)
    (hc : currentCreature s ctx.attackerPlayerId = some attc) :
    (r.src r.idx > (1/2) ^ attc.volatileData.protectSuccessCount →
      ∃ s1, applyEffect s .protect ctx r =
        some ([.log (att.name ++ "'s protect failed!")], s1, ⟨r.src, r.idx + 1⟩) ∧
        ((getActiveCreature s1 ctx.attackerPlayerId).map
          (fun c => c.volatileData.protectSuccessCount)) = some 0) ∧
    (r.src r.idx ≤ (1/2) ^ attc.volatileData.protectSuccessCount →
      ∃ s1, applyEffect s .protect ctx r =
        some ([.apply_status ctx.attackerPlayerId "protect" (some 1) false SD.empty
          { moveId := ctx.move.map Move.id, source := some ctx.attackerPlayerId }],
          s1, ⟨r.src, r.idx + 1⟩) ∧
        ((getActiveCreature s1 ctx.attackerPlayerId).map
          (fun c => c.volatileData.protectSuccessCount)) =
          some (attc.volatileData.protectSuccessCount + 1)) := by
  have hg : getActiveCreature s ctx.attackerPlayerId = some attc := hc
  constructor
  · intro hfail
    refine ⟨updateActiveCreature s ctx.attackerPlayerId (fun c =>
      { c with volatileData := { c.volatileData with protectSuccessCount := 0 } }),
      ?_, ?_⟩
    · simp only [applyEffect]
      simp only [hc]
      simp only [protect_chance_pow, draw]
      rw [if_pos hfail, hatt]
    · rw [getActiveCreature_updateActiveCreature, hg]
      rfl
  · intro hsucc
    refine ⟨updateActiveCreature s ctx.attackerPlayerId (fun c =>
      { c with volatileData := { c.volatileData with
        protectSuccessCount := attc.volatileData.protectSuccessCount + 1 } }),
      ?_, ?_⟩
    · simp only [applyEffect]
      simp only [hc]
      simp only [protect_chance_pow, draw]
      rw [if_neg (not_lt.mpr hsucc)]
    · rw [getActiveCreature_updateActiveCreature, hg]
      rfl

/-- C8 (witness): the theorem at a concrete counter of 1 — a 0.9 draw fails
against the 0.5 threshold (counter reset to 0), a 0.3 draw succeeds (counter
bumped to 2, protect status event emitted). -/
theorem protect_effect_semantics_witness :
    (∃ s1, applyEffect
        (mkState [{ mkCreature "a" "none" 100 100 with
          volatileData := { protectSuccessCount := 1 } }] [mkCreature "b" "none" 100 100])
        .protect
        { attacker := some { mkCreature "a" "none" 100 100 with
            volatileData := { protectSuccessCount := 1 } },
          target := some (mkCreature "b" "none" 100 100), move := none,
          attackerPlayerId := "p1", targetPlayerId := "p2" }
        ⟨fun _ => 9/10, 0⟩ =
        some ([.log ("a" ++ "'s protect failed!")], s1, ⟨fun _ => 9/10, 0 + 1⟩) ∧
      ((getActiveCreature s1 "p1").map
        (fun c => c.volatileData.protectSuccessCount)) = some 0) ∧
    (∃ s1, applyEffect
        (mkState [{ mkCreature "a" "none" 100 100 with
          volatileData := { protectSuccessCount := 1 } }] [mkCreature "b" "none" 100 100])
        .protect
        { attacker := some { mkCreature "a" "none" 100 100 with
            volatileData := { protectSuccessCount := 1 } },
          target := some (mkCreature "b" "none" 100 100), move := none,
          attackerPlayerId := "p1", targetPlayerId := "p2" }
        ⟨fun _ => 3/10, 0⟩ =
        some ([.apply_status "p1" "protect" (some 1) false SD.empty
          { moveId := none, source := some "p1" }], s1, ⟨fun _ => 3/10, 0 + 1⟩) ∧
      ((getActiveCreature s1 "p1").map
        (fun c => c.volatileData.protectSuccessCount)) = some (1 + 1)) := by
  constructor
  · exact (protect_effect_semantics
      (mkState [{ mkCreature "a" "none" 100 100 with
        volatileData := { protectSuccessCount := 1 } }] [mkCreature "b" "none" 100 100])
      { attacker := some { mkCreature "a" "none" 100 100 with
          volatileData := { protectSuccessCount := 1 } },
        target := some (mkCreature "b" "none" 100 100), move := none,
        attackerPlayerId := "p1", targetPlayerId := "p2" }
      ⟨fun _ => 9/10, 0⟩
      { mkCreature "a" "none" 100 100 with volatileData := { protectSuccessCount := 1 } }
      { mkCreature "a" "none" 100 100 with volatileData := { protectSuccessCount := 1 } }
      rfl rfl).1 (by norm_num)
  · exact (protect_effect_semantics
      (mkState [{ mkCreature "a" "none" 100 100 with
        volatileData := { protectSuccessCount := 1 } }] [mkCreature "b" "none" 100 100])
      { attacker := some { mkCreature "a" "none" 100 100 with
          volatileData := { protectSuccessCount := 1 } },
        target := some (mkCreature "b" "none" 100 100), move := none,
        attackerPlayerId := "p1", targetPlayerId := "p2" }
      ⟨fun _ => 3/10, 0⟩
      { mkCreature "a" "none" 100 100 with volatileData := { protectSuccessCount := 1 } }
      { mkCreature "a" "none" 100 100 with volatileData := { protectSuccessCount := 1 } }
      rfl rfl).2 (by norm_num)

/-! ### C7 — damage is ≥ 1 when effectiveness > 0, 0 on immunity, but the
plain damage pipeline emits no "doesn't affect" log -/

/-- `calcDamage` returns 0 exactly on type immunity and otherwise
`max 1 ⌊…⌋ ≥ 1`. -/
theorem calcDamage_bounds (power : Option ℚ) (atk tgt : Creature) (s : BattleState)
    (ctx : EffectCtx) (r : RngState) :
    (getTypeEffectiveness (ctx.move.bind Move.type) tgt.types = 0 →
      (calcDamage power (some atk) (some tgt) s ctx r).1 = 0) ∧
    (getTypeEffectiveness (ctx.move.bind Move.type) tgt.types ≠ 0 →
      1 ≤ (calcDamage power (some atk) (some tgt) s ctx r).1) := by
  constructor
  · intro h0
    simp only [calcDamage]
    rw [if_pos h0]
  · intro hne
    simp only [calcDamage]
    rw [if_neg hne]
    simp only
    exact_mod_cast Int.cast_le.mpr (le_max_left 1 _)

/-- C7 (amended): for a damage effect that passes its accuracy roll, the
emitted damage amount is at least 1 whenever the type-effectiveness product
over the defender's types is non-zero, and exactly 0 when the product is 0 —
but in the 0 case no "doesn't affect" log is emitted: the only log event of
the compiled damage effect is the "X used Y!" line (the `ohko` effect, not
the damage effect, owns the doesn't-affect log). -/
theorem damage_effect_effectiveness (s : BattleState) (ctx : EffectCtx) (r : RngState)
    (power accuracy : Option ℚ) (atk tgt : Creature)
    (hA : currentCreature s ctx.attackerPlayerId = some atk)
    (hT : currentCreature s ctx.targetPlayerId = some tgt)
    (hhit : ¬ (r.src r.idx > runHookAccuracy s ctx.attackerPlayerId (accuracy.getD 1)
      (getMoveCategory ctx.move))) :
    ∃ evs s1 r1, applyEffect s (.damage power accuracy) ctx r = some (evs, s1, r1) ∧
      (∀ t a m, Event.damage t a m ∈ evs →
        (getTypeEffectiveness (ctx.move.bind Move.type) tgt.types ≠ 0 → 1 ≤ a) ∧
        (getTypeEffectiveness (ctx.move.bind Move.type) tgt.types = 0 → a = 0)) ∧
      (∃ a m, Event.damage ctx.targetPlayerId a m ∈ evs) ∧
      (∀ msg, Event.log msg ∈ evs → msg =
        ((ctx.attacker.map Creature.name).getD "Unknown") ++ " used " ++
        ((ctx.move.map Move.name).getD "move") ++ "!") := by
  have hunfold : applyEffect s (.damage power accuracy) ctx r =
      damageEffectEvents s power accuracy ctx r := by
    simp only [applyEffect]
  rw [hunfold]
  simp only [damageEffectEvents]
  simp only [hA, hT, draw]
  rw [if_neg hhit]
  by_cases hpb : ((some atk).map Creature.ability) == some "parental_bond"
  · rw [if_pos hpb]
    refine ⟨_, _, _, rfl, ?_, ?_, ?_⟩
    · intro t a m hmem
      simp only [List.mem_append, List.mem_cons, List.not_mem_nil, or_false] at hmem
      rcases hmem with (h | h) | h
      · exact Event.noConfusion h
      · rcases Event.damage.inj h with ⟨rfl, rfl, rfl⟩
        exact ⟨fun hne => (calcDamage_bounds power atk tgt s
            { ctx with turn := some (ctx.turn.getD s.turn) }
            { r with idx := r.idx + 1 }).2 hne,
          fun h0 => (calcDamage_bounds power atk tgt s
            { ctx with turn := some (ctx.turn.getD s.turn) }
            { r with idx := r.idx + 1 }).1 h0⟩
      · rcases Event.damage.inj h with ⟨rfl, rfl, rfl⟩
        exact ⟨fun hne => (calcDamage_bounds (some ((power.getD 0) * (1/4))) atk tgt s
            { ctx with turn := some (ctx.turn.getD s.turn), parentalBondHit := true }
            _).2 hne,
          fun h0 => (calcDamage_bounds (some ((power.getD 0) * (1/4))) atk tgt s
            { ctx with turn := some (ctx.turn.getD s.turn), parentalBondHit := true }
            _).1 h0⟩
    · exact ⟨_, _, List.mem_append_left _ (List.mem_cons_of_mem _
        (List.mem_cons_self _ _))⟩
    · intro msg hmem
      simp only [List.mem_append, List.mem_cons, List.not_mem_nil, or_false] at hmem
      rcases hmem with (h | h) | h
      · exact Event.log.inj h
      · exact Event.noConfusion h
      · exact Event.noConfusion h
  · rw [if_neg hpb]
    refine ⟨_, _, _, rfl, ?_, ?_, ?_⟩
    · intro t a m hmem
      simp only [List.mem_cons, List.not_mem_nil, or_false] at hmem
      rcases hmem with h | h
      · exact Event.noConfusion h
      · rcases Event.damage.inj h with ⟨rfl, rfl, rfl⟩
        exact ⟨fun hne => (calcDamage_bounds power atk tgt s
            { ctx with turn := some (ctx.turn.getD s.turn) }
            { r with idx := r.idx + 1 }).2 hne,
          fun h0 => (calcDamage_bounds power atk tgt s
            { ctx with turn := some (ctx.turn.getD s.turn) }
            { r with idx := r.idx + 1 }).1 h0⟩
    · exact ⟨_, _, List.mem_cons_of_mem _ (List.mem_cons_self _ _)⟩
    · intro msg hmem
      simp only [List.mem_cons, List.not_mem_nil, or_false] at hmem
      rcases hmem with h | h
      · exact Event.log.inj h
      · exact Event.noConfusion h

/-- A plain physical normal-type move used by concrete damage runs. -/
def tackleMove : Move :=
  { id := "tackle", name := "Tackle", type := some "normal",
    category := some "physical", pp := some 35, power := some 40,
    accuracy := some 1, priority := none, critRate := none }

/-- A ghost-type defender (immune to normal-type moves). -/
def ghostDefender : Creature := { mkCreature "b" "none" 100 100 with types := ["ghost"] }

/-- Compiler context for Tackle against the ghost defender. -/
def ctxTackleGhost : EffectCtx :=
  { attacker := some (mkCreature "a" "none" 100 100), target := some ghostDefender,
    move := some tackleMove, attackerPlayerId := "p1", targetPlayerId := "p2" }

/-- C7 (witness): the amended theorem at Tackle against a normal-type
defender (effectiveness 1). -/
theorem damage_effect_effectiveness_witness :
    ∃ evs s1 r1, applyEffect
        (mkState [mkCreature "a" "none" 100 100] [mkCreature "b" "none" 100 100])
        (.damage (some 40) (some 1))
        { attacker := some (mkCreature "a" "none" 100 100),
          target := some (mkCreature "b" "none" 100 100), move := some tackleMove,
          attackerPlayerId := "p1", targetPlayerId := "p2" } rng0 =
        some (evs, s1, r1) ∧
      (∀ t a m, Event.damage t a m ∈ evs →
        (getTypeEffectiveness ((some tackleMove).bind Move.type)
          (mkCreature "b" "none" 100 100).types ≠ 0 → 1 ≤ a) ∧
        (getTypeEffectiveness ((some tackleMove).bind Move.type)
          (mkCreature "b" "none" 100 100).types = 0 → a = 0)) ∧
      (∃ a m, Event.damage "p2" a m ∈ evs) ∧
      (∀ msg, Event.log msg ∈ evs → msg =
        ((some (mkCreature "a" "none" 100 100)).map Creature.name).getD "Unknown" ++
        " used " ++ ((some tackleMove).map Move.name).getD "move" ++ "!") :=
  damage_effect_effectiveness
    (mkState [mkCreature "a" "none" 100 100] [mkCreature "b" "none" 100 100])
    { attacker := some (mkCreature "a" "none" 100 100),
      target := some (mkCreature "b" "none" 100 100), move := some tackleMove,
      attackerPlayerId := "p1", targetPlayerId := "p2" } rng0
    (some 40) (some 1) (mkCreature "a" "none" 100 100) (mkCreature "b" "none" 100 100)
    rfl rfl
    (by
      rw [show runHookAccuracy
        (mkState [mkCreature "a" "none" 100 100] [mkCreature "b" "none" 100 100]) "p1"
        (((some (1 : ℚ))).getD 1) (getMoveCategory (some tackleMove)) = 1 from rfl]
      rw [show rng0.src rng0.idx = (0 : ℚ) from rfl]
      norm_num)

/-- The meta record the damage pipeline attaches for Tackle from p1 to p2. -/
def tackleGhostMeta : Meta :=
  { source := some "p1", target := some "p2", moveId := some "tackle",
    cancellable := true }

/-- C7 (counterexample): Tackle (normal) against a ghost-type defender — the
damage effect compiles to exactly the used-move log plus a 0-amount damage
event; the claimed "doesn't affect" log line is not among the events. -/
theorem C7_counterexample_immune_logs :
    applyEffect (mkState [mkCreature "a" "none" 100 100] [ghostDefender])
        (.damage (some 40) (some 1)) ctxTackleGhost rng0 =
      some ([.log ("a used Tackle!"), .damage "p2" 0 tackleGhostMeta],
        mkState [mkCreature "a" "none" 100 100] [ghostDefender],
        ⟨rng0.src, 1⟩) ∧
    ¬ (Event.log ("Tackle doesn't affect b!") ∈
      [Event.log ("a used Tackle!"), Event.damage "p2" 0 tackleGhostMeta]) := by
  constructor
  · have hA : currentCreature (mkState [mkCreature "a" "none" 100 100] [ghostDefender])
        ctxTackleGhost.attackerPlayerId = some (mkCreature "a" "none" 100 100) := rfl
    have hT : currentCreature (mkState [mkCreature "a" "none" 100 100] [ghostDefender])
        ctxTackleGhost.targetPlayerId = some ghostDefender := rfl
    have hrc : rollCritical (mkState [mkCreature "a" "none" 100 100] [ghostDefender])
        (some ghostDefender)
        { ctxTackleGhost with
          turn := some ((ctxTackleGhost.turn).getD
            (mkState [mkCreature "a" "none" 100 100] [ghostDefender]).turn) }
        { rng0 with idx := rng0.idx + 1 } = (false, { rng0 with idx := rng0.idx + 1 }) := by
      simp only [rollCritical]
      rw [show ({ ctxTackleGhost with
          turn := some ((ctxTackleGhost.turn).getD
            (mkState [mkCreature "a" "none" 100 100] [ghostDefender]).turn)
          } : EffectCtx).parentalBondHit = false from rfl]
      rw [show runHookCritChance (mkState [mkCreature "a" "none" 100 100] [ghostDefender])
        ctxTackleGhost.attackerPlayerId ((ctxTackleGhost.move.bind Move.critRate).getD 0)
        (some ghostDefender) = (0 : ℚ) from rfl]
      simp only [Bool.false_eq_true, if_false]
      rw [if_pos (by norm_num : (0 : ℚ) ≤ 0)]
    have hcd : calcDamage (some 40) (some (mkCreature "a" "none" 100 100))
        (some ghostDefender) (mkState [mkCreature "a" "none" 100 100] [ghostDefender])
        { ctxTackleGhost with
          turn := some ((ctxTackleGhost.turn).getD
            (mkState [mkCreature "a" "none" 100 100] [ghostDefender]).turn) }
        { rng0 with idx := rng0.idx + 1 } = (0, { rng0 with idx := rng0.idx + 1 }) := by
      simp only [calcDamage]
      rw [hrc]
      rw [show getTypeEffectiveness (ctxTackleGhost.move.bind Move.type)
        ghostDefender.types = (0 : ℚ) from rfl]
      rw [if_pos rfl]
    simp only [applyEffect]
    simp only [damageEffectEvents, hA, hT, draw]
    rw [if_neg (by
      rw [show runHookAccuracy (mkState [mkCreature "a" "none" 100 100] [ghostDefender])
        ctxTackleGhost.attackerPlayerId (((some (1 : ℚ))).getD 1)
        (getMoveCategory ctxTackleGhost.move) = 1 from rfl]
      rw [show rng0.src rng0.idx = (0 : ℚ) from rfl]
      norm_num)]
    rw [hcd]
    simp only [tackleGhostMeta]
    rfl
  · simp [tackleGhostMeta]

/-! ### C3 — RNG consumption order of the damage pipeline -/

/-- `rollCritical` consumes one draw exactly when the hit is not the
parental-bond second hit and the ability-adjusted crit stage is positive;
at stage ≤ 0 it returns without touching the rng. -/
theorem rollCritical_rng (state : BattleState) (target : Option Creature)
    (ctx : EffectCtx) (r : RngState) :
    (rollCritical state target ctx r).2 =
      if ctx.parentalBondHit = false ∧
          0 < runHookCritChance state ctx.attackerPlayerId
            ((ctx.move.bind Move.critRate).getD 0) target then
        ⟨r.src, r.idx + 1⟩
      else r := by
  obtain ⟨src, idx⟩ := r
  simp only [rollCritical, draw]
  by_cases hpb : ctx.parentalBondHit = true
  · rw [if_pos hpb, if_neg (fun h => by rw [hpb] at h; exact Bool.noConfusion h.1)]
  · rw [if_neg hpb]
    by_cases hcs : runHookCritChance state ctx.attackerPlayerId
        ((ctx.move.bind Move.critRate).getD 0) target ≤ 0
    · rw [if_pos hcs, if_neg (fun h => hcs.not_lt h.2)]
    · have hpb' : ctx.parentalBondHit = false := by
        cases h : ctx.parentalBondHit
        · rfl
        · exact absurd h hpb
      have hand : ctx.parentalBondHit = false ∧
          0 < runHookCritChance state ctx.attackerPlayerId
            ((ctx.move.bind Move.critRate).getD 0) target :=
        ⟨hpb', not_le.mp hcs⟩
      rw [if_neg hcs, if_pos hand]

/-- `calcDamage` draws its damage roll immediately after the crit roll, except
on type immunity, where it returns before the damage roll. -/
theorem calcDamage_rng (power : Option ℚ) (atk tgt : Creature) (state : BattleState)
    (ctx : EffectCtx) (r : RngState) :
    (calcDamage power (some atk) (some tgt) state ctx r).2 =
      if getTypeEffectiveness (ctx.move.bind Move.type) tgt.types = 0 then
        (rollCritical state (some tgt) ctx r).2
      else
        ⟨(rollCritical state (some tgt) ctx r).2.src,
          (rollCritical state (some tgt) ctx r).2.idx + 1⟩ := by
  rcases hrc : rollCritical state (some tgt) ctx r with ⟨crit, r2⟩
  obtain ⟨s2, i2⟩ := r2
  simp only [calcDamage, hrc, draw]
  by_cases heff : getTypeEffectiveness (ctx.move.bind Move.type) tgt.types = 0
  · rw [if_pos heff, if_pos heff]
  · rw [if_neg heff, if_neg heff]

/-- The repeat loop over an empty effect list consumes nothing. -/
theorem applyEffectsTimes_nil (n : ℕ) (state : BattleState) (ctx : EffectCtx)
    (r : RngState) :
    applyEffectsTimes state n [] ctx r = some ([], state, r) := by
  induction n with
  | zero => simp only [applyEffectsTimes]
  | succ n ih => simp only [applyEffectsTimes, applyEffectsEv, ih, List.nil_append]

/-- C3 (amended): RNG consumption order of the compiled damage pipeline.
(1) `rollCritical` consumes a draw exactly when the hit is not the
parental-bond second hit and the ability-adjusted crit stage is positive — a
move with crit stage 0 consumes no crit roll, contradicting the claim's
"every hit consumes a crit roll". (2) `calcDamage` draws the damage roll
right after the crit roll, but skips it on type immunity. (3) The damage
effect draws its accuracy roll first, at the incoming cursor, and the per-hit
rolls start at the next cursor position. (4) A ranged multi-hit repeat
without Skill Link draws its hit count first and compiles the per-hit
effects starting at the next cursor position. (5) A secondary status-proc
chance rolls on the rng state left by the damage effect, i.e. after the
damage rolls. -/
theorem rng_consumption_order :
    (∀ (state : BattleState) (target : Option Creature) (ctx : EffectCtx)
      (r : RngState),
      (rollCritical state target ctx r).2.src = r.src ∧
      (rollCritical state target ctx r).2.idx =
        r.idx + (if ctx.parentalBondHit = false ∧
          0 < runHookCritChance state ctx.attackerPlayerId
            ((ctx.move.bind Move.critRate).getD 0) target then 1 else 0)) ∧
    (∀ (power : Option ℚ) (atk tgt : Creature) (state : BattleState)
      (ctx : EffectCtx) (r : RngState),
      (calcDamage power (some atk) (some tgt) state ctx r).2.idx =
        (rollCritical state (some tgt) ctx r).2.idx +
          (if getTypeEffectiveness (ctx.move.bind Move.type) tgt.types = 0
            then 0 else 1)) ∧
    (∀ (state : BattleState) (power accuracy : Option ℚ) (ctx : EffectCtx)
      (r : RngState),
      ¬ (r.src r.idx > runHookAccuracy state ctx.attackerPlayerId (accuracy.getD 1)
        (getMoveCategory ctx.move)) →
      ((currentCreature state ctx.attackerPlayerId).map Creature.ability ==
        some "parental_bond") = false →
      ∃ evs, applyEffect state (.damage power accuracy) ctx r =
        some (evs, state,
          (calcDamage power (currentCreature state ctx.attackerPlayerId)
            (currentCreature state ctx.targetPlayerId) state
            { ctx with turn := some (ctx.turn.getD state.turn) }
            ⟨r.src, r.idx + 1⟩).2)) ∧
    (∀ (state : BattleState) (lo hi : ℚ) (cnt : Option TimesSpec)
      (effects : List Effect) (ctx : EffectCtx) (r : RngState)
      (collected : List Event) (s2 : BattleState) (r2 : RngState),
      runCheckSkillLink state ctx.attackerPlayerId = false →
      applyEffectsTimes state (jsLoopCount (lo + ⌊r.src r.idx * (hi - lo + 1)⌋))
        effects ctx ⟨r.src, r.idx + 1⟩ = some (collected, s2, r2) →
      (1 : ℚ) < lo + ⌊r.src r.idx * (hi - lo + 1)⌋ →
      applyEffect state (.repeatE (some (.range lo hi)) cnt effects) ctx r =
        some (collected ++ [.log ("Hit " ++
          toString (lo + ⌊r.src r.idx * (hi - lo + 1)⌋ : ℚ) ++ " time(s)!")],
          s2, r2)) ∧
    (∀ (state : BattleState) (power accuracy : Option ℚ) (sid : String)
      (tgt : Option String) (stk : Option Bool) (ch : ℚ) (d : Option SD)
      (ctx : EffectCtx) (r r1 : RngState) (evs1 : List Event) (s1 : BattleState)
      (att : Creature),
      applyEffect state (.damage power accuracy) ctx r = some (evs1, s1, r1) →
      isItemStatus sid = false →
      ctx.attacker = some att →
      ∃ evs2, applyEffectsEv state
          [.damage power accuracy, .apply_status sid tgt .nullD stk (some ch) d]
          ctx r =
        some (evs1 ++ evs2, s1, ⟨r1.src, r1.idx + 1⟩)) := by
  refine ⟨?_, ?_, ?_, ?_, ?_⟩
  · intro state target ctx r
    rw [rollCritical_rng]
    by_cases h : ctx.parentalBondHit = false ∧
        0 < runHookCritChance state ctx.attackerPlayerId
          ((ctx.move.bind Move.critRate).getD 0) target
    · rw [if_pos h, if_pos h]
      exact ⟨rfl, rfl⟩
    · rw [if_neg h, if_neg h]
      exact ⟨rfl, rfl⟩
  · intro power atk tgt state ctx r
    rw [calcDamage_rng]
    by_cases heff : getTypeEffectiveness (ctx.move.bind Move.type) tgt.types = 0
    · rw [if_pos heff, if_pos heff]
      exact (Nat.add_zero _).symm
    · rw [if_neg heff, if_neg heff]
  · intro state power accuracy ctx r hhit hpb
    obtain ⟨src, idx⟩ := r
    have hunfold : applyEffect state (.damage power accuracy) ctx ⟨src, idx⟩ =
        damageEffectEvents state power accuracy ctx ⟨src, idx⟩ := by
      simp only [applyEffect]
    rw [hunfold]
    simp only [damageEffectEvents, draw]
    rw [if_neg hhit]
    simp only [hpb, Bool.false_eq_true, if_false]
    exact ⟨_, rfl⟩
  · intro state lo hi cnt effects ctx r collected s2 r2 hsl happly hgt
    simp only [applyEffect, draw]
    rw [hsl]
    simp only [Bool.false_eq_true, if_false]
    simp only [happly]
    rw [if_pos hgt]
  · intro state power accuracy sid tgt stk ch d ctx r r1 evs1 s1 att h1 hitem hatt
    simp only [applyEffectsEv, h1]
    simp only [applyEffect, hitem, Bool.false_eq_true, if_false, passesChance, draw]
    obtain ⟨src1, idx1⟩ := r1
    by_cases hpass : src1 idx1 ≤ ch
    · rw [if_neg (by simp [hpass])]
      exact ⟨_, rfl⟩
    · rw [if_pos (by simp [hpass])]
      rw [hatt]
      exact ⟨_, rfl⟩

/-- Tackle (crit stage 0) between two normal-type creatures. -/
def ctxC3 : EffectCtx :=
  { attacker := some (mkCreature "a" "none" 100 100),
    target := some (mkCreature "b" "none" 100 100),
    move := some tackleMove, attackerPlayerId := "p1", targetPlayerId := "p2" }

/-- An RNG source that always returns 1, cursor at the start. -/
def rngOnes : RngState := ⟨fun _ => 1, 0⟩

/-- C3 (witness): the amended ordering theorem at concrete inputs — a hitting
Tackle (accuracy first, per-hit rolls from the next cursor), a 2–2 ranged
repeat over no effects (count drawn first), and a missed damage effect
followed by a status chance (the chance rolls on the rng the damage effect
left). -/
theorem rng_consumption_order_witness :
    (∃ evs, applyEffect
        (mkState [mkCreature "a" "none" 100 100] [mkCreature "b" "none" 100 100])
        (.damage (some 40) (some 1)) ctxC3 rng0 =
      some (evs, mkState [mkCreature "a" "none" 100 100] [mkCreature "b" "none" 100 100],
        (calcDamage (some 40)
          (currentCreature
            (mkState [mkCreature "a" "none" 100 100] [mkCreature "b" "none" 100 100])
            ctxC3.attackerPlayerId)
          (currentCreature
            (mkState [mkCreature "a" "none" 100 100] [mkCreature "b" "none" 100 100])
            ctxC3.targetPlayerId)
          (mkState [mkCreature "a" "none" 100 100] [mkCreature "b" "none" 100 100])
          { ctxC3 with
            turn := some (ctxC3.turn.getD
              (mkState [mkCreature "a" "none" 100 100]
                [mkCreature "b" "none" 100 100]).turn) }
          ⟨rng0.src, rng0.idx + 1⟩).2)) ∧
    (applyEffect (mkState [mkCreature "a" "none" 100 100] [mkCreature "b" "none" 100 100])
        (.repeatE (some (.range 2 2)) none []) ctxC3 rng0 =
      some ([] ++ [.log ("Hit " ++
          toString ((2 : ℚ) + ⌊rng0.src rng0.idx * (2 - 2 + 1)⌋ : ℚ) ++ " time(s)!")],
        mkState [mkCreature "a" "none" 100 100] [mkCreature "b" "none" 100 100],
        ⟨rng0.src, rng0.idx + 1⟩)) ∧
    (∃ evs2, applyEffectsEv
        (mkState [mkCreature "a" "none" 100 100] [mkCreature "b" "none" 100 100])
        [.damage (some 40) (some 0), .apply_status "burn" none .nullD none (some 1) none]
        ctxC3 rngOnes =
      some ([.log ("a's Tackle missed!")] ++ evs2,
        mkState [mkCreature "a" "none" 100 100] [mkCreature "b" "none" 100 100],
        ⟨rngOnes.src, rngOnes.idx + 1 + 1⟩)) := by
  refine ⟨?_, ?_, ?_⟩
  · exact rng_consumption_order.2.2.1
      (mkState [mkCreature "a" "none" 100 100] [mkCreature "b" "none" 100 100])
      (some 40) (some 1) ctxC3 rng0
      (by
        rw [show runHookAccuracy
          (mkState [mkCreature "a" "none" 100 100] [mkCreature "b" "none" 100 100])
          ctxC3.attackerPlayerId (((some (1 : ℚ))).getD 1)
          (getMoveCategory ctxC3.move) = 1 from rfl]
        rw [show rng0.src rng0.idx = (0 : ℚ) from rfl]
        norm_num)
      rfl
  · exact rng_consumption_order.2.2.2.1
      (mkState [mkCreature "a" "none" 100 100] [mkCreature "b" "none" 100 100])
      2 2 none [] ctxC3 rng0 []
      (mkState [mkCreature "a" "none" 100 100] [mkCreature "b" "none" 100 100])
      ⟨rng0.src, rng0.idx + 1⟩ rfl
      (applyEffectsTimes_nil _ _ _ _)
      (by
        rw [show rng0.src rng0.idx = (0 : ℚ) from rfl]
        norm_num)
  · have h1 : applyEffect
        (mkState [mkCreature "a" "none" 100 100] [mkCreature "b" "none" 100 100])
        (.damage (some 40) (some 0)) ctxC3 rngOnes =
        some ([.log ("a's Tackle missed!")],
          mkState [mkCreature "a" "none" 100 100] [mkCreature "b" "none" 100 100],
          ⟨rngOnes.src, rngOnes.idx + 1⟩) := by
      simp only [applyEffect]
      simp only [damageEffectEvents, draw]
      rw [if_pos (by
        rw [show runHookAccuracy
          (mkState [mkCreature "a" "none" 100 100] [mkCreature "b" "none" 100 100])
          ctxC3.attackerPlayerId (((some (0 : ℚ))).getD 1)
          (getMoveCategory ctxC3.move) = 0 from rfl]
        rw [show rngOnes.src rngOnes.idx = (1 : ℚ) from rfl]
        norm_num)]
      rfl
    exact rng_consumption_order.2.2.2.2
      (mkState [mkCreature "a" "none" 100 100] [mkCreature "b" "none" 100 100])
      (some 40) (some 0) "burn" none none 1 none ctxC3 rngOnes
      ⟨rngOnes.src, rngOnes.idx + 1⟩ [.log ("a's Tackle missed!")]
      (mkState [mkCreature "a" "none" 100 100] [mkCreature "b" "none" 100 100])
      (mkCreature "a" "none" 100 100) h1 rfl rfl

/-- C3 (counterexample): a single-hit damage effect whose move has crit stage
0 (Tackle: no `critRate`, no crit-modifying ability) consumes exactly 2 draws
— accuracy at cursor 0 and the damage roll at cursor 1, leaving the cursor at
2 — not the 3 draws (accuracy, crit, damage) the claim's "every hit consumes
a crit roll, including moves with crit stage 0" requires. -/
theorem C3_counterexample_no_crit_draw :
    ((applyEffect (mkState [mkCreature "a" "none" 100 100] [mkCreature "b" "none" 100 100])
        (.damage (some 40) (some 1)) ctxC3 rng0).map
      (fun res => res.2.2.idx)) = some 2 ∧ (2 : ℕ) ≠ 3 := by
  constructor
  · have hA : currentCreature
        (mkState [mkCreature "a" "none" 100 100] [mkCreature "b" "none" 100 100])
        ctxC3.attackerPlayerId = some (mkCreature "a" "none" 100 100) := rfl
    have hT : currentCreature
        (mkState [mkCreature "a" "none" 100 100] [mkCreature "b" "none" 100 100])
        ctxC3.targetPlayerId = some (mkCreature "b" "none" 100 100) := rfl
    simp only [applyEffect]
    simp only [damageEffectEvents, hA, hT, draw]
    rw [if_neg (by
      rw [show runHookAccuracy
        (mkState [mkCreature "a" "none" 100 100] [mkCreature "b" "none" 100 100])
        ctxC3.attackerPlayerId (((some (1 : ℚ))).getD 1)
        (getMoveCategory ctxC3.move) = 1 from rfl]
      rw [show rng0.src rng0.idx = (0 : ℚ) from rfl]
      norm_num)]
    rw [show ((some (mkCreature "a" "none" 100 100)).map Creature.ability ==
      some "parental_bond") = false from rfl]
    simp only [Bool.false_eq_true, if_false, Option.map_some']
    rw [calcDamage_rng]
    rw [if_neg (by
      rw [show getTypeEffectiveness (ctxC3.move.bind Move.type)
        (mkCreature "b" "none" 100 100).types = (1 : ℚ) from rfl]
      norm_num)]
    rw [rollCritical_rng]
    rw [if_neg (fun h => by
      rw [show runHookCritChance
        (mkState [mkCreature "a" "none" 100 100] [mkCreature "b" "none" 100 100])
        ctxC3.attackerPlayerId ((ctxC3.move.bind Move.critRate).getD 0)
        (some (mkCreature "b" "none" 100 100)) = (0 : ℚ) from rfl] at h
      exact lt_irrefl 0 h.2)]
    rfl
  · decide

/-! ### C4 — action ordering in `stepBattle` (`part_006`) -/

/-- `part_006` `creatureSpeed` (the factory always writes a `spe` stage, so
the absent-key default matches the source's direct `creature.stages.spe`
read). -/
def creatureSpeed (state : BattleState) (playerId : String) : ℚ :=
  match getActiveCreature state playerId with
  | none => 0
  | some creature =>
    let speed := creature.speed * stageMultiplier ((assocGet creature.stages "spe").getD 0)
    runHookSpeed state playerId speed (getWeather state) state.turn

/-- `part_006` `getActionPriority`: `action.priority ?? move?.priority ?? 0`
through the `onModifyPriority` ability hook. -/
def getActionPriority (state : BattleState) (action : Action) (move : Option Move) : ℚ :=
  let base :=
    match action.priority with
    | some p => p
    | none => (move.bind Move.priority).getD 0
  runHookPriority state action.playerId base move

/-- One step of the ordering map of `stepBattle`: a `switch` action gets
`_priority` 10000, `_speed` 0 and one rng draw; every other action (including
`use_item`) gets `getActionPriority`, `creatureSpeed` and one rng draw. -/
def mapOrder (state : BattleState) (moves : String → Option Move) (a : Action)
    (r : RngState) : (Action × ℚ × ℚ × ℚ) × RngState :=
  if a.type == "switch" then
    let (v, r) := draw r
    ((a, 10000, 0, v), r)
  else
    let move := a.moveId.bind moves
    let priority := getActionPriority state a move
    let speed := creatureSpeed state a.playerId
    let (v, r) := draw r
    ((a, priority, speed, v), r)

/-- The `[...actions].map(...)` pass, drawing once per action in list order. -/
def mapActions (state : BattleState) (moves : String → Option Move) :
    List Action → RngState → List (Action × ℚ × ℚ × ℚ) × RngState
  | [], r => ([], r)
  | a :: rest, r =>
    let (e, r) := mapOrder state moves a r
    let (es, r) := mapActions state moves rest r
    (e :: es, r)

/-- The sort comparator of `stepBattle`: priority descending, then speed
descending, then the per-action rng draw ascending. -/
def actionLe (x y : Action × ℚ × ℚ × ℚ) : Bool :=
  if x.2.1 = y.2.1 then
    if x.2.2.1 = y.2.2.1 then decide (x.2.2.2 ≤ y.2.2.2)
    else decide (y.2.2.1 < x.2.2.1)
  else decide (y.2.1 < x.2.1)

/-- The `ordered` list of `stepBattle`: map each action, then stable-sort by
the comparator (JS `Array.prototype.sort` is stable). -/
def orderActions (state : BattleState) (actions : List Action)
    (moves : String → Option Move) (r : RngState) :
    List (Action × ℚ × ℚ × ℚ) × RngState :=
  let (mapped, r) := mapActions state moves actions r
  (mapped.mergeSort actionLe, r)

/-- The comparator is the lexicographic order: priority strictly higher, or
equal priority and speed strictly higher, or both equal and rng draw ≤. -/
theorem actionLe_iff (x y : Action × ℚ × ℚ × ℚ) :
    actionLe x y = true ↔
      (y.2.1 < x.2.1 ∨ (x.2.1 = y.2.1 ∧
        (y.2.2.1 < x.2.2.1 ∨ (x.2.2.1 = y.2.2.1 ∧ x.2.2.2 ≤ y.2.2.2)))) := by
  simp only [actionLe]
  split_ifs with h1 h2 <;> simp_all [lt_self_iff_false]

theorem actionLe_trans (a b c : Action × ℚ × ℚ × ℚ)
    (hab : actionLe a b = true) (hbc : actionLe b c = true) :
    actionLe a c = true := by
  rw [actionLe_iff] at hab hbc ⊢
  rcases hab with h | ⟨e1, hab⟩
  · rcases hbc with h' | ⟨e2, _⟩
    · exact Or.inl (by linarith)
    · exact Or.inl (e2 ▸ h)
  · rcases hbc with h' | ⟨e2, hbc⟩
    · exact Or.inl (e1 ▸ h')
    · refine Or.inr ⟨e1.trans e2, ?_⟩
      rcases hab with hs | ⟨es1, hr⟩
      · rcases hbc with hs' | ⟨es2, _⟩
        · exact Or.inl (by linarith)
        · exact Or.inl (es2 ▸ hs)
      · rcases hbc with hs' | ⟨es2, hr'⟩
        · exact Or.inl (es1 ▸ hs')
        · exact Or.inr ⟨es1.trans es2, le_trans hr hr'⟩

theorem actionLe_total (a b : Action × ℚ × ℚ × ℚ) :
    (actionLe a b || actionLe b a) = true := by
  simp only [Bool.or_eq_true, actionLe_iff]
  rcases lt_trichotomy a.2.1 b.2.1 with h | h | h
  · exact Or.inr (Or.inl h)
  · rcases lt_trichotomy a.2.2.1 b.2.2.1 with h2 | h2 | h2
    · exact Or.inr (Or.inr ⟨h.symm, Or.inl h2⟩)
    · rcases le_total a.2.2.2 b.2.2.2 with h3 | h3
      · exact Or.inl (Or.inr ⟨h, Or.inr ⟨h2, h3⟩⟩)
      · exact Or.inr (Or.inr ⟨h.symm, Or.inr ⟨h2.symm, h3⟩⟩)
    · exact Or.inl (Or.inr ⟨h, Or.inl h2⟩)
  · exact Or.inl (Or.inl h)

/-- C4 (amended): only `switch` actions get the +10000 ordering priority.
(1) A `switch` action is mapped to priority 10000, speed 0 and one rng draw.
(2) Every other action — `use_item` included — is mapped to
`getActionPriority` (`action.priority ?? move?.priority ?? 0` through the
`onModifyPriority` hook), `creatureSpeed`, and one rng draw; so a submitted
`use_item` action with no explicit priority sorts at priority 0, after any
positive-priority move. (3) The comparator puts strictly higher priority
strictly first. (4) The resolver's ordered list is sorted by the
comparator. -/
theorem action_ordering :
    (∀ (state : BattleState) (moves : String → Option Move) (a : Action) (r : RngState),
      a.type = "switch" →
      mapOrder state moves a r = ((a, 10000, 0, r.src r.idx), ⟨r.src, r.idx + 1⟩)) ∧
    (∀ (state : BattleState) (moves : String → Option Move) (a : Action) (r : RngState),
      a.type ≠ "switch" →
      mapOrder state moves a r =
        ((a, getActionPriority state a (a.moveId.bind moves),
          creatureSpeed state a.playerId, r.src r.idx), ⟨r.src, r.idx + 1⟩)) ∧
    (∀ x y : Action × ℚ × ℚ × ℚ, x.2.1 < y.2.1 →
      actionLe x y = false ∧ actionLe y x = true) ∧
    (∀ (state : BattleState) (actions : List Action) (moves : String → Option Move)
      (r : RngState),
      ((orderActions state actions moves r).1).Pairwise
        (fun x y => actionLe x y = true)) := by
  refine ⟨?_, ?_, ?_, ?_⟩
  · intro state moves a r h
    simp only [mapOrder, draw]
    rw [if_pos (beq_iff_eq.mpr h)]
  · intro state moves a r h
    simp only [mapOrder, draw]
    rw [if_neg (by simp [beq_iff_eq, h])]
  · intro x y h
    constructor
    · rw [Bool.eq_false_iff]
      intro hc
      rw [actionLe_iff] at hc
      rcases hc with h' | ⟨e, _⟩
      · exact absurd h (not_lt.mpr h'.le)
      · exact absurd e (ne_of_lt h)
    · rw [actionLe_iff]
      exact Or.inl h
  · intro state actions moves r
    rcases hm : mapActions state moves actions r with ⟨mapped, r2⟩
    simp only [orderActions, hm]
    exact List.sorted_mergeSort actionLe_trans actionLe_total mapped

/-- C4 (witness): the amended theorem at concrete actions — a switch to slot
1 (priority 10000), a move action carrying explicit priority (mapped through
`getActionPriority`, not 10000), and two entries with priorities 0 < 1 that
the comparator orders strictly. -/
theorem action_ordering_witness :
    (mapOrder (mkState [mkCreature "a" "none" 100 100] [mkCreature "b" "none" 100 100])
      (fun _ => none) { type := "switch", playerId := "p1", slot := 1 } rng0 =
      (({ type := "switch", playerId := "p1", slot := 1 }, 10000, 0,
        rng0.src rng0.idx), ⟨rng0.src, rng0.idx + 1⟩)) ∧
    (mapOrder (mkState [mkCreature "a" "none" 100 100] [mkCreature "b" "none" 100 100])
      (fun _ => none)
      { type := "move", playerId := "p2", moveId := some "quick", priority := some 1 }
      rng0 =
      (({ type := "move", playerId := "p2", moveId := some "quick",
          priority := some 1 },
        getActionPriority
          (mkState [mkCreature "a" "none" 100 100] [mkCreature "b" "none" 100 100])
          { type := "move", playerId := "p2", moveId := some "quick",
            priority := some 1 }
          (((some "quick" : Option String)).bind (fun _ => (none : Option Move))),
        creatureSpeed
          (mkState [mkCreature "a" "none" 100 100] [mkCreature "b" "none" 100 100])
          "p2",
        rng0.src rng0.idx), ⟨rng0.src, rng0.idx + 1⟩)) ∧
    (actionLe ({ type := "use_item", playerId := "p1" }, 0, 0, 0)
        ({ type := "move", playerId := "p2" }, 1, 0, 0) = false ∧
      actionLe ({ type := "move", playerId := "p2" }, 1, 0, 0)
        ({ type := "use_item", playerId := "p1" }, 0, 0, 0) = true) := by
  refine ⟨?_, ?_, ?_⟩
  · exact action_ordering.1
      (mkState [mkCreature "a" "none" 100 100] [mkCreature "b" "none" 100 100])
      (fun _ => none) { type := "switch", playerId := "p1", slot := 1 } rng0 rfl
  · exact action_ordering.2.1
      (mkState [mkCreature "a" "none" 100 100] [mkCreature "b" "none" 100 100])
      (fun _ => none)
      { type := "move", playerId := "p2", moveId := some "quick", priority := some 1 }
      rng0 (by decide)
  · exact action_ordering.2.2.1
      ({ type := "use_item", playerId := "p1" }, 0, 0, 0)
      ({ type := "move", playerId := "p2" }, 1, 0, 0) (by norm_num)

/-- C4 (counterexample): a submitted `use_item` action does not get the
+10000 priority: the ordering map assigns it `getActionPriority`, which is 0
for an action with no explicit priority and no move, and 0 ≠ 10000 — so a
positive-priority move sorts before it (previous theorem, part 3), refuting
"every submitted use_item action is executed before every move action". -/
theorem C4_counterexample_use_item_priority :
    mapOrder (mkState [mkCreature "a" "none" 100 100] [mkCreature "b" "none" 100 100])
      (fun _ => none) { type := "use_item", playerId := "p1" } rng0 =
      (({ type := "use_item", playerId := "p1" }, 0,
        creatureSpeed
          (mkState [mkCreature "a" "none" 100 100] [mkCreature "b" "none" 100 100])
          "p1",
        rng0.src rng0.idx), ⟨rng0.src, rng0.idx + 1⟩) ∧
    (0 : ℚ) ≠ 10000 := by
  constructor
  · simp only [mapOrder, draw]
    rw [if_neg (by decide)]
    rfl
  · norm_num

/-! ### C1 — the resolver (`part_006` `stepBattle`) and `replayBattle`

The remaining machinery of one battle turn: the event-transform layer, the
ability event hooks and their runners (`abilities/index.js`), the status
hooks and their runners (`statuses/index.js`), the duration tickers, the
turn resolver and the replay driver.  The global `moves` table is passed
explicitly (`mt`), preserving key order for `Object.keys`. -/

/-- A move-table lookup (`moves[id]`). -/
def movesLookup (mt : List (String × Move)) (id : Option String) : Option Move :=
  id.bind (fun i => (mt.find? (fun p => p.1 == i)).map Prod.snd)

/-- `utils.js` `isReflectableStatusEvent`. -/
def isReflectableStatusEvent (type : String) : Bool :=
  type == "apply_status" || type == "remove_status" || type == "replace_status" ||
  type == "modify_stage" || type == "clear_stages" || type == "reset_stages" ||
  type == "disable_move" || type == "cure_all_status"

/-- An event transform (`{type, from?, target?, targetType?, targetId?, to?,
priority?}`; `from` is a Lean keyword, so the field is `fromT`). -/
structure EventTransform where
  type : String
  fromT : Option String := none
  target : Option String := none
  targetType : Option String := none
  targetId : Option String := none
  toEvents : List Event := []
  priority : Option ℚ := none

/-- A transform matches an event's `targetId` when it names none or the same
one (`!t.targetId || t.targetId === ev.targetId`). -/
def transformTargetMatches (t : EventTransform) (ev : Event) : Bool :=
  match t.targetId with
  | none => true
  | some tid => ev.targetId == some tid

/-- `part_006` `applyEventTransforms`. -/
def applyEventTransforms (events : List Event) (transforms : List EventTransform) :
    List Event :=
  if transforms.isEmpty then events
  else
    events.foldl
      (fun acc ev =>
        let cancel := transforms.find? (fun t =>
          t.type == "cancel_event" &&
          (t.target == some ev.typeTag || t.targetType == some ev.typeTag ||
            t.fromT == some ev.typeTag) &&
          transformTargetMatches t ev)
        if cancel.isSome then acc
        else
          let rep := transforms.find? (fun t =>
            t.type == "replace_event" &&
            (t.fromT == some ev.typeTag || t.targetType == some ev.typeTag) &&
            transformTargetMatches t ev)
          match rep with
          | some t => acc ++ t.toEvents
          | none => acc ++ [ev])
      []

/-- The descending-priority stable sort of `collectEventTransforms`. -/
def sortTransforms (transforms : List EventTransform) : List EventTransform :=
  transforms.mergeSort (fun a b => decide ((b.priority.getD 0) ≤ (a.priority.getD 0)))

/-- `abilities/index.js` `onlyPositiveStages`. -/
def onlyPositiveStages (stages : List (String × ℚ)) : List (String × ℚ) :=
  stages.filter (fun kv => 0 < kv.2)

/-- `abilities/index.js` `BAN_COPY_ABILITIES`. -/
def BAN_COPY_ABILITIES : List String :=
  ["receiver", "power_of_alchemy", "trace", "wonder_guard", "forecast",
   "flower_gift", "multitype", "illusion", "imposter", "stance_change",
   "power_construct", "schooling", "comatose", "shields_down", "disguise",
   "battle_bond", "rk_system", "ice_face", "gulp_missile", "hung_switch",
   "commander", "quark_drive", "protosynthesis"]

/-- `abilities/index.js` `markAbilityUsed` (the three scratch keys the
registry passes). -/
def markAbilityUsed (state : BattleState) (playerId key : String) : BattleState :=
  match state.players.find? (fun p => p.id == playerId) with
  | none => state
  | some _ =>
    updateActiveCreature state playerId (fun c =>
      { c with abilityData :=
          match key with
          | "intimidateUsed" => { c.abilityData with intimidateUsed := true }
          | "downloadUsed" => { c.abilityData with downloadUsed := true }
          | "droughtUsed" => { c.abilityData with droughtUsed := true }
          | _ => c.abilityData })

/-- What an ability event-hook handler returns (`{state?, events?,
overrideAction?, preventAction?}`). -/
structure AbilityHandlerResult where
  state : Option BattleState := none
  events : List Event := []
  overrideAction : Option Action := none
  preventAction : Bool := false

/-- `abilities/index.js` `copyFaintedAbility` (receiver, power_of_alchemy). -/
def copyFaintedAbility (state : BattleState) (player : Player) (abilityId : String) :
    AbilityHandlerResult :=
  match player.lastFaintedAbility with
  | none => {}
  | some last =>
    if last == abilityId || BAN_COPY_ABILITIES.contains last then {}
    else
      match getActiveCreature state player.id with
      | none => {}
      | some c =>
        if c.ability ≠ abilityId then {}
        else
          { state := some (updateActiveCreature state player.id (fun c =>
              { c with
                ability := last,
                abilityData := { c.abilityData with copiedAbility := some last } })),
            events := [.log (c.name ++ " copied " ++ last ++ "!")] }

/-- `onImmunity` check handlers (intimidate immunity simplifications). -/
def abilityCheckImmunity (ability type : String) : Option Bool :=
  match ability with
  | "own_tempo" => some (type == "intimidate")
  | "clear_body" => some (type == "intimidate")
  | "white_smoke" => some (type == "intimidate")
  | "hyper_cutter" => some (type == "intimidate")
  | _ => none

/-- `runAbilityCheckHook(state, pid, "onImmunity", {source, type})`, default
`false`. -/
def runCheckImmunity (state : BattleState) (playerId type : String) : Bool :=
  match hookActive state playerId with
  | none => false
  | some active => (abilityCheckImmunity active.ability type).getD false

/-- `onTrap` check handler (shadow_tag). -/
def runCheckTrap (state : BattleState) (playerId targetId : String) : Bool :=
  match hookActive state playerId with
  | none => false
  | some active =>
    match active.ability with
    | "shadow_tag" =>
      if targetId == playerId then false
      else
        match getActiveCreature state targetId with
        | some target => !(target.ability == "shadow_tag")
        | none => true
    | _ => false

/-- `runAbilityCheckHook(state, pid, "onCheckItem", {action}, true)` (klutz,
unnerve), default `true`. -/
def runCheckItem (state : BattleState) (playerId : String) : Bool :=
  match hookActive state playerId with
  | none => true
  | some active => (abilityCheckItem active.ability).getD true

/-- The ability event hooks `runAbilityHooks` dispatches, with their call-site
payload. -/
inductive AbilityHook where
  | onSwitchIn
  | onTurnStart
  | onTurnEnd
  | onBeforeAction (action : Action)

/-- `Math.floor(rng() * stats.length)` as a list index (`stats[i]` is
`undefined` out of range, giving the stage key "undefined"). -/
def statAtRoll (stats : List String) (v : ℚ) : String :=
  let i : ℤ := ⌊v * stats.length⌋
  ((if 0 ≤ i then stats.get? i.toNat else none)).getD "undefined"

/-- The `while (down === up)` redraw loop of moody, bounded by fuel: the
source loops forever on a stream that never yields a different stat; the
model returns `up` after exhausting its fuel and agrees with the source on
every stream where the loop terminates within the fuel. -/
def moodyDownLoop (stats : List String) (up : String) : ℕ → RngState → String × RngState
  | 0, r => (up, r)
  | fuel + 1, r =>
    let (v, r) := draw r
    let down := statAtRoll stats v
    if down == up then moodyDownLoop stats up fuel r else (down, r)

/-- The ability event-hook registry (`onSwitchIn` / `onTurnStart` /
`onTurnEnd` / `onBeforeAction` entries of `abilities/index.js`).  `none`
means the ability implements no handler for the hook; `some none` models a
handler that throws. -/
def abilityHookHandler (mt : List (String × Move)) (ability : String)
    (hook : AbilityHook) (state : BattleState) (player : Player) (active : Creature)
    (r : RngState) : Option (Option (AbilityHandlerResult × RngState)) :=
  match ability, hook with
  | "intimidate", .onSwitchIn => some (some (
      if active.abilityData.intimidateUsed then ({}, r)
      else
        let next := markAbilityUsed state player.id "intimidateUsed"
        let events := next.players.foldl (fun acc other =>
          if other.id == player.id then acc
          else match getActiveCreature next other.id with
            | none => acc
            | some _ =>
              if runCheckImmunity next other.id "intimidate" then acc
              else acc ++ [Event.modify_stage other.id [("atk", -1)] true false true
                { source := some player.id }]) []
        ({ state := some next, events := events }, r)))
  | "download", .onSwitchIn => some (some (
      if active.abilityData.downloadUsed then ({}, r)
      else
        match state.players.find? (fun p => !(p.id == player.id)) with
        | none => ({}, r)
        | some targetPlayer =>
          match getActiveCreature state targetPlayer.id with
          | none => ({}, r)
          | some target =>
            let raise := if target.defense < target.spDefense then "atk" else "spa"
            let next := markAbilityUsed state player.id "downloadUsed"
            ({ state := some next,
               events := [.modify_stage player.id [(raise, 1)] true false true
                 { source := some player.id }] }, r)))
  | "drought", .onSwitchIn => some (
      if active.abilityData.droughtUsed then some ({}, r)
      else
        let next := markAbilityUsed state player.id "droughtUsed"
        let next := setWeather next "sun" (some 5)
        (applyEvent next (.log "The sunlight turned harsh.")).map (fun next =>
          ({ state := some next, events := [] }, r)))
  | "receiver", .onSwitchIn => some (some (copyFaintedAbility state player "receiver", r))
  | "power_of_alchemy", .onSwitchIn =>
    some (some (copyFaintedAbility state player "power_of_alchemy", r))
  | "moody", .onTurnEnd => some (some (
      let stats := ["atk", "def", "spa", "spd", "spe"]
      let (v, r) := draw r
      let up := statAtRoll stats v
      let (down, r) := moodyDownLoop stats up 1000 r
      ({ events := [.modify_stage player.id [(up, 2), (down, -1)] true false true
          { source := some player.id }] }, r)))
  | "libero", .onBeforeAction action => some (some (
      match (movesLookup mt action.moveId).bind Move.type with
      | none => ({}, r)
      | some mtype =>
        if active.abilityData.liberoUsed then ({}, r)
        else
          match getActiveCreature state player.id with
          | none => ({}, r)
          | some _ =>
            ({ state := some (updateActiveCreature state player.id (fun c =>
                { c with
                  types := [mtype],
                  abilityData := { c.abilityData with liberoUsed := true } })),
               events := [.log (active.name ++ " transformed into " ++ mtype ++
                 " type!")] }, r)))
  | _, _ => none

/-- What `runAbilityHooks` returns to the resolver. -/
structure AbilityRunOut where
  state : BattleState
  events : List Event
  overrideAction : Option Action := none
  preventAction : Bool := false

/-- `abilities/index.js` `runAbilityHooks` (event-style hooks). -/
def runAbilityHooks (mt : List (String × Move)) (state : BattleState)
    (playerId : String) (hook : AbilityHook) (r : RngState) :
    Option (AbilityRunOut × RngState) :=
  match getPlayer state playerId with
  | none => some ({ state := state, events := [] }, r)
  | some player =>
    match getActiveCreature state playerId with
    | none => some ({ state := state, events := [] }, r)
    | some active =>
      match abilityHookHandler mt active.ability hook state player active r with
      | none => some ({ state := state, events := [] }, r)
      | some none => none
      | some (some (res, r)) =>
        some ({ state := res.state.getD state, events := res.events,
                overrideAction := res.overrideAction,
                preventAction := res.preventAction }, r)

/-- `abilities/index.js` `runAllAbilityHooks`: fold `runAbilityHooks` over the
players of the incoming state (the JS `for...of` iterates the initial
`players` array), threading state, events and rng. -/
def runAllAbilityHooks (mt : List (String × Move)) (state : BattleState)
    (hook : AbilityHook) (r : RngState) : Option (BattleState × List Event × RngState) :=
  (state.players.map Player.id).foldlM
    (fun acc pid =>
      match acc with
      | (st, evs, r) =>
        (runAbilityHooks mt st pid hook r).map (fun (out, r) =>
          (out.state, evs ++ out.events, r)))
    (state, ([] : List Event), r)

/-- `{...event, targetId: t, meta: m}`: replace the target id and meta record
(magic_bounce only builds this for reflectable events, which all carry a
`targetId`; on the others the added `targetId` property is never read, so the
stray field is dropped). -/
def Event.retarget : Event → String → Meta → Event
  | .log msg, _, _ => .log msg
  | .switchE pid slot, _, _ => .switchE pid slot
  | .apply_status _ sid d st da _, t, m => .apply_status t sid d st da m
  | .remove_status _ sid _, t, m => .remove_status t sid m
  | .cure_all_status _ _, t, m => .cure_all_status t m
  | .replace_status _ f g d da _, t, m => .replace_status t f g d da m
  | .apply_field_status sid d st da _, _, m => .apply_field_status sid d st da m
  | .remove_field_status sid _, _, m => .remove_field_status sid m
  | .random_move pool _, _, m => .random_move pool m
  | .modify_stage _ st c f s _, t, m => .modify_stage t st c f s m
  | .clear_stages _ s _, t, m => .clear_stages t s m
  | .reset_stages _ s _, t, m => .reset_stages t s m
  | .damage _ a _, t, m => .damage t a m
  | .self_switch _, t, _ => .self_switch t
  | .force_switch _, t, _ => .force_switch t

/-- `onTryHit` interceptor handlers (magic_bounce, lightning_rod); the result
list replaces the event (`null` keeps it). -/
def abilityOnTryHit (mt : List (String × Move)) (ability : String) (state : BattleState)
    (player : Player) (active : Creature) (ev : Event) : Option (List Event) :=
  match ability with
  | "magic_bounce" =>
    let mv := movesLookup mt ev.meta.moveId
    (match ev.meta.source with
     | none => none
     | some sourceId =>
       if isReflectableStatusEvent ev.typeTag && !(some sourceId == ev.targetId) &&
           !ev.meta.bounced && isStatusMove mv then
         some [.log (active.name ++ " bounced the move back!"),
           ev.retarget sourceId { ev.meta with source := ev.targetId, bounced := true }]
       else none)
  | "lightning_rod" =>
    let mv := movesLookup mt ev.meta.moveId
    if ev.typeTag == "damage" && (mv.bind Move.type) == some "electric" then
      some [.modify_stage player.id [("spa", 1)] true false true
          { source := some player.id },
        .log (active.name ++ " drew in the electricity!")]
    else none
  | _ => none

/-- `onAfterEvent` reactor handlers (stamina, cotton_down, berserk,
competitive, opportunist); the result list is appended after the event. -/
def abilityOnAfterEvent (ability : String) (state : BattleState) (player : Player)
    (active : Creature) (ev : Event) : Option (List Event) :=
  match ability with
  | "stamina" =>
    if ev.typeTag == "damage" && ev.targetId == some player.id then
      some [.modify_stage player.id [("def", 1)] true false true
        { source := some player.id }]
    else none
  | "cotton_down" =>
    if ev.typeTag == "damage" && ev.targetId == some player.id then
      some (state.players.foldl (fun acc other =>
        if other.id == player.id then acc
        else acc ++ [Event.modify_stage other.id [("spe", -1)] true false true
          { source := some player.id }]) [])
    else none
  | "berserk" =>
    match ev with
    | .damage tid amount _ =>
      if tid == player.id && active.maxHp / 2 < active.hp &&
          active.hp - amount ≤ active.maxHp / 2 then
        some [.modify_stage player.id [("spa", 1)] true false true
          { source := some player.id }]
      else none
    | _ => none
  | "competitive" =>
    match ev with
    | .modify_stage tid stages _ _ _ m =>
      (match m.source with
       | none => none
       | some sourceId =>
         if tid == player.id && !(sourceId == player.id) && !m.competitive &&
             stages.any (fun kv => kv.2 < 0) then
           some [.modify_stage player.id [("spa", 2)] true false true
             { source := some player.id, competitive := true }]
         else none)
    | _ => none
  | "opportunist" =>
    match ev with
    | .modify_stage tid stages _ _ _ m =>
      if !(some player.id == some tid) && !m.opportunist then
        let boosts := onlyPositiveStages stages
        if boosts.length > 0 then
          some [.modify_stage player.id boosts true false true
            { source := some player.id, opportunist := true }]
        else none
      else none
    | _ => none
  | _ => none

/-- `abilities/index.js` `applyAbilityEventModifiers`: per event, the target's
`onTryHit` interceptor may replace it, then every player's `onAfterEvent`
reactor may append reactions after each surviving event. -/
def applyAbilityEventModifiers (mt : List (String × Move)) (state : BattleState)
    (events : List Event) : List Event :=
  events.foldl
    (fun output ev =>
      let currentEvents :=
        match ev.targetId with
        | none => [ev]
        | some tid =>
          match getPlayer state tid, getActiveCreature state tid with
          | some targetPlayer, some targetCreature =>
            (abilityOnTryHit mt targetCreature.ability state targetPlayer
              targetCreature ev).getD [ev]
          | _, _ => [ev]
      currentEvents.foldl
        (fun output processedEv =>
          let output := output ++ [processedEv]
          state.players.foldl
            (fun output player =>
              match getActiveCreature state player.id with
              | none => output
              | some active =>
                output ++ ((abilityOnAfterEvent active.ability state player active
                  processedEv).getD []))
            output)
        output)
    []

/-- `applyEffects(state, effects, ctx)` with `returnEvents = false`: build the
events (threading the compiler's in-place state writes), then apply them. -/
def applyEffectsSt (state : BattleState) (effects : List Effect) (ctx : EffectCtx)
    (r : RngState) : Option (BattleState × RngState) :=
  match applyEffectsEv state effects ctx r with
  | none => none
  | some (events, state, r) => (applyEvents state events).map (fun s => (s, r))

/-- `statuses/index.js` `findLastMoveFromHistory`. -/
def findLastMoveFromHistory (state : BattleState) (playerId : String) :
    Option String :=
  (state.history.getD []).reverse.findSome? (fun t =>
    (t.actions.reverse.find? (fun a => a.playerId == playerId && a.moveId.isSome)).bind
      Action.moveId)

/-- `statuses/index.js` `matchesTiming`. -/
def matchesTiming (hook timing : String) : Bool :=
  let t := jsToLower timing
  if t == "turn_start" then hook == "onTurnStart"
  else if t == "turn_end" then hook == "onTurnEnd"
  else true

/-- What a status hook handler receives: the working state, the player proxy
(with its `active` snapshot; both absent when dispatched for a field effect,
where reading them throws), the status instance (absent for field effects),
the hook name, and the call-site extras. -/
structure StatusHookIn where
  state : BattleState
  player : Option Player := none
  active : Option Creature := none
  status : Option VolatileStatus := none
  fieldEffect : Option FieldEffect := none
  hook : String
  action : Option Action := none
  move : Option Move := none
  events : List Event := []

/-- What a status hook handler returns. -/
structure StatusHookOut where
  state : Option BattleState := none
  events : List Event := []
  preventAction : Bool := false
  overrideAction : Option Action := none
  eventTransforms : List EventTransform := []

/-- `statuses/index.js` `handleDelayed`. -/
def handleDelayed (i : StatusHookIn) (r : RngState) :
    Option (StatusHookOut × RngState) :=
  match i.status with
  | none => none
  | some status =>
    let timing := (status.data.timing).getD "turn_end"
    if !matchesTiming i.hook timing then some ({}, r)
    else
      let beforeTrigger :=
        match status.data.triggerTurn with
        | none => (false : Bool)
        | some t => decide ((i.state.turn : ℚ) < t)
      if beforeTrigger then some ({}, r)
      else
        match (match status.data.targetId with
               | some t => some t
               | none => i.player.map Player.id),
              (match status.data.sourceId with
               | some s => some s
               | none => i.player.map Player.id) with
        | some targetId, some attackerId =>
          let ctx : EffectCtx :=
            { attacker := getActiveCreature i.state attackerId,
              target := getActiveCreature i.state targetId,
              move := none, attackerPlayerId := attackerId,
              targetPlayerId := targetId, turn := some i.state.turn }
          (applyEffectsSt i.state status.data.effects ctx r).map (fun (s, r) =>
            ({ state := some s }, r))
        | _, _ => none

/-- `statuses/index.js` `handleOverTime`. -/
def handleOverTime (i : StatusHookIn) (r : RngState) :
    Option (StatusHookOut × RngState) :=
  match i.status with
  | none => none
  | some status =>
    let timing := (status.data.timing).getD "turn_end"
    if !matchesTiming i.hook timing then some ({}, r)
    else
      match (match status.data.targetId with
             | some t => some t
             | none => i.player.map Player.id),
            (match status.data.sourceId with
             | some s => some s
             | none => i.player.map Player.id) with
      | some targetId, some attackerId =>
        let ctx : EffectCtx :=
          { attacker := getActiveCreature i.state attackerId,
            target := getActiveCreature i.state targetId,
            move := none, attackerPlayerId := attackerId,
            targetPlayerId := targetId, turn := some i.state.turn }
        (applyEffectsSt i.state status.data.effects ctx r).map (fun (s, r) =>
          ({ state := some s }, r))
      | _, _ => none

/-- Replace the `data` of the first status with the given id (the `yawn`
handler's in-place `status.data.turns` write, visible through the shared
status object). -/
def updateFirstStatusData (statuses : List VolatileStatus) (id : String)
    (f : SD → SD) : List VolatileStatus :=
  match statuses with
  | [] => []
  | s :: rest =>
    if s.id == id then { s with data := f s.data } :: rest
    else s :: updateFirstStatusData rest id f

/-- The status registry (`statuses/index.js`): one entry per implemented
(status id, hook) pair; the handler code is the registry member's body.
Handlers returning `none` model the TypeErrors of the source (reading
`player.active` or `status.data` when absent). -/
def statusRegistry :
    List (String × String × (StatusHookIn → RngState → Option (StatusHookOut × RngState))) := [
  ("burn", "onTurnEnd",
    fun i r =>
      match i.player, i.active with
      | some p, some a =>
        some ({ events := [.damage p.id (max 1 ⌊a.maxHp / 16⌋) { fromId := some "burn" },
          .log (a.name ++ " is hurt by its burn!")] }, r)
      | _, _ => none),
  ("poison", "onTurnEnd",
    fun i r =>
      match i.player, i.active with
      | some p, some a =>
        some ({ events := [.damage p.id (max 1 ⌊a.maxHp / 8⌋) { fromId := some "poison" },
          .log (a.name ++ " is hurt by poison!")] }, r)
      | _, _ => none),
  ("paralysis", "onBeforeAction",
    fun _ r =>
      let (v, r) := draw r
      if v < 1/4 then
        some ({ preventAction := true,
                events := [.log "It is fully paralyzed!"] }, r)
      else some ({}, r)),
  ("sleep", "onBeforeAction",
    fun i r =>
      match i.player, i.active with
      | some _, some a =>
        some ({ preventAction := true,
                events := [.log (a.name ++ " is fast asleep.")] }, r)
      | _, _ => none),
  ("freeze", "onBeforeAction",
    fun i r =>
      match i.player, i.active with
      | some p, some a =>
        let (v, r) := draw r
        if v < 1/5 then
          some ({ events := [.remove_status p.id "freeze" {},
            .log (a.name ++ " thawed out!")] }, r)
        else
          some ({ preventAction := true,
                  events := [.log (a.name ++ " is frozen solid!")] }, r)
      | _, _ => none),
  ("confusion", "onBeforeAction",
    fun i r =>
      let (v, r) := draw r
      if v < 33/100 then
        match i.player, i.active with
        | some p, some a =>
          some ({ preventAction := true,
                  events := [.log (a.name ++ " hurt itself in its confusion!"),
                    .damage p.id (max 1 ⌊a.maxHp * (1/10)⌋)
                      { fromId := some "confusion" }] }, r)
        | _, _ => none
      else some ({}, r)),
  ("flinch", "onBeforeAction",
    fun _ r =>
      some ({ preventAction := true, events := [.log "It flinched!"] }, r)),
  ("protect", "onEventTransform",
    fun i r =>
      match i.player, i.active with
      | some p, some a =>
        let incoming := i.events.filter (fun e => e.targetId == some p.id)
        if incoming.isEmpty then some ({}, r)
        else
          let transforms := (incoming.foldl (fun (acc : List EventTransform × List String) ev =>
            if ev.typeTag == "damage" || ev.typeTag == "apply_status" ||
                ev.typeTag == "modify_stage" then
              if ev.meta.source == some p.id then acc
              else if acc.2.contains ev.typeTag then acc
              else (acc.1 ++ [{ type := "replace_event", fromT := some ev.typeTag,
                                targetId := some p.id,
                                toEvents := [.log (a.name ++ " protected itself!")] }],
                acc.2 ++ [ev.typeTag])
            else acc) ([], [])).1
          some ({ eventTransforms := transforms }, r)
      | _, _ => none),
  ("lock_move", "onBeforeAction",
    fun i r =>
      match i.player, i.active with
      | some p, some a =>
        let mode := i.status.bind (fun s => s.data.mode)
        let data := (i.status.map VolatileStatus.data).getD SD.empty
        let lastMove :=
          match a.volatileData.lastMove with
          | some m => some m
          | none => findLastMoveFromHistory i.state p.id
        if mode == some "force_last_move" && lastMove.isSome then
          match lastMove, i.action with
          | some lm, some act =>
            some ({ overrideAction := some { act with moveId := some lm },
                    events := [.log (a.name ++ " is locked into " ++ lm ++ "!")] }, r)
          | _, _ => some ({}, r)
        else if mode == some "force_specific" && data.moveId.isSome then
          match data.moveId, i.action with
          | some mid, some act =>
            some ({ overrideAction := some { act with moveId := some mid },
                    events := [.log (a.name ++ " must use " ++ mid ++ "!")] }, r)
          | _, _ => some ({}, r)
        else some ({}, r)
      | _, _ => none),
  ("disable_move", "onBeforeAction",
    fun i r =>
      match i.status.bind (fun s => s.data.moveId) with
      | none => some ({}, r)
      | some mid =>
        if (i.action.bind Action.moveId) == some mid then
          match i.active with
          | some a =>
            some ({ preventAction := true,
                    events := [.log (a.name ++ " cannot use " ++ mid ++ "!")] }, r)
          | none => none
        else some ({}, r)),
  ("encore", "onBeforeAction",
    fun i r =>
      match i.status.bind (fun s => s.data.moveId) with
      | none => some ({}, r)
      | some mid =>
        if !((i.action.bind Action.moveId) == some mid) then
          match i.active, i.action with
          | some a, some act =>
            some ({ overrideAction := some { act with moveId := some mid },
                    events := [.log (a.name ++ " received an encore!")] }, r)
          | _, _ => none
        else some ({}, r)),
  ("taunt", "onBeforeAction",
    fun i r =>
      if (i.move.bind Move.category) == some "status" then
        match i.active with
        | some a =>
          some ({ preventAction := true,
                  events := [.log (a.name ++ " can't use " ++
                    ((i.move.map Move.name).getD "undefined") ++
                    " after the taunt!")] }, r)
        | none => none
      else some ({}, r)),
  ("leech_seed", "onTurnEnd",
    fun i r =>
      match i.status with
      | none => none
      | some status =>
        match status.data.sourceId with
        | none => some ({}, r)
        | some targetId =>
          let target := (getPlayer i.state targetId).bind
            (fun pl => pl.team.get? pl.activeSlot)
          match target with
          | none => some ({}, r)
          | some t =>
            if t.hp ≤ 0 then some ({}, r)
            else
              match i.player, i.active with
              | some p, some a =>
                let d := max 1 ⌊a.maxHp / 8⌋
                some ({ events :=
                        [.log (a.name ++ "'s health is sapped by Leech Seed!"),
                         .damage p.id d { fromId := some "leech_seed" },
                         .damage targetId (-d)
                           { fromId := some "leech_seed_heal" }] }, r)
              | _, _ => none),
  ("curse", "onTurnEnd",
    fun i r =>
      match i.player, i.active with
      | some p, some a =>
        some ({ events := [.log (a.name ++ " is afflicted by the curse!"),
                .damage p.id (max 1 ⌊a.maxHp / 4⌋) { fromId := some "curse" }] }, r)
      | _, _ => none),
  ("yawn", "onTurnEnd",
    fun i r =>
      match i.status with
      | none => none
      | some status =>
        match i.player, i.active with
        | some p, some a =>
          let turns := (status.data.turns).getD 1
          if 0 < turns then
            some ({ state := some (updateActiveCreature i.state p.id (fun c =>
                      { c with statuses := updateFirstStatusData c.statuses "yawn" (fun sd => sd.setTurns (some (turns - 1))) })),
                    events := [.log (a.name ++ " is getting drowsy...")] }, r)
          else
            let (v, r) := draw r
            let duration : ℚ := 2 + ⌊v * (4 - 2 + 1)⌋
            some ({ events := [.remove_status p.id "yawn" {},
                      .apply_status p.id "sleep" (some duration) false SD.empty {}] }, r)
        | _, _ => none),
  ("charging_solar_beam", "onBeforeAction",
    fun i r =>
      match i.status with
      | none => none
      | some status =>
        let data := status.data
        if data.mode == some "force_specific" && data.moveId.isSome then
          match data.moveId, i.action with
          | some mid, some act =>
            some ({ overrideAction := some { act with moveId := some mid } }, r)
          | _, _ => some ({}, r)
        else some ({}, r)),
  ("delayed_effect", "onTurnStart",
    handleDelayed),
  ("delayed_effect", "onTurnEnd",
    handleDelayed),
  ("over_time_effect", "onTurnEnd",
    handleOverTime)]

/-- `getStatus(id)?.[hook]`. -/
def statusHandler (id hook : String) :
    Option (StatusHookIn → RngState → Option (StatusHookOut × RngState)) :=
  (statusRegistry.find? (fun e => e.1 == id && e.2.1 == hook)).map (fun e => e.2.2)

/-- What `runStatusHooks` returns to the resolver. -/
structure StatusRunOut where
  state : BattleState
  events : List Event
  preventAction : Bool := false
  overrideAction : Option Action := none
  eventTransforms : List EventTransform := []

/-- `statuses/index.js` `runStatusHooks`: iterate the active creature's
statuses (snapshot), dispatch each implemented handler with the player proxy
built from the incoming state, threading the working state, collected events,
flags and rng; the last `overrideAction` wins. -/
def runStatusHooks (state : BattleState) (playerId hook : String)
    (action : Option Action) (move : Option Move) (events : List Event)
    (r : RngState) : Option (StatusRunOut × RngState) :=
  match getPlayer state playerId with
  | none => some ({ state := state, events := [] }, r)
  | some player =>
    match getActiveCreature state playerId with
    | none => some ({ state := state, events := [] }, r)
    | some active =>
      active.statuses.foldlM
        (fun (acc : StatusRunOut × RngState) status =>
          match statusHandler status.id hook with
          | none => some acc
          | some handler =>
            (handler { state := acc.1.state, player := some player,
                       active := some active, status := some status, hook := hook,
                       action := action, move := move, events := events } acc.2).map
              (fun (out, r) =>
                ({ state := out.state.getD acc.1.state,
                   events := acc.1.events ++ out.events,
                   preventAction := acc.1.preventAction || out.preventAction,
                   overrideAction :=
                     match out.overrideAction with
                     | some o => some o
                     | none => acc.1.overrideAction,
                   eventTransforms := acc.1.eventTransforms ++ out.eventTransforms },
                 r)))
        ({ state := state, events := [] }, r)

/-- `statuses/index.js` `runFieldHooks`: dispatch the status registry on each
`field.global` entry (snapshot), with no player proxy; handler state results
replace the working state, events and transforms accumulate. -/
def runFieldHooks (state : BattleState) (hook : String) (events : List Event)
    (r : RngState) : Option (StatusRunOut × RngState) :=
  state.fieldGlobal.foldlM
    (fun (acc : StatusRunOut × RngState) effect =>
      match statusHandler effect.id hook with
      | none => some acc
      | some handler =>
        (handler { state := acc.1.state, fieldEffect := some effect, hook := hook,
                   events := events } acc.2).map
          (fun (out, r) =>
            ({ state := out.state.getD acc.1.state,
               events := acc.1.events ++ out.events,
               eventTransforms := acc.1.eventTransforms ++ out.eventTransforms },
             r)))
    ({ state := state, events := [] }, r)

/-- Decrement a non-null `remainingTurns`. -/
def tickTurns (s : VolatileStatus) : VolatileStatus :=
  match s.remainingTurns with
  | none => s
  | some n => { s with remainingTurns := some (n - 1) }

/-- Keep entries whose `remainingTurns` is null or still positive. -/
def keepTicked (s : VolatileStatus) : Bool :=
  match s.remainingTurns with
  | none => true
  | some n => decide (0 < n)

/-- `tickTurns` for `field.global` entries. -/
def tickFieldTurns (e : FieldEffect) : FieldEffect :=
  match e.remainingTurns with
  | none => e
  | some n => { e with remainingTurns := some (n - 1) }

/-- `keepTicked` for `field.global` entries. -/
def keepFieldTicked (e : FieldEffect) : Bool :=
  match e.remainingTurns with
  | none => true
  | some n => decide (0 < n)

/-- `statuses/index.js` `tickStatuses`. -/
def tickStatuses (state : BattleState) : BattleState :=
  { state with players := state.players.map (fun p =>
      match p.team.get? p.activeSlot with
      | none => p
      | some _ =>
        updateTeamSlot p p.activeSlot (fun c =>
          { c with statuses := (c.statuses.map tickTurns).filter keepTicked })) }

/-- `statuses/index.js` `tickFieldEffects`. -/
def tickFieldEffects (state : BattleState) : BattleState :=
  { state with fieldGlobal :=
      (state.fieldGlobal.map tickFieldTurns).filter keepFieldTicked }

/-- `part_006` `collectEventTransforms`: gather transforms from every
player's statuses and the field (against the same state), sorted by
descending priority. -/
def collectEventTransforms (state : BattleState) (events : List Event)
    (r : RngState) : Option (List EventTransform × RngState) :=
  match state.players.foldlM
      (fun (acc : List EventTransform × RngState) player =>
        (runStatusHooks state player.id "onEventTransform" none none events
          acc.2).map (fun (out, r) => (acc.1 ++ out.eventTransforms, r)))
      (([] : List EventTransform), r) with
  | none => none
  | some (transforms, r) =>
    (runFieldHooks state "onEventTransform" events r).map (fun (out, r) =>
      (sortTransforms (transforms ++ out.eventTransforms), r))

/-- `part_006` `isBattleOver`. -/
def isBattleOver (state : BattleState) : Bool :=
  state.players.any (fun p => !(p.team.any (fun c => 0 < c.hp)))

/-- `movePp[moveId] = v` (existing key keeps its position, new key appends —
JS object key order). -/
def movePpSet (l : List (String × Option ℚ)) (k : String) (v : Option ℚ) :
    List (String × Option ℚ) :=
  match l with
  | [] => [(k, v)]
  | kv :: rest => if kv.1 == k then (k, v) :: rest else kv :: movePpSet rest k v

/-- `part_006` `ensureMovePp`: the remaining pp (null = unlimited) and the
creature with the entry initialised (the JS in-place write). -/
def ensureMovePp (c : Creature) (moveId : String) (moveDef : Move) :
    Option ℚ × Creature :=
  match c.movePp.find? (fun kv => kv.1 == moveId) with
  | some kv => (kv.2, c)
  | none =>
    let v := moveDef.pp
    (v, { c with movePp := c.movePp ++ [(moveId, v)] })

/-- `part_006` `hasMovePp` (also returns the creature `ensureMovePp` wrote). -/
def hasMovePp (c : Creature) (moveId : String) (moveDef : Move) : Bool × Creature :=
  let (remaining, c) := ensureMovePp c moveId moveDef
  match remaining with
  | none => (true, c)
  | some n => (decide (0 < n), c)

/-- `part_006` `consumeMovePp`. -/
def consumeMovePp (c : Creature) (moveId : String) (moveDef : Move) :
    Bool × Creature :=
  let (remaining, c) := ensureMovePp c moveId moveDef
  match remaining with
  | none => (true, c)
  | some n =>
    if n ≤ 0 then (false, c)
    else (true, { c with movePp := movePpSet c.movePp moveId (some (n - 1)) })

/-- `part_006` `chooseRandomMove`: pick a candidate pool, filter to moves the
attacker still has pp for (the `hasMovePp` calls initialise pp entries in
place, so the updated state is returned too), then one draw indexes the
choice. -/
def chooseRandomMove (mt : List (String × Move)) (state : BattleState)
    (pool : String) (attackerId : String) (r : RngState) :
    Option String × BattleState × RngState :=
  let allMoveIds := mt.map Prod.fst
  let candidates :=
    match pool with
    | "self_moves" =>
      let active := if attackerId == "" then none
        else getActiveCreature state attackerId
      match active with
      | some a => if a.moves.length > 0 then a.moves else allMoveIds
      | none => allMoveIds
    | "physical" => allMoveIds.filter (fun id =>
        (movesLookup mt (some id)).bind Move.category == some "physical")
    | "special" => allMoveIds.filter (fun id =>
        (movesLookup mt (some id)).bind Move.category == some "special")
    | "status" => allMoveIds.filter (fun id =>
        (movesLookup mt (some id)).bind Move.category == some "status")
    | _ => allMoveIds
  let attacker := if attackerId == "" then none else getActiveCreature state attackerId
  let fa : List String × Option Creature :=
    candidates.foldl (fun (acc : List String × Option Creature) id =>
      match movesLookup mt (some id) with
      | none => acc
      | some moveDef =>
        match acc.2 with
        | none => (acc.1 ++ [id], none)
        | some att =>
          let (ok, att) := hasMovePp att id moveDef
          (if ok then acc.1 ++ [id] else acc.1, some att))
      (([] : List String), attacker)
  let filtered := fa.1
  let state :=
    match fa.2 with
    | some att => updateActiveCreature state attackerId (fun _ => att)
    | none => state
  if filtered.length == 0 then (none, state, r)
  else
    let (v, r) := draw r
    let i : ℤ := ⌊v * filtered.length⌋
    ((if 0 ≤ i then filtered.get? i.toNat else none), state, r)

/-- The `for (const subEffect of chosenMove.effects)` loop of the
`random_move` expansion (a fresh ctx per sub-effect). -/
def applySubEffects (pid targetPid : String) (chosenMove : Move) :
    List Effect → BattleState → RngState → Option (List Event × BattleState × RngState)
  | [], next, r => some ([], next, r)
  | eff :: rest, next, r =>
    match applyEffect next eff
        { attacker := getActiveCreature next pid,
          target := getActiveCreature next targetPid, move := some chosenMove,
          attackerPlayerId := pid, targetPlayerId := targetPid,
          turn := some next.turn } r with
    | none => none
    | some (evs, next, r) =>
      (applySubEffects pid targetPid chosenMove rest next r).map
        (fun (evs2, n, r) => (evs ++ evs2, n, r))

/-- The inline `random_move` expansion of the move pipeline. -/
def expandRandomMoves (mt : List (String × Move)) (pid targetPid : String)
    (attackerFreshName : String) :
    List Event → BattleState → RngState → Option (List Event × BattleState × RngState)
  | [], next, r => some ([], next, r)
  | ev :: rest, next, r =>
    match ev with
    | .random_move pool _ =>
      let (chosen, next, r) := chooseRandomMove mt next pool pid r
      (match chosen with
       | none =>
         (expandRandomMoves mt pid targetPid attackerFreshName rest next r).map
           (fun (evs, n, r) =>
             ([Event.log (attackerFreshName ++
               " tried to use a random move but failed!")] ++ evs, n, r))
       | some chosenMoveId =>
         match movesLookup mt (some chosenMoveId) with
         | none => expandRandomMoves mt pid targetPid attackerFreshName rest next r
         | some chosenMove =>
           let cn : Bool × BattleState :=
             match getActiveCreature next pid with
             | none => (true, next)
             | some att =>
               let (ok, att) := consumeMovePp att chosenMoveId chosenMove
               (ok, updateActiveCreature next pid (fun _ => att))
           let consumed := cn.1
           let next := cn.2
           if !consumed then
             (expandRandomMoves mt pid targetPid attackerFreshName rest next r).map
               (fun (evs, n, r) =>
                 ([Event.log (attackerFreshName ++ " has no PP left for " ++
                   chosenMove.name ++ "!")] ++ evs, n, r))
           else
             match applySubEffects pid targetPid chosenMove chosenMove.effects next r with
             | none => none
             | some (subEvents, next, r) =>
               (expandRandomMoves mt pid targetPid attackerFreshName rest next r).map
                 (fun (evs, n, r) =>
                   ([Event.log (attackerFreshName ++ " used " ++ chosenMove.name ++
                     "! (random)")] ++ subEvents ++ evs, n, r)))
    | _ =>
      (expandRandomMoves mt pid targetPid attackerFreshName rest next r).map
        (fun (evs, n, r) => ([ev] ++ evs, n, r))

/-- One `move.effects` iteration of the move pipeline: compile the effect,
run the ability event modifiers, collect and apply transforms, expand
`random_move` events, collect and apply transforms again, apply. -/
def runMoveEffects (mt : List (String × Move)) (pid targetPid : String)
    (move : Move) (attackerFreshName : String) :
    List Effect → BattleState → RngState → Option (BattleState × RngState)
  | [], next, r => some (next, r)
  | effect :: rest, next, r => do
    let (effectEvents, next, r) ← applyEffect next effect
      { attacker := getActiveCreature next pid,
        target := getActiveCreature next targetPid, move := some move,
        attackerPlayerId := pid, targetPlayerId := targetPid,
        turn := some next.turn } r
    let abilityEvents := applyAbilityEventModifiers mt next effectEvents
    let (transforms, r) ← collectEventTransforms next abilityEvents r
    let finalEvents := applyEventTransforms abilityEvents transforms
    let (expandedEvents, next, r) ←
      expandRandomMoves mt pid targetPid attackerFreshName finalEvents next r
    let (finalTransforms, r) ← collectEventTransforms next expandedEvents r
    let finalTransformed := applyEventTransforms expandedEvents finalTransforms
    let next ← applyEvents next finalTransformed
    runMoveEffects mt pid targetPid move attackerFreshName rest next r

/-- Run the per-player status hooks of the turn boundaries (`for (const
player of next.players) { runStatusHooks(...); apply events }`). -/
def runTurnStatusHooks (hook : String) :
    List String → BattleState → RngState → Option (BattleState × RngState)
  | [], next, r => some (next, r)
  | pid :: rest, next, r => do
    let (out, r) ← runStatusHooks next pid hook none none [] r
    let next ← applyEvents out.state out.events
    runTurnStatusHooks hook rest next r

/-- The `for (const action of ordered)` execution loop.  Returns the
processed entries (with the in-place `Object.assign` action overrides
recorded history later sees), the state and the rng; `none` models a thrown
TypeError. -/
def execActions (mt : List (String × Move)) :
    List (Action × ℚ × ℚ × ℚ) → BattleState → RngState →
    Option (List (Action × ℚ × ℚ × ℚ) × BattleState × RngState)
  | [], next, r => some ([], next, r)
  | entry :: rest, next, r =>
    let action := entry.1
    let pid := action.playerId
    let attackerP := getPlayer next pid
    let keep : Action → (Action × ℚ × ℚ × ℚ) := fun a => (a, entry.2)
    let andRest : Action → BattleState → RngState →
        Option (List (Action × ℚ × ℚ × ℚ) × BattleState × RngState) :=
      fun a next r => (execActions mt rest next r).map
        (fun (es, n, r) => (keep a :: es, n, r))
    if action.type == "switch" then
      let trapped : Option Bool :=
        match getActiveCreature next pid with
        | some active =>
          if 0 < active.hp then
            if active.types.contains "ghost" then some false
            else some ((next.players.find? (fun p =>
              !(p.id == pid) && runCheckTrap next p.id pid)).isSome)
          else some false
        | none => some false
      match trapped with
      | none => none
      | some true =>
        match attackerP with
        | none => none
        | some ap => do
          let next ← applyEvent next (.log (ap.name ++ " couldn't switch out!"))
          andRest action next r
      | some false => do
        let next ← applyEvent next (.switchE pid action.slot)
        let (abOut, r) ← runAbilityHooks mt next pid .onSwitchIn r
        let next ← applyEvents abOut.state abOut.events
        andRest action next r
    else if action.type == "use_item" then
      let active := getActiveCreature next pid
      let canUse := runCheckItem next pid
      if !canUse then
        match attackerP with
        | none => none
        | some ap => do
          let next ← applyEvent next (.log (ap.name ++ " cannot use items!"))
          andRest action next r
      else if !(hasItem active) then
        match attackerP with
        | none => none
        | some ap => do
          let next ← applyEvent next (.log (ap.name ++ " has no item to use."))
          andRest action next r
      else
        let itemId := getItemId active
        let next := updateActiveCreature next pid clearItemStatus
        let next :=
          if (itemId.map includesBerry).getD false then
            updateActiveCreature next pid (fun c =>
              { c with statuses := c.statuses ++ [⟨"berry_consumed", none, SD.empty⟩] })
          else next
        match attackerP with
        | none => none
        | some ap => do
          let next ← applyEvent next (.log (ap.name ++ " used its " ++
            (itemId.getD "item") ++ "!"))
          andRest action next r
    else
      -- move action
      let active := getActiveCreature next pid
      let actionMove := movesLookup mt action.moveId
      let next :=
        match actionMove with
        | some m =>
          if !(m.effects.any (fun e => match e with | .protect => true | _ => false)) then
            match active with
            | some _ => updateActiveCreature next pid (fun c =>
                { c with volatileData :=
                    { c.volatileData with protectSuccessCount := 0 } })
            | none => next
          else next
        | none => next
      match active with
      | none => do
        let next ← applyEvent next (.log ("Player " ++ pid ++ " cannot act."))
        andRest action next r
      | some active =>
        if active.hp ≤ 0 then do
          let next ← applyEvent next (.log ("Player " ++ pid ++ " cannot act."))
          andRest action next r
        else
          let targetIdOpt : Option String :=
            match action.targetId with
            | some t => some t
            | none => (next.players.find? (fun p => !(p.id == pid))).map Player.id
          match targetIdOpt.bind (fun tid => (getPlayer next tid).map (fun tp => (tid, tp))) with
          | none => do
            let next ← applyEvent next (.log ("No valid target for " ++ pid ++ "."))
            andRest action next r
          | some (targetId, targetPlayer) => do
            let (abOut, r) ← runAbilityHooks mt next pid (.onBeforeAction action) r
            let next ← applyEvents abOut.state abOut.events
            if abOut.preventAction then andRest action next r
            else
              let action := (abOut.overrideAction).getD action
              let (stOut, r) ← runStatusHooks next pid "onBeforeAction" (some action)
                (movesLookup mt action.moveId) [] r
              let next ← applyEvents stOut.state stOut.events
              if stOut.preventAction then andRest action next r
              else
                let action := (stOut.overrideAction).getD action
                let (fieldOut, r) ← runFieldHooks next "onBeforeAction" [] r
                let next ← applyEvents fieldOut.state fieldOut.events
                match getActiveCreature next pid, getActiveCreature next targetId with
                | some attackerFresh, some _ =>
                  if attackerFresh.hp ≤ 0 then andRest action next r
                  else
                    (match movesLookup mt action.moveId with
                     | none => do
                       let next ← applyEvent next (.log ("Unknown move " ++
                         (action.moveId.getD "undefined")))
                       andRest action next r
                     | some move =>
                       let moveId := action.moveId.getD "undefined"
                       let (hasPp, attackerFresh) := hasMovePp attackerFresh moveId move
                       let next := updateActiveCreature next pid (fun _ => attackerFresh)
                       if !hasPp then do
                         let next ← applyEvent next (.log (attackerFresh.name ++
                           " has no PP left for " ++ move.name ++ "!"))
                         andRest action next r
                       else
                         let (_, attackerFresh2) := consumeMovePp attackerFresh moveId move
                         let next := updateActiveCreature next pid (fun _ => attackerFresh2)
                         let next := updateActiveCreature next pid (fun c =>
                           { c with volatileData :=
                               { c.volatileData with lastMove := action.moveId } })
                         do
                           let (next, r) ← runMoveEffects mt pid targetPlayer.id move
                             attackerFresh.name move.effects next r
                           if isBattleOver next then some ([keep action], next, r)
                           else andRest action next r)
                | _, _ => andRest action next r

/-- `part_006` `stepBattle`: one full turn.  The turn's consumed rng values
are recovered from the cursor span (every `rngRecorder()` call advances the
shared stream by one). -/
def stepBattle (mt : List (String × Move)) (state : BattleState)
    (actions : List Action) (r : RngState) (recordHistory : Bool) :
    Option (BattleState × RngState) := do
  let startIdx := r.idx
  let next := { state with turn := state.turn + 1 }
  let logStart := next.log.length
  let next ← applyEvent next (.log ("--- Turn " ++ toString next.turn ++ " ---"))
  let (next, evs, r) ← runAllAbilityHooks mt next .onTurnStart r
  let next ← applyEvents next evs
  let (next, r) ← runTurnStatusHooks "onTurnStart" (next.players.map Player.id) next r
  let (fieldStart, r) ← runFieldHooks next "onTurnStart" [] r
  let next ← applyEvents fieldStart.state fieldStart.events
  let (mapped, r) := mapActions next (fun id => movesLookup mt (some id)) actions r
  let ordered := mapped.mergeSort actionLe
  let (processed, next, r) ← execActions mt ordered next r
  let (next, r) ← runTurnStatusHooks "onTurnEnd" (next.players.map Player.id) next r
  let (next, evs, r) ← runAllAbilityHooks mt next .onTurnEnd r
  let next ← applyEvents next evs
  let (fieldEnd, r) ← runFieldHooks next "onTurnEnd" [] r
  let next ← applyEvents fieldEnd.state fieldEnd.events
  let next := tickStatuses next
  let next := tickFieldEffects next
  let next :=
    if recordHistory then
      { next with history := some ((next.history.getD []) ++
          [{ turn := next.turn,
             actions := processed.map (fun e => { e.1 with priority := some e.2.1 }),
             log := next.log.drop logStart,
             rng := (List.range (r.idx - startIdx)).map
               (fun i => r.src (startIdx + i)) }]) }
    else next
  some (next, r)

/-- `engine-legacy/core/replay.js` `replayBattle`: re-run each recorded turn
with the recorded rng injected (out-of-range draws fall back to the ambient
`Math.random`, modelled by `fallback`, one stream per recorded turn) and
history recording off. -/
def replayBattle (mt : List (String × Move)) (initialState : BattleState)
    (history : Option (List TurnRecord)) (fallback : ℕ → ℕ → ℚ) :
    Option BattleState :=
  ((history.getD []).enum.foldlM
    (fun (next : BattleState) (ti : ℕ × TurnRecord) =>
      let src : ℕ → ℚ := fun i =>
        match ti.2.rng.get? i with
        | some v => v
        | none => fallback ti.1 i
      (stepBattle mt next ti.2.actions ⟨src, 0⟩ false).map Prod.fst)
    initialState)

/-! #### History-frame lemmas: nothing below the recording block of
`stepBattle` ever writes `state.history`. -/

@[simp]
theorem history_updatePlayer (s : BattleState) (pid : String) (f : Player → Player) :
    (updatePlayer s pid f).history = s.history := rfl

@[simp]
theorem history_updateActiveCreature (s : BattleState) (pid : String)
    (f : Creature → Creature) : (updateActiveCreature s pid f).history = s.history := rfl

@[simp]
theorem history_pushLog (s : BattleState) (m : String) :
    (pushLog s m).history = s.history := rfl

@[simp]
theorem history_setWeather (s : BattleState) (id : String) (t : Option ℚ) :
    (setWeather s id t).history = s.history := rfl

@[simp]
theorem history_markAbilityUsed (s : BattleState) (pid key : String) :
    (markAbilityUsed s pid key).history = s.history := by
  simp only [markAbilityUsed]
  split
  · rfl
  · rfl

@[simp]
theorem history_tickStatuses (s : BattleState) :
    (tickStatuses s).history = s.history := rfl

@[simp]
theorem history_tickFieldEffects (s : BattleState) :
    (tickFieldEffects s).history = s.history := rfl

theorem applyEvent_history (s : BattleState) (e : Event) (s' : BattleState)
    (h : applyEvent s e = some s') : s'.history = s.history := by
  cases e <;> simp only [applyEvent] at h <;>
    (repeat' split at h) <;>
    (try cases h) <;>
    simp

theorem applyEvents_history (evs : List Event) (s s' : BattleState)
    (h : applyEvents s evs = some s') : s'.history = s.history := by
  induction evs generalizing s with
  | nil => simp only [applyEvents] at h; cases h; rfl
  | cons ev rest ih =>
    simp only [applyEvents] at h
    split at h
    · exact Option.noConfusion h
    · exact (ih _ h).trans (applyEvent_history _ _ _ (by assumption))

/-- The damage pipeline never replaces the state it was given. -/
theorem damageEffectEvents_state (s : BattleState) (power accuracy : Option ℚ)
    (ctx : EffectCtx) (r : RngState) (evs : List Event) (s' : BattleState)
    (r' : RngState) (h : damageEffectEvents s power accuracy ctx r = some (evs, s', r')) :
    s' = s := by
  simp only [damageEffectEvents] at h
  (repeat' split at h) <;> first
    | exact Option.noConfusion h
    | (cases h; rfl)

/-- No effect-compiler run ever writes `history`: joint statement over the
three mutually recursive compiler functions, by strong induction on the
effect size. -/
theorem effect_history_frame : ∀ k : ℕ,
    (∀ (state : BattleState) (effect : Effect) (ctx : EffectCtx) (r : RngState)
      (evs : List Event) (s' : BattleState) (r' : RngState), sizeOf effect ≤ k →
      applyEffect state effect ctx r = some (evs, s', r') →
      s'.history = state.history) ∧
    (∀ (state : BattleState) (effects : List Effect) (ctx : EffectCtx) (r : RngState)
      (evs : List Event) (s' : BattleState) (r' : RngState), sizeOf effects + 1 ≤ k →
      applyEffectsEv state effects ctx r = some (evs, s', r') →
      s'.history = state.history) ∧
    (∀ (state : BattleState) (n : ℕ) (effects : List Effect) (ctx : EffectCtx)
      (r : RngState) (evs : List Event) (s' : BattleState) (r' : RngState),
      sizeOf effects + 1 ≤ k →
      applyEffectsTimes state n effects ctx r = some (evs, s', r') →
      s'.history = state.history) := by
  intro k
  induction k using Nat.strong_induction_on with
  | _ k IH =>
    have hEv : ∀ (state : BattleState) (effects : List Effect) (ctx : EffectCtx)
        (r : RngState) (evs : List Event) (s' : BattleState) (r' : RngState),
        sizeOf effects + 1 ≤ k →
        applyEffectsEv state effects ctx r = some (evs, s', r') →
        s'.history = state.history := by
      intro state effects ctx r evs s' r' hsz h
      cases effects with
      | nil => rw [applyEffectsEv] at h; cases h; rfl
      | cons e rest =>
        simp only [List.cons.sizeOf_spec] at hsz
        rw [applyEffectsEv] at h
        (try simp only [] at h) <;> (repeat' split at h) <;>
          first
            | exact Option.noConfusion h
            | (cases h;
               refine ((IH (sizeOf rest + 1) ?_).2.1 _ rest _ _ _ _ _ ?_
                   (by assumption)).trans
                 ((IH (sizeOf e) ?_).1 _ e _ _ _ _ _ ?_ (by assumption)) <;> omega)
    have hTimes : ∀ (n : ℕ) (state : BattleState) (effects : List Effect)
        (ctx : EffectCtx) (r : RngState) (evs : List Event) (s' : BattleState)
        (r' : RngState), sizeOf effects + 1 ≤ k →
        applyEffectsTimes state n effects ctx r = some (evs, s', r') →
        s'.history = state.history := by
      intro n
      induction n with
      | zero =>
        intro state effects ctx r evs s' r' hsz h
        rw [applyEffectsTimes] at h; cases h; rfl
      | succ m ihn =>
        intro state effects ctx r evs s' r' hsz h
        rw [applyEffectsTimes] at h
        (try simp only [] at h) <;> (repeat' split at h) <;>
          first
            | exact Option.noConfusion h
            | (cases h;
               exact (ihn _ _ _ _ _ _ _ hsz (by assumption)).trans
                 (hEv _ _ _ _ _ _ _ hsz (by assumption)))
    refine ⟨?_, hEv, fun state n => hTimes n state⟩
    intro state effect ctx r evs s' r' hsz h
    cases effect
    case repeatE times count effs =>
      rcases times with _ | ts
      · rcases count with _ | cs
        · simp at hsz
          rw [applyEffect] at h <;> (try simp only [] at h) <;>
            (repeat' split at h) <;>
            first
              | exact Option.noConfusion h
              | (cases h; rfl)
              | (cases h; refine hTimes _ _ effs _ _ _ _ _ ?_ (by assumption); omega)
        · cases cs <;>
            simp at hsz <;>
            rw [applyEffect] at h <;> (try simp only [] at h) <;>
            (repeat' split at h) <;>
            first
              | exact Option.noConfusion h
              | (cases h; rfl)
              | (cases h; refine hTimes _ _ effs _ _ _ _ _ ?_ (by assumption); omega)
      · cases ts <;>
          simp at hsz <;>
          rw [applyEffect] at h <;> (try simp only [] at h) <;>
          (repeat' split at h) <;>
          first
            | exact Option.noConfusion h
            | (cases h; rfl)
            | (cases h; refine hTimes _ _ effs _ _ _ _ _ ?_ (by assumption); omega)
    case conditional ifC thenE elseE =>
      rcases thenE with _ | te <;> rcases elseE with _ | ee <;>
        simp at hsz <;>
        rw [applyEffect] at h <;> (try simp only [] at h) <;>
        (repeat' split at h) <;>
        first
          | exact Option.noConfusion h
          | (cases h; rfl)
          | (refine hEv _ te _ _ _ _ _ ?_ h; omega)
          | (refine hEv _ ee _ _ _ _ _ ?_ h; omega)
    case chance p thenE elseE =>
      rcases elseE with _ | ee <;>
        simp at hsz <;>
        rw [applyEffect] at h <;> (try simp only [] at h) <;>
        (repeat' split at h) <;>
        first
          | exact Option.noConfusion h
          | (cases h; rfl)
          | (refine hEv _ thenE _ _ _ _ _ ?_ h; omega)
          | (refine hEv _ ee _ _ _ _ _ ?_ h; omega)
    all_goals
      (rw [applyEffect] at h <;> (try simp only [] at h) <;>
        (repeat' split at h) <;>
        first
          | exact Option.noConfusion h
          | (cases h; rfl)
          | (cases h; simp)
          | (rw [damageEffectEvents_state _ _ _ _ _ _ _ _ h]))
theorem applyEffectsEv_history (state : BattleState) (effects : List Effect)
    (ctx : EffectCtx) (r : RngState) (evs : List Event) (s' : BattleState)
    (r' : RngState) (h : applyEffectsEv state effects ctx r = some (evs, s', r')) :
    s'.history = state.history :=
  (effect_history_frame (sizeOf effects + 1)).2.1 state effects ctx r evs s' r'
    (le_refl _) h

theorem applyEffectsSt_history (state : BattleState) (effects : List Effect)
    (ctx : EffectCtx) (r : RngState) (s' : BattleState) (r' : RngState)
    (h : applyEffectsSt state effects ctx r = some (s', r')) :
    s'.history = state.history := by
  simp only [applyEffectsSt] at h
  split at h
  · exact Option.noConfusion h
  · rename_i events stMid r2 heq
    rcases hap : applyEvents stMid events with _ | s2
    · rw [hap] at h; exact Option.noConfusion h
    · rw [hap, Option.map_some'] at h
      cases h
      exact (applyEvents_history _ _ _ hap).trans
        (applyEffectsEv_history _ _ _ _ _ _ _ heq)

theorem handleDelayed_history (i : StatusHookIn) (r : RngState)
    (out : StatusHookOut) (r' : RngState) (hrun : handleDelayed i r = some (out, r'))
    (st : BattleState) (hst : out.state = some st) :
    st.history = i.state.history := by
  simp only [handleDelayed] at hrun
  (repeat' split at hrun) <;>
    first
      | exact Option.noConfusion hrun
      | (cases hrun; exact Option.noConfusion hst)
      | (rcases hap : applyEffectsSt i.state _ _ r with _ | ⟨s2, r2⟩ <;>
          rw [hap] at hrun <;>
          first
            | (rw [Option.map_none'] at hrun; exact Option.noConfusion hrun)
            | (rw [Option.map_some'] at hrun; cases hrun; cases hst;
               exact applyEffectsSt_history _ _ _ _ _ _ hap))

theorem handleOverTime_history (i : StatusHookIn) (r : RngState)
    (out : StatusHookOut) (r' : RngState) (hrun : handleOverTime i r = some (out, r'))
    (st : BattleState) (hst : out.state = some st) :
    st.history = i.state.history := by
  simp only [handleOverTime] at hrun
  (repeat' split at hrun) <;>
    first
      | exact Option.noConfusion hrun
      | (cases hrun; exact Option.noConfusion hst)
      | (rcases hap : applyEffectsSt i.state _ _ r with _ | ⟨s2, r2⟩ <;>
          rw [hap] at hrun <;>
          first
            | (rw [Option.map_none'] at hrun; exact Option.noConfusion hrun)
            | (rw [Option.map_some'] at hrun; cases hrun; cases hst;
               exact applyEffectsSt_history _ _ _ _ _ _ hap))

set_option maxHeartbeats 2000000 in
theorem statusRegistry_history :
    ∀ e ∈ statusRegistry, ∀ (i : StatusHookIn) (r : RngState)
      (out : StatusHookOut) (r' : RngState), e.2.2 i r = some (out, r') →
      ∀ st : BattleState, out.state = some st → st.history = i.state.history := by
  intro e he
  fin_cases he <;>
    intro i r out r' hrun st hst <;>
    simp only [draw] at hrun <;>
    first
      | exact handleDelayed_history _ _ _ _ hrun _ hst
      | exact handleOverTime_history _ _ _ _ hrun _ hst
      | ((repeat' split at hrun) <;>
         first
           | exact Option.noConfusion hrun
           | (cases hrun; exact Option.noConfusion hst)
           | (cases hrun; cases hst; simp))

theorem statusHandler_history (id hook : String)
    (f : StatusHookIn → RngState → Option (StatusHookOut × RngState))
    (hf : statusHandler id hook = some f) (i : StatusHookIn) (r : RngState)
    (out : StatusHookOut) (r' : RngState) (hrun : f i r = some (out, r'))
    (st : BattleState) (hst : out.state = some st) :
    st.history = i.state.history := by
  simp only [statusHandler, Option.map_eq_some'] at hf
  obtain ⟨e, hfind, hfe⟩ := hf
  subst hfe
  exact statusRegistry_history e (List.mem_of_find?_eq_some hfind) i r out r'
    hrun st hst

end Nikopoke
